import Mathlib

/-!
# cppbrowser: the customization engine

A shallow embedding of `CustomizationEngine` (src/CustomizationEngine.cpp) and of
the toolkit objects it drives, followed by theorems about its behaviour.

The toolkit objects (application, main window, web view, page, profile, file)
are modelled by the interface the engine consumes: each attribute the code sets
is a field, written by the setter and read back by the getter. Signals emitted
by the engine and diagnostics printed with `qWarning` are kept as logs.

Conventions:
* an engine method `void f(args)` is a function `f args : CustomizationEngine →
  CustomizationEngine` on the state of the engine and of the toolkit around it;
* a C++ `int` is an `Int`; `isInt32` marks the values an `int` can hold;
* a `QMap` or `QJsonObject` is the list of its entries in key order;
* a settings file holds either a JSON value or text that does not parse.
-/

namespace CppBrowser

/-! ## QMap: a key-ordered map with string keys -/

/-- A `QMap<QString, T>`: the entries in iteration order (ascending keys). The
operations below accept any list; `QMap.WF` says the keys are strictly ascending. -/
abbrev QMap (α : Type) := List (String × α)

/-- Lexicographic comparison of two character sequences by character code. -/
def ltChars : List Char → List Char → Bool
  | [], [] => false
  | [], _ :: _ => true
  | _ :: _, [] => false
  | a :: as, b :: bs =>
    if a.toNat < b.toNat then true
    else if a.toNat = b.toNat then ltChars as bs
    else false

/-- `QString::operator<`: the order in which a `QMap` keeps its keys. -/
def QString.lt (a b : String) : Bool := ltChars a.data b.data

namespace QMap

/-- `QMap::value(key)` as an option: the entry stored under `key`, if any. -/
def value {α : Type} (m : QMap α) (key : String) : Option α :=
  List.lookup key m

/-- `QMap::contains(key)`. -/
def contains {α : Type} (m : QMap α) (key : String) : Bool :=
  (QMap.value m key).isSome

/-- `QMap::keys()`: the keys in ascending order. -/
def keys {α : Type} (m : QMap α) : List String :=
  m.map Prod.fst

/-- `m[key] = v`: overwrite the entry under `key`, or add it at its place in
key order. -/
def insert {α : Type} (key : String) (v : α) : QMap α → QMap α
  | [] => [(key, v)]
  | (k, w) :: rest =>
    if QString.lt key k then (key, v) :: (k, w) :: rest
    else if key = k then (key, v) :: rest
    else (k, w) :: insert key v rest

/-- `QMap::remove(key)`: drop every entry stored under `key`. -/
def remove {α : Type} (key : String) (m : QMap α) : QMap α :=
  m.filter (fun e => e.1 != key)

/-- Well-formed maps list their keys in strictly ascending order. -/
def WF {α : Type} (m : QMap α) : Prop :=
  (QMap.keys m).Pairwise (fun a b => QString.lt a b = true)

instance {α : Type} (m : QMap α) : Decidable (QMap.WF m) := by
  unfold QMap.WF; infer_instance

end QMap

/-! ## JSON values -/

/-- A `QJsonValue`. Numbers are rationals; objects list their members in key order. -/
inductive QJsonValue where
  | null
  | bool (b : Bool)
  | number (q : ℚ)
  | string (s : String)
  | array (items : List QJsonValue)
  | object (members : List (String × QJsonValue))

/-- A `QJsonObject`: a key-ordered map of JSON values. -/
abbrev QJsonObject := QMap QJsonValue

/-- The range of a C++ `int`. -/
def isInt32 (n : Int) : Prop := -2147483648 ≤ n ∧ n ≤ 2147483647

instance (n : Int) : Decidable (isInt32 n) := by
  unfold isInt32; infer_instance

namespace QJsonValue

/-- `QJsonValue::toString()`: the string, or the empty string for any other type. -/
def toString : QJsonValue → String
  | .string s => s
  | _ => ""

/-- `QJsonValue::toBool()`: the boolean, or `false` for any other type. -/
def toBool : QJsonValue → Bool
  | .bool b => b
  | _ => false

/-- `QJsonValue::toInt()`: a whole number within the `int` range, or `0`. -/
def toInt : QJsonValue → Int
  | .number q => if q.den = 1 ∧ isInt32 q.num then q.num else 0
  | _ => 0

/-- `QJsonValue::isObject()`. -/
def isObject : QJsonValue → Bool
  | .object _ => true
  | _ => false

/-- `QJsonValue::toObject()`: the object, or an empty object for any other type. -/
def toObject : QJsonValue → QJsonObject
  | .object members => members
  | _ => []

/-- `QJsonValue::isArray()`. -/
def isArray : QJsonValue → Bool
  | .array _ => true
  | _ => false

/-- `QJsonValue::toArray()`: the array, or an empty array for any other type. -/
def toArray : QJsonValue → List QJsonValue
  | .array items => items
  | _ => []

/-- A JSON number holding a C++ `int`. -/
def ofInt (n : Int) : QJsonValue := .number (n : ℚ)

end QJsonValue

namespace QJsonObject

/-- `QJsonObject::contains(key)`. -/
def contains (root : QJsonObject) (key : String) : Bool :=
  QMap.contains root key

/-- `root[key]` read as a value: the member, or a null value when it is absent. -/
def get (root : QJsonObject) (key : String) : QJsonValue :=
  (QMap.value root key).getD QJsonValue.null

end QJsonObject

/-! ## Toolkit value types -/

/-- A `QColor` as an RGB triple. -/
structure QColor where
  red : Fin 256
  green : Fin 256
  blue : Fin 256
deriving DecidableEq, Repr

/-- One lower-case hexadecimal digit. -/
def hexDigit (n : Nat) : Char :=
  if n < 10 then Char.ofNat (48 + n) else Char.ofNat (87 + n)

/-- Two hexadecimal digits of a colour channel. -/
def hexByte (n : Fin 256) : String :=
  String.mk [hexDigit (n.val / 16), hexDigit (n.val % 16)]

/-- `QColor::name()`: the colour written as `#rrggbb`. -/
def QColor.name (c : QColor) : String :=
  "#" ++ hexByte c.red ++ hexByte c.green ++ hexByte c.blue

/-- A colour stored in a palette: a colour as given, or the toolkit's
`lighter(factor)` / `darker(factor)` adjustment of one, kept symbolic. -/
inductive PaletteColor where
  | plain (c : QColor)
  | lighter (c : QColor) (factor : Int)
  | darker (c : QColor) (factor : Int)
deriving DecidableEq, Repr

/-- A `QFont`: the four attributes the engine reads and writes. -/
structure QFont where
  family : String
  pointSize : Int
  weight : Int
  italic : Bool
deriving DecidableEq, Repr

/-- `QFont(family, pointSize)`: normal weight (50), upright. -/
def QFont.ofFamilySize (family : String) (pointSize : Int) : QFont :=
  { family := family, pointSize := pointSize, weight := 50, italic := false }

/-- A `QPalette`: the nine colour roles the engine writes; `otherRoles` stands
for the roles it never touches. -/
structure QPalette where
  window : PaletteColor
  windowText : PaletteColor
  base : PaletteColor
  alternateBase : PaletteColor
  text : PaletteColor
  button : PaletteColor
  buttonText : PaletteColor
  highlight : PaletteColor
  highlightedText : PaletteColor
  otherRoles : List PaletteColor
deriving DecidableEq, Repr

/-- A `Theme` record (CustomizationEngine.h). -/
structure Theme where
  name : String
  backgroundColor : QColor
  textColor : QColor
  accentColor : QColor
  mainFont : QFont
deriving DecidableEq, Repr

/-- A `QWidget` with its palette, font and child widgets. -/
inductive QWidget where
  | mk (palette : QPalette) (font : QFont) (children : List QWidget)

/-- `QTabWidget::TabPosition`. -/
inductive TabPosition where
  | North
  | South
  | West
  | East
deriving DecidableEq, Repr

/-- `TabOrientation` (CustomizationEngine.h). -/
inductive TabOrientation where
  | Horizontal
  | Vertical
deriving DecidableEq, Repr

/-- `Qt::TopToolBarArea`. -/
def Qt.TopToolBarArea : Int := 4

/-- `Qt::LeftDockWidgetArea`. -/
def Qt.LeftDockWidgetArea : Int := 1

/-- The main window the engine holds as `m_mainWindow`. -/
structure MainWindow where
  /-- the window as a widget: palette, font and child widgets -/
  widget : QWidget
  /-- whether `qobject_cast<QMainWindow*>(m_mainWindow)` succeeds -/
  isQMainWindow : Bool
  /-- the tab widget found by `findChild<QTabWidget*>()`, with its tab position -/
  tabWidget : Option TabPosition
  /-- the toolbar found by `findChild<QToolBar*>()`, with its toolbar area -/
  toolBar : Option Int
  /-- visibility of the status bar -/
  statusBarVisible : Bool
  /-- the dock widget found by `findChild<QDockWidget*>()`, with its dock area -/
  sidebar : Option Int
  /-- the dynamic property `currentTheme` (`none` when it was never set) -/
  currentTheme : Option String
  /-- the dynamic property `currentColorScheme` (`none` when it was never set) -/
  currentColorScheme : Option String

/-- `QWebEngineScript::InjectionPoint`. -/
inductive InjectionPoint where
  | Deferred
  | DocumentReady
  | DocumentCreation
deriving DecidableEq, Repr

/-- `QWebEngineScript::ScriptWorldId`. -/
inductive ScriptWorldId where
  | MainWorld
  | ApplicationWorld
  | UserWorld
deriving DecidableEq, Repr

/-- A `QWebEngineScript`. -/
structure QWebEngineScript where
  name : String
  sourceCode : String
  injectionPoint : InjectionPoint
  worldId : ScriptWorldId
  runsOnSubFrames : Bool
  urlPattern : Option String
deriving DecidableEq, Repr

/-- A default-constructed `QWebEngineScript`. -/
def QWebEngineScript.default : QWebEngineScript :=
  { name := "", sourceCode := "", injectionPoint := InjectionPoint.Deferred,
    worldId := ScriptWorldId.MainWorld, runsOnSubFrames := false, urlPattern := none }

/-- The web view the engine holds as `m_webView`, with its page, settings and profile. -/
structure QWebEngineView where
  /-- `page()->scripts()`: the script collection, in insertion order -/
  scripts : List QWebEngineScript
  /-- the sources passed to `page()->runJavaScript`, oldest first -/
  javaScriptRun : List String
  /-- `settings()->fontSize(QWebEngineSettings::MinimumFontSize)` -/
  minimumFontSize : Int
  /-- `page()->profile()->httpAcceptLanguage()` -/
  httpAcceptLanguage : String
  /-- `page()->profile()->thirdPartyCookiePolicy()` as its enumerator value -/
  thirdPartyCookiePolicy : Int
  /-- `zoomFactor()` -/
  zoomFactor : ℚ

/-- Modelled from the spec: the enumerators of `ThirdPartyCookiesPolicy` are not
declared under src/; the default policy "Allow" is taken as the first enumerator. -/
def QWebEngineProfile.AllowThirdPartyCookies : Int := 0

/-- What a file holds: text that parses to a JSON value, or text that does not
parse. `QJsonDocument::toJson` followed by `QJsonDocument::fromJson` is taken to
give back the document, so the text written for a document is `json` of it. -/
inductive FileContent where
  | json (doc : QJsonValue)
  | malformed (text : String)

/-- The files the engine reads and writes, by name. -/
structure FileSystem where
  files : QMap FileContent
  /-- names that cannot be opened for reading -/
  unreadable : List String
  /-- names that cannot be opened for writing -/
  unwritable : List String

/-- The signals of `CustomizationEngine` (CustomizationEngine.h). -/
inductive Signal where
  | themeChanged (themeName : String)
  | tabOrientationChanged (orientation : TabOrientation)
  | customCSSInjected (url : String)
  | toolbarPositionChanged (area : Int)
  | statusBarVisibilityChanged (visible : Bool)
  | sidebarPositionChanged (area : Int)
  | globalFontChanged (font : QFont)
  | minimumFontSizeChanged (size : Int)
  | colorSchemeChanged (schemeName : String)
  | extensionInstalled (extensionId : String)
  | extensionUninstalled (extensionId : String)
  | extensionEnabledStateChanged (extensionId : String) (enabled : Bool)
  | userScriptAdded (name : String)
  | userScriptRemoved (name : String)
  | keyboardShortcutChanged (actionName : String) (shortcut : String)
  | doNotTrackChanged (enabled : Bool)
  | thirdPartyCookiesPolicyChanged (policy : Int)
deriving DecidableEq, Repr

/-- The messages the engine prints with `qWarning`. -/
inductive Diagnostic where
  | themeNotFound (themeName : String)
  | saveFailed (filename : String)
  | loadFailed (filename : String)
  | invalidJson (filename : String)
deriving DecidableEq, Repr

/-- The toolkit state around an engine: application, window, web view, files. -/
structure Host where
  /-- `QApplication::palette()` -/
  appPalette : QPalette
  /-- `QApplication::font()` -/
  appFont : QFont
  mainWindow : MainWindow
  webView : QWebEngineView
  fs : FileSystem
  /-- the messages printed with `qWarning`, oldest first -/
  diagnostics : List Diagnostic

/-- A `CustomizationEngine`: its three maps, the toolkit state it acts on, and
the signals it has emitted (oldest first). A `QKeySequence` is kept as its text. -/
structure CustomizationEngine extends Host where
  m_themes : QMap Theme
  m_customCSS : QMap String
  m_keyboardShortcuts : QMap String
  emitted : List Signal

/-! ## String helpers -/

/-- The apostrophe character. -/
def apostrophe : Char := Char.ofNat 39

/-- The backslash character. -/
def backslash : Char := Char.ofNat 92

/-- `QString::replace(before, after)` for a one-character `before`: every
occurrence of the character is replaced by `after`. -/
def replaceChar (before : Char) (after : List Char) : List Char → List Char
  | [] => []
  | c :: cs => if c = before then after ++ replaceChar before after cs
               else c :: replaceChar before after cs

/-- Whether `needle` occurs in the character sequence. -/
def containsChars (needle : List Char) : List Char → Bool
  | [] => needle.isEmpty
  | c :: cs => needle.isPrefixOf (c :: cs) || containsChars needle cs

/-- `QString::contains(needle)`. -/
def QString.contains (s needle : String) : Bool :=
  containsChars needle.data s.data

/-- `QFileInfo(path).baseName()`: the file name without its directory, up to
its first dot. -/
def baseName (path : String) : String :=
  String.mk (((path.data.reverse.takeWhile (fun c => c != Char.ofNat 47)).reverse).takeWhile
    (fun c => c != Char.ofNat 46))

/-- Whether every apostrophe of the text is escaped: preceded by an odd number
of consecutive backslashes. `pending` counts the backslashes seen just before. -/
def quotesEscapedFrom : Nat → List Char → Bool
  | _, [] => true
  | pending, c :: cs =>
    if c = apostrophe then pending % 2 == 1 && quotesEscapedFrom 0 cs
    else if c = backslash then quotesEscapedFrom (pending + 1) cs
    else quotesEscapedFrom 0 cs

/-- Whether a text placed inside a single-quoted JavaScript string literal
cannot end the literal: every apostrophe in it is escaped. -/
def quotesEscaped (text : List Char) : Bool := quotesEscapedFrom 0 text

/-! ## CustomizationEngine (src/CustomizationEngine.cpp) -/

/-- The nine `palette.setColor` calls that `applyTheme` (lines 56-64) and
`applyThemeToWidget` (lines 265-273) both make. -/
def setThemeColors (theme : Theme) (palette : QPalette) : QPalette :=
  { palette with
    window := PaletteColor.plain theme.backgroundColor
    windowText := PaletteColor.plain theme.textColor
    base := PaletteColor.lighter theme.backgroundColor 110
    alternateBase := PaletteColor.darker theme.backgroundColor 110
    text := PaletteColor.plain theme.textColor
    button := PaletteColor.plain theme.backgroundColor
    buttonText := PaletteColor.plain theme.textColor
    highlight := PaletteColor.plain theme.accentColor
    highlightedText := PaletteColor.plain theme.backgroundColor }

mutual
/-- `CustomizationEngine::applyThemeToWidget`: palette and font of the widget,
then of every child widget. -/
def applyThemeToWidget (theme : Theme) : QWidget → QWidget
  | QWidget.mk palette _ children =>
    QWidget.mk (setThemeColors theme palette) theme.mainFont (applyThemeToWidgets theme children)
/-- The loop of `applyThemeToWidget` over the child widgets. -/
def applyThemeToWidgets (theme : Theme) : List QWidget → List QWidget
  | [] => []
  | w :: ws => applyThemeToWidget theme w :: applyThemeToWidgets theme ws
end

/-- The style sheet text `applyTheme` builds from a theme (lines 42-50). -/
def themeCss (theme : Theme) : String :=
  "body \x7b  background-color: " ++ theme.backgroundColor.name ++ ";  color: " ++
    theme.textColor.name ++ ";\x7da \x7b color: " ++ theme.accentColor.name ++ "; \x7d"

namespace CustomizationEngine

/-- Emit a signal. -/
def emit (sig : Signal) (s : CustomizationEngine) : CustomizationEngine :=
  { s with emitted := s.emitted ++ [sig] }

/-- Print a message with `qWarning`. -/
def warn (d : Diagnostic) (s : CustomizationEngine) : CustomizationEngine :=
  { s with diagnostics := s.diagnostics ++ [d] }

/-- `CustomizationEngine::applyTheme` (lines 29-71). -/
def applyTheme (themeName : String) (s : CustomizationEngine) : CustomizationEngine :=
  match QMap.value s.m_themes themeName with
  | none => warn (Diagnostic.themeNotFound themeName) s
  | some theme =>
    let widget := applyThemeToWidget theme s.mainWindow.widget
    let s1 := { s with mainWindow := { s.mainWindow with widget := widget } }
    let script := "document.body.style.cssText = '" ++ themeCss theme ++ "';"
    let s2 := { s1 with webView :=
      { s1.webView with javaScriptRun := s1.webView.javaScriptRun ++ [script] } }
    let s3 := { s2 with appPalette := setThemeColors theme s2.appPalette }
    let s4 := { s3 with appFont := theme.mainFont }
    emit (Signal.themeChanged themeName) s4

/-- `CustomizationEngine::setTabOrientation` (lines 73-80). -/
def setTabOrientation (orientation : TabOrientation) (s : CustomizationEngine) :
    CustomizationEngine :=
  match s.mainWindow.tabWidget with
  | some _ =>
    let position :=
      if orientation = TabOrientation.Vertical then TabPosition.West else TabPosition.North
    emit (Signal.tabOrientationChanged orientation)
      { s with mainWindow := { s.mainWindow with tabWidget := some position } }
  | none => s

/-- The source text of the snippet `injectCustomCSS` generates (lines 88-95). -/
def customCssSource (css : String) : String :=
  "(function() \x7b    var style = document.createElement('style');    style.type = 'text/css';    style.innerHTML = '" ++
    String.mk (replaceChar apostrophe [backslash, apostrophe] css.data) ++
    "';    document.head.appendChild(style);\x7d)();"

/-- The script `injectCustomCSS` builds for a URL key and a CSS text (lines 86-98). -/
def customCssScript (url css : String) : QWebEngineScript :=
  { QWebEngineScript.default with
    name := "CustomCSS_" ++ url
    sourceCode := customCssSource css
    injectionPoint := InjectionPoint.DocumentReady
    worldId := ScriptWorldId.ApplicationWorld
    runsOnSubFrames := true }

/-- `scripts().insert(script)`: the script is added at the end of the collection.
The collection is not keyed by name: scripts already in it stay, also those
carrying the same name (`findScript` is the lookup of the first one by name). -/
def insertScript (script : QWebEngineScript) (s : CustomizationEngine) : CustomizationEngine :=
  { s with webView := { s.webView with scripts := s.webView.scripts ++ [script] } }

/-- `CustomizationEngine::injectCustomCSS` (lines 82-103). -/
def injectCustomCSS (url css : String) (s : CustomizationEngine) : CustomizationEngine :=
  let s1 := { s with m_customCSS := QMap.insert url css s.m_customCSS }
  let s2 := insertScript (customCssScript url css) s1
  emit (Signal.customCSSInjected url) s2

/-- `CustomizationEngine::setToolbarPosition` (lines 105-116). -/
def setToolbarPosition (area : Int) (s : CustomizationEngine) : CustomizationEngine :=
  if s.mainWindow.isQMainWindow then
    match s.mainWindow.toolBar with
    | some _ =>
      emit (Signal.toolbarPositionChanged area)
        { s with mainWindow := { s.mainWindow with toolBar := some area } }
    | none => s
  else s

/-- `CustomizationEngine::setStatusBarVisibility` (lines 118-125). -/
def setStatusBarVisibility (visible : Bool) (s : CustomizationEngine) : CustomizationEngine :=
  if s.mainWindow.isQMainWindow then
    emit (Signal.statusBarVisibilityChanged visible)
      { s with mainWindow := { s.mainWindow with statusBarVisible := visible } }
  else s

/-- `CustomizationEngine::setSidebarPosition` (lines 127-138). -/
def setSidebarPosition (area : Int) (s : CustomizationEngine) : CustomizationEngine :=
  if s.mainWindow.isQMainWindow then
    match s.mainWindow.sidebar with
    | some _ =>
      emit (Signal.sidebarPositionChanged area)
        { s with mainWindow := { s.mainWindow with sidebar := some area } }
    | none => s
  else s

/-- `CustomizationEngine::setGlobalFont` (lines 140-144). -/
def setGlobalFont (font : QFont) (s : CustomizationEngine) : CustomizationEngine :=
  emit (Signal.globalFontChanged font) { s with appFont := font }

/-- `CustomizationEngine::setMinimumFontSize` (lines 146-150). -/
def setMinimumFontSize (size : Int) (s : CustomizationEngine) : CustomizationEngine :=
  emit (Signal.minimumFontSizeChanged size)
    { s with webView := { s.webView with minimumFontSize := size } }

/-- `CustomizationEngine::setColorScheme` (lines 152-157): only the signal. -/
def setColorScheme (schemeName : String) (s : CustomizationEngine) : CustomizationEngine :=
  emit (Signal.colorSchemeChanged schemeName) s

/-- `CustomizationEngine::updateExtensionSettings` (lines 286-290): empty body. -/
def updateExtensionSettings (s : CustomizationEngine) : CustomizationEngine := s

/-- `CustomizationEngine::installExtension` (lines 159-166). -/
def installExtension (extensionPath : String) (s : CustomizationEngine) : CustomizationEngine :=
  updateExtensionSettings (emit (Signal.extensionInstalled (baseName extensionPath)) s)

/-- `CustomizationEngine::uninstallExtension` (lines 168-174). -/
def uninstallExtension (extensionId : String) (s : CustomizationEngine) : CustomizationEngine :=
  updateExtensionSettings (emit (Signal.extensionUninstalled extensionId) s)

/-- `CustomizationEngine::enableExtension` (lines 176-182). -/
def enableExtension (extensionId : String) (enable : Bool) (s : CustomizationEngine) :
    CustomizationEngine :=
  updateExtensionSettings (emit (Signal.extensionEnabledStateChanged extensionId enable) s)

/-- The script `addUserScript` builds (lines 186-195): each pattern of the list
overwrites the one set before it. -/
def userScript (name script : String) (urlPatterns : List String) : QWebEngineScript :=
  urlPatterns.foldl (fun sc pattern => { sc with urlPattern := some pattern })
    { QWebEngineScript.default with
      name := name
      sourceCode := script
      injectionPoint := InjectionPoint.DocumentReady
      worldId := ScriptWorldId.ApplicationWorld
      runsOnSubFrames := true }

/-- `CustomizationEngine::addUserScript` (lines 184-199). -/
def addUserScript (name script : String) (urlPatterns : List String) (s : CustomizationEngine) :
    CustomizationEngine :=
  emit (Signal.userScriptAdded name) (insertScript (userScript name script urlPatterns) s)

/-- `CustomizationEngine::removeUserScript` (lines 201-208): the first script
of that name, if there is one, is removed from the collection. -/
def removeUserScript (name : String) (s : CustomizationEngine) : CustomizationEngine :=
  match s.webView.scripts.find? (fun sc => sc.name == name) with
  | some script =>
    let remaining := s.webView.scripts.filter (fun sc => sc != script)
    emit (Signal.userScriptRemoved name)
      { s with webView := { s.webView with scripts := remaining } }
  | none => s

/-- `CustomizationEngine::setKeyboardShortcut` (lines 210-215). -/
def setKeyboardShortcut (actionName shortcut : String) (s : CustomizationEngine) :
    CustomizationEngine :=
  emit (Signal.keyboardShortcutChanged actionName shortcut)
    { s with m_keyboardShortcuts := QMap.insert actionName shortcut s.m_keyboardShortcuts }

/-- `CustomizationEngine::setDoNotTrack` (lines 217-221). -/
def setDoNotTrack (enable : Bool) (s : CustomizationEngine) : CustomizationEngine :=
  emit (Signal.doNotTrackChanged enable)
    { s with webView := { s.webView with httpAcceptLanguage := if enable then "DNT=1" else "" } }

/-- `CustomizationEngine::setThirdPartyCookiesPolicy` (lines 223-227). -/
def setThirdPartyCookiesPolicy (policy : Int) (s : CustomizationEngine) : CustomizationEngine :=
  emit (Signal.thirdPartyCookiesPolicyChanged policy)
    { s with webView := { s.webView with thirdPartyCookiePolicy := policy } }

/-- `CustomizationEngine::initializeDefaultThemes` (lines 239-260). -/
def initializeDefaultThemes (s : CustomizationEngine) : CustomizationEngine :=
  let lightTheme : Theme :=
    { name := "Light", backgroundColor := ⟨255, 255, 255⟩, textColor := ⟨0, 0, 0⟩,
      accentColor := ⟨30, 144, 255⟩, mainFont := QFont.ofFamilySize "Arial" 12 }
  let s1 := { s with m_themes := QMap.insert "Light" lightTheme s.m_themes }
  let darkTheme : Theme :=
    { name := "Dark", backgroundColor := ⟨45, 45, 45⟩, textColor := ⟨255, 255, 255⟩,
      accentColor := ⟨0, 191, 255⟩, mainFont := QFont.ofFamilySize "Arial" 12 }
  { s1 with m_themes := QMap.insert "Dark" darkTheme s1.m_themes }

/-- `CustomizationEngine::createCustomTheme` (lines 505-514). -/
def createCustomTheme (name : String) (backgroundColor textColor accentColor : QColor)
    (font : QFont) (s : CustomizationEngine) : CustomizationEngine :=
  let newTheme : Theme :=
    { name := name, backgroundColor := backgroundColor, textColor := textColor,
      accentColor := accentColor, mainFont := font }
  { s with m_themes := QMap.insert name newTheme s.m_themes }

/-- `CustomizationEngine::removeCustomTheme` (lines 516-521). -/
def removeCustomTheme (name : String) (s : CustomizationEngine) : CustomizationEngine :=
  if QMap.contains s.m_themes name && name != "Light" && name != "Dark" then
    { s with m_themes := QMap.remove name s.m_themes }
  else s

/-- `CustomizationEngine::availableThemes` (lines 523-526). -/
def availableThemes (s : CustomizationEngine) : List String :=
  QMap.keys s.m_themes

/-- `CustomizationEngine::setZoomFactor` (lines 528-531). -/
def setZoomFactor (factor : ℚ) (s : CustomizationEngine) : CustomizationEngine :=
  { s with webView := { s.webView with zoomFactor := factor } }

/-- `CustomizationEngine::zoomFactor` (lines 533-536). -/
def zoomFactor (s : CustomizationEngine) : ℚ :=
  s.webView.zoomFactor

/-- `QFile::open(QIODevice::ReadOnly)` followed by `readAll()`: the content of
the file, or `none` when the file is absent or cannot be opened for reading. -/
def readFile (fs : FileSystem) (filename : String) : Option FileContent :=
  if fs.unreadable.contains filename then none else QMap.value fs.files filename

/-- Whether `QFile::open(QIODevice::WriteOnly)` succeeds. -/
def canWrite (fs : FileSystem) (filename : String) : Bool :=
  !fs.unwritable.contains filename

/-- `QFile::write`: the file now holds the given content. -/
def writeFile (fs : FileSystem) (filename : String) (content : FileContent) : FileSystem :=
  { fs with files := QMap.insert filename content fs.files }

/-- The JSON object `saveSettingsToJson` writes for one script (lines 360-363). -/
def scriptObject (script : QWebEngineScript) : QJsonValue :=
  let scriptObj : QJsonObject := []
  let scriptObj := QMap.insert "name" (QJsonValue.string script.name) scriptObj
  let scriptObj := QMap.insert "source" (QJsonValue.string script.sourceCode) scriptObj
  let scriptObj := QMap.insert "urlPattern" (QJsonValue.string (script.urlPattern.getD "")) scriptObj
  QJsonValue.object scriptObj

/-- The JSON object `saveSettingsToJson` writes for a font (lines 337-341). -/
def fontObject (globalFont : QFont) : QJsonValue :=
  let fontObj : QJsonObject := []
  let fontObj := QMap.insert "family" (QJsonValue.string globalFont.family) fontObj
  let fontObj := QMap.insert "size" (QJsonValue.ofInt globalFont.pointSize) fontObj
  let fontObj := QMap.insert "weight" (QJsonValue.ofInt globalFont.weight) fontObj
  let fontObj := QMap.insert "italic" (QJsonValue.bool globalFont.italic) fontObj
  QJsonValue.object fontObj

/-- The document `saveSettingsToJson` builds (lines 294-378), before it is written. -/
def saveRoot (s : CustomizationEngine) : QJsonObject :=
  let root : QJsonObject := []
  -- Save theme
  let current := s.mainWindow.currentTheme.getD ""
  let root := QMap.insert "currentTheme"
    (QJsonValue.string (if (QMap.keys s.m_themes).contains current then current else "Light")) root
  -- Save tab orientation
  let root :=
    match s.mainWindow.tabWidget with
    | some position =>
      QMap.insert "tabOrientation"
        (QJsonValue.string (if position = TabPosition.West then "Vertical" else "Horizontal")) root
    | none => root
  -- Save custom CSS
  let customCSSObj : QJsonObject :=
    s.m_customCSS.foldl (fun obj e => QMap.insert e.1 (QJsonValue.string e.2) obj) []
  let root := QMap.insert "customCSS" (QJsonValue.object customCSSObj) root
  -- Save toolbar position
  let root :=
    if s.mainWindow.isQMainWindow then
      match s.mainWindow.toolBar with
      | some area => QMap.insert "toolbarPosition" (QJsonValue.ofInt area) root
      | none => root
    else root
  -- Save status bar visibility
  let root :=
    if s.mainWindow.isQMainWindow then
      QMap.insert "statusBarVisible" (QJsonValue.bool s.mainWindow.statusBarVisible) root
    else root
  -- Save sidebar position
  let root :=
    if s.mainWindow.isQMainWindow then
      match s.mainWindow.sidebar with
      | some area => QMap.insert "sidebarPosition" (QJsonValue.ofInt area) root
      | none => root
    else root
  -- Save global font
  let root := QMap.insert "globalFont" (fontObject s.appFont) root
  -- Save minimum font size
  let root := QMap.insert "minimumFontSize" (QJsonValue.ofInt s.webView.minimumFontSize) root
  -- Save color scheme
  let root := QMap.insert "colorScheme"
    (QJsonValue.string (s.mainWindow.currentColorScheme.getD "")) root
  -- Save extensions
  let root := QMap.insert "extensions" (QJsonValue.array []) root
  -- Save user scripts
  let userScriptsArray :=
    (s.webView.scripts.filter (fun sc => sc.worldId == ScriptWorldId.ApplicationWorld)).map
      scriptObject
  let root := QMap.insert "userScripts" (QJsonValue.array userScriptsArray) root
  -- Save keyboard shortcuts
  let shortcutsObj : QJsonObject :=
    s.m_keyboardShortcuts.foldl (fun obj e => QMap.insert e.1 (QJsonValue.string e.2) obj) []
  let root := QMap.insert "keyboardShortcuts" (QJsonValue.object shortcutsObj) root
  -- Save privacy settings
  let root := QMap.insert "doNotTrack"
    (QJsonValue.bool (QString.contains s.webView.httpAcceptLanguage "DNT=1")) root
  let root := QMap.insert "thirdPartyCookiesPolicy"
    (QJsonValue.ofInt s.webView.thirdPartyCookiePolicy) root
  root

/-- `CustomizationEngine::saveSettingsToJson` (lines 292-388). -/
def saveSettingsToJson (filename : String) (s : CustomizationEngine) : CustomizationEngine :=
  let root := saveRoot s
  if canWrite s.fs filename then
    { s with fs := writeFile s.fs filename (FileContent.json (QJsonValue.object root)) }
  else warn (Diagnostic.saveFailed filename) s

/-- The font `loadSettingsFromJson` builds from the `globalFont` object (lines 443-448). -/
def fontOfObject (fontObj : QJsonObject) : QFont :=
  { family := (QJsonObject.get fontObj "family").toString
    pointSize := (QJsonObject.get fontObj "size").toInt
    weight := (QJsonObject.get fontObj "weight").toInt
    italic := (QJsonObject.get fontObj "italic").toBool }

/-- Load theme (lines 408-411). -/
def loadTheme (root : QJsonObject) (s : CustomizationEngine) : CustomizationEngine :=
  if QJsonObject.contains root "currentTheme" then
    applyTheme (QJsonObject.get root "currentTheme").toString s
  else s

/-- Load tab orientation (lines 413-416). -/
def loadTabOrientation (root : QJsonObject) (s : CustomizationEngine) : CustomizationEngine :=
  if QJsonObject.contains root "tabOrientation" then
    setTabOrientation
      (if (QJsonObject.get root "tabOrientation").toString = "Vertical"
        then TabOrientation.Vertical else TabOrientation.Horizontal) s
  else s

/-- Load custom CSS (lines 418-424). -/
def loadCustomCSS (root : QJsonObject) (s : CustomizationEngine) : CustomizationEngine :=
  if QJsonObject.contains root "customCSS" && (QJsonObject.get root "customCSS").isObject then
    (QJsonObject.get root "customCSS").toObject.foldl
      (fun st e => injectCustomCSS e.1 e.2.toString st) s
  else s

/-- Load toolbar position (lines 426-429). -/
def loadToolbarPosition (root : QJsonObject) (s : CustomizationEngine) : CustomizationEngine :=
  if QJsonObject.contains root "toolbarPosition" then
    setToolbarPosition (QJsonObject.get root "toolbarPosition").toInt s
  else s

/-- Load status bar visibility (lines 431-434). -/
def loadStatusBarVisibility (root : QJsonObject) (s : CustomizationEngine) :
    CustomizationEngine :=
  if QJsonObject.contains root "statusBarVisible" then
    setStatusBarVisibility (QJsonObject.get root "statusBarVisible").toBool s
  else s

/-- Load sidebar position (lines 436-439). -/
def loadSidebarPosition (root : QJsonObject) (s : CustomizationEngine) : CustomizationEngine :=
  if QJsonObject.contains root "sidebarPosition" then
    setSidebarPosition (QJsonObject.get root "sidebarPosition").toInt s
  else s

/-- Load global font (lines 441-450). -/
def loadGlobalFont (root : QJsonObject) (s : CustomizationEngine) : CustomizationEngine :=
  if QJsonObject.contains root "globalFont" && (QJsonObject.get root "globalFont").isObject then
    setGlobalFont (fontOfObject (QJsonObject.get root "globalFont").toObject) s
  else s

/-- Load minimum font size (lines 452-455). -/
def loadMinimumFontSize (root : QJsonObject) (s : CustomizationEngine) : CustomizationEngine :=
  if QJsonObject.contains root "minimumFontSize" then
    setMinimumFontSize (QJsonObject.get root "minimumFontSize").toInt s
  else s

/-- Load color scheme (lines 457-460). -/
def loadColorScheme (root : QJsonObject) (s : CustomizationEngine) : CustomizationEngine :=
  if QJsonObject.contains root "colorScheme" then
    setColorScheme (QJsonObject.get root "colorScheme").toString s
  else s

/-- Load extensions (lines 462-471): the loop body does nothing. -/
def loadExtensions (root : QJsonObject) (s : CustomizationEngine) : CustomizationEngine :=
  if QJsonObject.contains root "extensions" && (QJsonObject.get root "extensions").isArray then
    (QJsonObject.get root "extensions").toArray.foldl (fun st _ => st) s
  else s

/-- The body of the user-script loop (lines 477-482). -/
def loadUserScript (s : CustomizationEngine) (scriptValue : QJsonValue) : CustomizationEngine :=
  if scriptValue.isObject then
    addUserScript (QJsonObject.get scriptValue.toObject "name").toString
      (QJsonObject.get scriptValue.toObject "source").toString
      [(QJsonObject.get scriptValue.toObject "urlPattern").toString] s
  else s

/-- Load user scripts (lines 473-484). -/
def loadUserScripts (root : QJsonObject) (s : CustomizationEngine) : CustomizationEngine :=
  if QJsonObject.contains root "userScripts" && (QJsonObject.get root "userScripts").isArray then
    (QJsonObject.get root "userScripts").toArray.foldl loadUserScript s
  else s

/-- Load keyboard shortcuts (lines 486-492). -/
def loadKeyboardShortcuts (root : QJsonObject) (s : CustomizationEngine) : CustomizationEngine :=
  if QJsonObject.contains root "keyboardShortcuts"
      && (QJsonObject.get root "keyboardShortcuts").isObject then
    (QJsonObject.get root "keyboardShortcuts").toObject.foldl
      (fun st e => setKeyboardShortcut e.1 e.2.toString st) s
  else s

/-- Load Do-Not-Track (lines 495-497). -/
def loadDoNotTrack (root : QJsonObject) (s : CustomizationEngine) : CustomizationEngine :=
  if QJsonObject.contains root "doNotTrack" then
    setDoNotTrack (QJsonObject.get root "doNotTrack").toBool s
  else s

/-- Load the third-party-cookie policy (lines 498-500). -/
def loadThirdPartyCookiesPolicy (root : QJsonObject) (s : CustomizationEngine) :
    CustomizationEngine :=
  if QJsonObject.contains root "thirdPartyCookiesPolicy" then
    setThirdPartyCookiesPolicy (QJsonObject.get root "thirdPartyCookiesPolicy").toInt s
  else s

/-- The part of `loadSettingsFromJson` that applies a parsed document (lines
406-501): the fourteen blocks above, in source order. -/
def loadRoot (root : QJsonObject) (s : CustomizationEngine) : CustomizationEngine :=
  let s := loadTheme root s
  let s := loadTabOrientation root s
  let s := loadCustomCSS root s
  let s := loadToolbarPosition root s
  let s := loadStatusBarVisibility root s
  let s := loadSidebarPosition root s
  let s := loadGlobalFont root s
  let s := loadMinimumFontSize root s
  let s := loadColorScheme root s
  let s := loadExtensions root s
  let s := loadUserScripts root s
  let s := loadKeyboardShortcuts root s
  let s := loadDoNotTrack root s
  let s := loadThirdPartyCookiesPolicy root s
  s

/-- `CustomizationEngine::loadSettingsFromJson` (lines 390-501). -/
def loadSettingsFromJson (filename : String) (s : CustomizationEngine) : CustomizationEngine :=
  match readFile s.fs filename with
  | none => warn (Diagnostic.loadFailed filename) s
  | some (FileContent.json (QJsonValue.object root)) => loadRoot root s
  | some _ => warn (Diagnostic.invalidJson filename) s

/-- `CustomizationEngine::saveCustomization` (lines 229-232). -/
def saveCustomization (s : CustomizationEngine) : CustomizationEngine :=
  saveSettingsToJson "customization.json" s

/-- `CustomizationEngine::loadCustomization` (lines 234-237). -/
def loadCustomization (s : CustomizationEngine) : CustomizationEngine :=
  loadSettingsFromJson "customization.json" s

/-- `CustomizationEngine::resetToDefaultSettings` (lines 538-567). -/
def resetToDefaultSettings (s : CustomizationEngine) : CustomizationEngine :=
  let s := applyTheme "Light" s
  let s := setTabOrientation TabOrientation.Horizontal s
  let s := setToolbarPosition Qt.TopToolBarArea s
  let s := setStatusBarVisibility true s
  let s := setSidebarPosition Qt.LeftDockWidgetArea s
  let s := setGlobalFont (QFont.ofFamilySize "Arial" 12) s
  let s := setMinimumFontSize 12 s
  let s := setColorScheme "Default" s
  let s := setZoomFactor 1 s
  let s := setDoNotTrack false s
  let s := setThirdPartyCookiesPolicy QWebEngineProfile.AllowThirdPartyCookies s
  -- Clear custom CSS
  let s := { s with m_customCSS := [] }
  -- Remove all user scripts
  let s := { s with webView := { s.webView with scripts := [] } }
  -- Reset keyboard shortcuts to default
  let s := { s with m_keyboardShortcuts := [] }
  saveCustomization s

/-- A newly allocated engine on the given toolkit state: empty maps, no signal
emitted yet. -/
def newEngine (host : Host) : CustomizationEngine :=
  { toHost := host, m_themes := [], m_customCSS := [], m_keyboardShortcuts := [], emitted := [] }

/-- The constructor (lines 20-27): `initializeDefaultThemes`, then
`loadCustomization`, on a newly allocated engine. -/
def create (host : Host) : CustomizationEngine :=
  loadCustomization (initializeDefaultThemes (newEngine host))

/-- The document held by the settings file, when it holds a JSON object. -/
def writtenDocument (s : CustomizationEngine) : Option QJsonObject :=
  match QMap.value s.fs.files "customization.json" with
  | some (FileContent.json (QJsonValue.object root)) => some root
  | _ => none

/-- One call in a sequence of theme-registry and theme-application calls. -/
inductive ThemeCall where
  | createCustomTheme (name : String) (backgroundColor textColor accentColor : QColor)
      (font : QFont)
  | removeCustomTheme (name : String)
  | applyTheme (themeName : String)
  | resetToDefaultSettings

/-- Perform one call. -/
def ThemeCall.run : ThemeCall → CustomizationEngine → CustomizationEngine
  | ThemeCall.createCustomTheme name bg text accent font, s =>
    CustomizationEngine.createCustomTheme name bg text accent font s
  | ThemeCall.removeCustomTheme name, s => CustomizationEngine.removeCustomTheme name s
  | ThemeCall.applyTheme themeName, s => CustomizationEngine.applyTheme themeName s
  | ThemeCall.resetToDefaultSettings, s => CustomizationEngine.resetToDefaultSettings s

/-- Perform a sequence of calls, first to last. -/
def runCalls (calls : List ThemeCall) (s : CustomizationEngine) : CustomizationEngine :=
  calls.foldl (fun st c => c.run st) s

/-- Two engines agree on everything but the log of emitted signals: the three
maps and the whole toolkit state (window, application, web view, files, diagnostics). -/
def sameState (s t : CustomizationEngine) : Prop :=
  s.toHost = t.toHost ∧ s.m_themes = t.m_themes ∧ s.m_customCSS = t.m_customCSS ∧
    s.m_keyboardShortcuts = t.m_keyboardShortcuts

/-- The top-level keys `loadSettingsFromJson` looks for (lines 409-498). -/
def recognizedKeys : List String :=
  ["currentTheme", "tabOrientation", "customCSS", "toolbarPosition", "statusBarVisible",
   "sidebarPosition", "globalFont", "minimumFontSize", "colorScheme", "extensions",
   "userScripts", "keyboardShortcuts", "doNotTrack", "thirdPartyCookiesPolicy"]

/-- The scripts of the page's collection that carry the given name. -/
def scriptsNamed (name : String) (s : CustomizationEngine) : List QWebEngineScript :=
  s.webView.scripts.filter (fun sc => sc.name == name)

end CustomizationEngine

namespace CustomizationEngine

end CustomizationEngine

namespace CustomizationEngine

/-- One call of a setter by `loadSettingsFromJson`, with its arguments. -/
inductive SetterCall where
  | applyTheme (themeName : String)
  | setTabOrientation (orientation : TabOrientation)
  | injectCustomCSS (url css : String)
  | setToolbarPosition (area : Int)
  | setStatusBarVisibility (visible : Bool)
  | setSidebarPosition (area : Int)
  | setGlobalFont (font : QFont)
  | setMinimumFontSize (size : Int)
  | setColorScheme (schemeName : String)
  | addUserScript (name script : String) (urlPatterns : List String)
  | setKeyboardShortcut (actionName shortcut : String)
  | setDoNotTrack (enable : Bool)
  | setThirdPartyCookiesPolicy (policy : Int)
deriving DecidableEq, Repr

namespace SetterCall

/-- Perform the call. -/
def run : SetterCall → CustomizationEngine → CustomizationEngine
  | SetterCall.applyTheme themeName, s => CustomizationEngine.applyTheme themeName s
  | SetterCall.setTabOrientation orientation, s =>
    CustomizationEngine.setTabOrientation orientation s
  | SetterCall.injectCustomCSS url css, s => CustomizationEngine.injectCustomCSS url css s
  | SetterCall.setToolbarPosition area, s => CustomizationEngine.setToolbarPosition area s
  | SetterCall.setStatusBarVisibility visible, s =>
    CustomizationEngine.setStatusBarVisibility visible s
  | SetterCall.setSidebarPosition area, s => CustomizationEngine.setSidebarPosition area s
  | SetterCall.setGlobalFont font, s => CustomizationEngine.setGlobalFont font s
  | SetterCall.setMinimumFontSize size, s => CustomizationEngine.setMinimumFontSize size s
  | SetterCall.setColorScheme schemeName, s => CustomizationEngine.setColorScheme schemeName s
  | SetterCall.addUserScript name script urlPatterns, s =>
    CustomizationEngine.addUserScript name script urlPatterns s
  | SetterCall.setKeyboardShortcut actionName shortcut, s =>
    CustomizationEngine.setKeyboardShortcut actionName shortcut s
  | SetterCall.setDoNotTrack enable, s => CustomizationEngine.setDoNotTrack enable s
  | SetterCall.setThirdPartyCookiesPolicy policy, s =>
    CustomizationEngine.setThirdPartyCookiesPolicy policy s

/-- The document key whose block of `loadSettingsFromJson` (lines 408-500) makes
the call. -/
def key : SetterCall → String
  | SetterCall.applyTheme _ => "currentTheme"
  | SetterCall.setTabOrientation _ => "tabOrientation"
  | SetterCall.injectCustomCSS _ _ => "customCSS"
  | SetterCall.setToolbarPosition _ => "toolbarPosition"
  | SetterCall.setStatusBarVisibility _ => "statusBarVisible"
  | SetterCall.setSidebarPosition _ => "sidebarPosition"
  | SetterCall.setGlobalFont _ => "globalFont"
  | SetterCall.setMinimumFontSize _ => "minimumFontSize"
  | SetterCall.setColorScheme _ => "colorScheme"
  | SetterCall.addUserScript _ _ _ => "userScripts"
  | SetterCall.setKeyboardShortcut _ _ => "keyboardShortcuts"
  | SetterCall.setDoNotTrack _ => "doNotTrack"
  | SetterCall.setThirdPartyCookiesPolicy _ => "thirdPartyCookiesPolicy"

end SetterCall

end CustomizationEngine

namespace CustomizationEngine

/-- The engine on a window whose dynamic property `currentTheme` holds the
given value (`none`: the property is not set). -/
def withCurrentThemeProperty (property : Option String) (s : CustomizationEngine) :
    CustomizationEngine :=
  { s with mainWindow := { s.mainWindow with currentTheme := property } }

end CustomizationEngine

/-! ## A sample toolkit state -/

/-- A sample palette. -/
def samplePalette : QPalette :=
  { window := PaletteColor.plain ⟨239, 239, 239⟩
    windowText := PaletteColor.plain ⟨0, 0, 0⟩
    base := PaletteColor.plain ⟨255, 255, 255⟩
    alternateBase := PaletteColor.plain ⟨247, 247, 247⟩
    text := PaletteColor.plain ⟨0, 0, 0⟩
    button := PaletteColor.plain ⟨239, 239, 239⟩
    buttonText := PaletteColor.plain ⟨0, 0, 0⟩
    highlight := PaletteColor.plain ⟨48, 140, 198⟩
    highlightedText := PaletteColor.plain ⟨255, 255, 255⟩
    otherRoles := [] }

/-- A sample font. -/
def sampleFont : QFont := QFont.ofFamilySize "Sans Serif" 9

/-- A sample toolkit state: a `QMainWindow` with a tab widget, a toolbar, a
status bar and a dock widget; a web view with an empty script collection; no
settings file. -/
def sampleHost : Host :=
  { appPalette := samplePalette
    appFont := sampleFont
    mainWindow :=
      { widget := QWidget.mk samplePalette sampleFont [QWidget.mk samplePalette sampleFont []]
        isQMainWindow := true
        tabWidget := some TabPosition.North
        toolBar := some Qt.TopToolBarArea
        statusBarVisible := true
        sidebar := some Qt.LeftDockWidgetArea
        currentTheme := none
        currentColorScheme := none }
    webView :=
      { scripts := []
        javaScriptRun := []
        minimumFontSize := 0
        httpAcceptLanguage := ""
        thirdPartyCookiePolicy := 0
        zoomFactor := 1 }
    fs := { files := [], unreadable := [], unwritable := [] }
    diagnostics := [] }

/-- The engine constructed on the sample toolkit state. -/
def sampleEngine : CustomizationEngine := CustomizationEngine.create sampleHost

/-- A sample settings document with one recognized key. -/
def sampleDocument : QJsonObject := [("minimumFontSize", QJsonValue.ofInt 8)]

/-- The sample engine with two settings files: `a.json` holds the sample
document, `b.json` the same document extended with the member `zzz`. -/
def sampleEngineWithFiles : CustomizationEngine :=
  { sampleEngine with
    fs :=
      { files :=
          [("a.json", FileContent.json (QJsonValue.object sampleDocument)),
           ("b.json", FileContent.json (QJsonValue.object
              (QMap.insert "zzz" (QJsonValue.array [QJsonValue.null]) sampleDocument)))]
        unreadable := []
        unwritable := [] } }

/-- The sample engine with two unusable settings files: `bad.json` holds text
that does not parse, `list.json` holds a JSON array. -/
def sampleEngineBadFiles : CustomizationEngine :=
  { sampleEngine with
    fs :=
      { files :=
          [("bad.json", FileContent.malformed "\x7b currentTheme"),
           ("list.json", FileContent.json (QJsonValue.array [QJsonValue.string "Dark"]))]
        unreadable := []
        unwritable := [] } }

/-- The sample engine with one custom theme, "Solar", registered. -/
def sampleEngineWithSolar : CustomizationEngine :=
  CustomizationEngine.createCustomTheme "Solar" ⟨253, 246, 227⟩ ⟨101, 123, 131⟩ ⟨38, 139, 210⟩
    (QFont.ofFamilySize "Georgia" 11) sampleEngine

/-- A settings document whose only member is `currentTheme`, naming "Dark". -/
def themeOnlyDocument : QJsonObject := [("currentTheme", QJsonValue.string "Dark")]

/-- A settings document whose only member is `customCSS`, with one entry. -/
def cssOnlyDocument : QJsonObject :=
  [("customCSS", QJsonValue.object [("example.org", QJsonValue.string "p \x7b margin: 0 \x7d")])]

/-! ## TabWidget (src/TabWidget.cpp) -/

/-- A `QUrl`: its encoded text and whether the toolkit holds it valid. -/
structure QUrl where
  encoded : String
  isValid : Bool
deriving DecidableEq, Repr

/-- A default-constructed `QUrl`: empty and not valid. -/
def QUrl.empty : QUrl := { encoded := "", isValid := false }

/-- One page of a tab widget with its tab text. -/
structure Tab where
  /-- the URL the page shows when it is a `QWebEngineView`; `none` for any other widget -/
  view : Option QUrl
  /-- the tab text -/
  text : String
deriving DecidableEq, Repr

/-- A `TabWidget`: its pages in tab order and the current index. The pages and
profiles behind the views, tool tips, icons and the widget's own signals are
not modelled. -/
structure TabWidget where
  tabs : List Tab
  currentIndex : Int
deriving DecidableEq, Repr

/-- One value written to a `QDataStream`. -/
inductive StreamItem where
  | int (n : Int)
  | url (u : QUrl)
deriving DecidableEq, Repr

/-- A `QByteArray` filled through a `QDataStream`: the values written, in
order. Reading gives back the value written; reading past the end, or a value
of the other kind, gives the default value and ends the stream. -/
abbrev QByteArray := List StreamItem

/-- `stream >> n` for an `int`. -/
def readInt : QByteArray → Int × QByteArray
  | StreamItem.int n :: rest => (n, rest)
  | _ => (0, [])

/-- `stream >> url` for a `QUrl`. -/
def readUrl : QByteArray → QUrl × QByteArray
  | StreamItem.url u :: rest => (u, rest)
  | _ => (QUrl.empty, [])

/-- `view->setUrl(url)` on the page at `index`. -/
def setUrlAt : Nat → QUrl → List Tab → List Tab
  | _, _, [] => []
  | 0, url, t :: rest => { t with view := some url } :: rest
  | n + 1, url, t :: rest => t :: setUrlAt n url rest

namespace TabWidget

/-- `QTabWidget::count()`. -/
def count (w : TabWidget) : Int := w.tabs.length

/-- `TabWidget::addTab` (lines 86-93): a new view is appended under the text
"New Tab" and made current; a valid URL is then set on it. -/
def addTab (url : QUrl) (w : TabWidget) : TabWidget :=
  let webView : Tab := { view := some QUrl.empty, text := "New Tab" }
  let index := w.tabs.length
  let w1 := { w with tabs := w.tabs ++ [webView] }
  let w2 := { w1 with currentIndex := index }
  if url.isValid then { w2 with tabs := setUrlAt index url w2.tabs } else w2

/-- `TabWidget::saveState` (lines 129-141): the tab count, then the URL of
every page that is a web view. -/
def saveState (w : TabWidget) : QByteArray :=
  StreamItem.int (count w) :: w.tabs.filterMap (fun t => t.view.map StreamItem.url)

/-- The loop of `restoreState` (lines 150-154), for the iterations that remain. -/
def restoreTabs : Nat → QByteArray → TabWidget → TabWidget
  | 0, _, w => w
  | n + 1, stream, w => restoreTabs n (readUrl stream).2 (addTab (readUrl stream).1 w)

/-- `TabWidget::restoreState` (lines 143-157): the returned flag and the widget
after the call. -/
def restoreState (state : QByteArray) (w : TabWidget) : Bool × TabWidget :=
  let tabCount := (readInt state).1
  let stream := (readInt state).2
  (true, restoreTabs tabCount.toNat stream w)

/-- `QTabWidget::setCurrentIndex`: an index outside the tabs is ignored. -/
def setCurrentIndex (index : Int) (w : TabWidget) : TabWidget :=
  if 0 ≤ index ∧ index < count w then { w with currentIndex := index } else w

/-- `QTabWidget::removeTab`: the page at `index` leaves the widget; an index
outside the tabs removes nothing. The current index follows the tab bar: it
moves down by one when an earlier tab goes, and when the current tab goes the
tab to its right becomes current (the tab to its left when it was the last). -/
def removeTab (index : Int) (w : TabWidget) : TabWidget :=
  if 0 ≤ index ∧ index < count w then
    let current :=
      if index < w.currentIndex then w.currentIndex - 1
      else if index = w.currentIndex ∧ index = count w - 1 then index - 1
      else w.currentIndex
    { tabs := w.tabs.eraseIdx index.toNat, currentIndex := current }
  else w

/-- `TabWidget::closeTab` (lines 95-102). With more than one tab and an index
outside the tabs, `widget(index)` is null and `widget->deleteLater()` has no
defined result: `none`. -/
def closeTab (index : Int) (w : TabWidget) : Option TabWidget :=
  if count w > 1 then
    if 0 ≤ index ∧ index < count w then some (removeTab index w) else none
  else some w

/-- One call in a sequence of `addTab` and `closeTab` calls. -/
inductive Call where
  | addTab (url : QUrl)
  | closeTab (index : Int)
deriving DecidableEq, Repr

/-- Perform a sequence of calls, first to last; `none` once a call has no
defined result. -/
def runCalls : List Call → TabWidget → Option TabWidget
  | [], w => some w
  | Call.addTab url :: rest, w => runCalls rest (addTab url w)
  | Call.closeTab index :: rest, w =>
    match closeTab index w with
    | some w2 => runCalls rest w2
    | none => none

end TabWidget

/-- A tab widget with two web views showing valid URLs. -/
def sampleTabWidget : TabWidget :=
  { tabs := [{ view := some { encoded := "https://example.org/", isValid := true },
               text := "Example" },
             { view := some { encoded := "https://qt.io/", isValid := true }, text := "Qt" }]
    currentIndex := 0 }

/-- A tab widget without tabs. -/
def emptyTabWidget : TabWidget := { tabs := [], currentIndex := -1 }

/-! ## WebPage (src/WebPage.cpp) -/

/-- `QWebEnginePage::NavigationType`. -/
inductive NavigationType where
  | NavigationTypeLinkClicked
  | NavigationTypeTyped
  | NavigationTypeFormSubmitted
  | NavigationTypeBackForward
  | NavigationTypeReload
  | NavigationTypeOther
deriving DecidableEq, Repr

/-- A `WebPage` (src/WebPage.h): its members, the scripts of its collection and
the user agent of its profile. -/
structure WebPage where
  m_customUserAgent : String
  m_contentBlockingEnabled : Bool
  m_customHeaders : QMap String
  m_customCSS : String
  m_customJS : String
  m_customCSSEnabled : Bool
  m_customJSEnabled : Bool
  /-- `scripts()`: the page's script collection, in insertion order -/
  scripts : List QWebEngineScript
  /-- `profile()->httpUserAgent()` -/
  profileUserAgent : String
deriving DecidableEq, Repr

namespace WebPage

/-- `WebPage::enableContentBlocking` (lines 62-66). -/
def enableContentBlocking (enable : Bool) (page : WebPage) : WebPage :=
  { page with m_contentBlockingEnabled := enable }

/-- `WebPage::isContentBlockingEnabled` (lines 68-71). -/
def isContentBlockingEnabled (page : WebPage) : Bool :=
  page.m_contentBlockingEnabled

/-- `WebPage::acceptNavigationRequest` (lines 126-136): the branch on
`m_contentBlockingEnabled` has an empty body, and the result is the base
class's decision, given here as `base`. -/
def acceptNavigationRequest (base : QUrl → NavigationType → Bool → Bool) (page : WebPage)
    (url : QUrl) (type : NavigationType) (isMainFrame : Bool) : Bool :=
  let _blocking := page.m_contentBlockingEnabled
  base url type isMainFrame

/-- The constructor `WebPage::WebPage` (lines 10-24) on a profile with the given
user agent: flags off, texts and headers empty, no script. -/
def new (profileUserAgent : String) : WebPage :=
  { m_customUserAgent := ""
    m_contentBlockingEnabled := false
    m_customHeaders := []
    m_customCSS := ""
    m_customJS := ""
    m_customCSSEnabled := false
    m_customJSEnabled := false
    scripts := []
    profileUserAgent := profileUserAgent }

/-- `WebPage::setCustomUserAgent` (lines 51-55). -/
def setCustomUserAgent (userAgent : String) (page : WebPage) : WebPage :=
  { page with m_customUserAgent := userAgent, profileUserAgent := userAgent }

/-- `WebPage::customUserAgent` (lines 57-60). -/
def customUserAgent (page : WebPage) : String := page.m_customUserAgent

/-- `WebPage::setCustomHeaders` (lines 73-77). -/
def setCustomHeaders (headers : QMap String) (page : WebPage) : WebPage :=
  { page with m_customHeaders := headers }

/-- `WebPage::customHeaders` (lines 79-82). -/
def customHeaders (page : WebPage) : QMap String := page.m_customHeaders

/-- The script `WebPage::injectCustomCSS` builds (lines 201-211). -/
def customCssScript (css : String) : QWebEngineScript :=
  { QWebEngineScript.default with
    name := "CustomCSS"
    sourceCode := "(function() \x7b    var style = document.createElement('style');    style.type = 'text/css';    style.innerHTML = " ++ css ++ ";    document.head.appendChild(style);\x7d)();"
    injectionPoint := InjectionPoint.DocumentReady
    worldId := ScriptWorldId.ApplicationWorld
    runsOnSubFrames := true }

/-- `WebPage::injectCustomCSS` (lines 199-214). -/
def injectCustomCSS (page : WebPage) : WebPage :=
  { page with scripts := page.scripts ++ [customCssScript page.m_customCSS] }

/-- The script `WebPage::injectCustomJS` builds (lines 218-223). -/
def customJsScript (js : String) : QWebEngineScript :=
  { QWebEngineScript.default with
    name := "CustomJS"
    sourceCode := js
    injectionPoint := InjectionPoint.DocumentReady
    worldId := ScriptWorldId.ApplicationWorld
    runsOnSubFrames := true }

/-- `WebPage::injectCustomJS` (lines 216-226). -/
def injectCustomJS (page : WebPage) : WebPage :=
  { page with scripts := page.scripts ++ [customJsScript page.m_customJS] }

/-- `WebPage::enableCustomCSS` (lines 84-90). -/
def enableCustomCSS (enable : Bool) (page : WebPage) : WebPage :=
  let page1 := { page with m_customCSSEnabled := enable }
  if enable && !page1.m_customCSS.isEmpty then injectCustomCSS page1 else page1

/-- `WebPage::setCustomCSS` (lines 92-98). -/
def setCustomCSS (css : String) (page : WebPage) : WebPage :=
  let page1 := { page with m_customCSS := css }
  if page1.m_customCSSEnabled then injectCustomCSS page1 else page1

/-- `WebPage::customCSS` (lines 100-103). -/
def customCSS (page : WebPage) : String := page.m_customCSS

/-- `WebPage::enableCustomJS` (lines 105-111). -/
def enableCustomJS (enable : Bool) (page : WebPage) : WebPage :=
  let page1 := { page with m_customJSEnabled := enable }
  if enable && !page1.m_customJS.isEmpty then injectCustomJS page1 else page1

/-- `WebPage::setCustomJS` (lines 113-119). -/
def setCustomJS (js : String) (page : WebPage) : WebPage :=
  let page1 := { page with m_customJS := js }
  if page1.m_customJSEnabled then injectCustomJS page1 else page1

/-- `WebPage::customJS` (lines 121-124). -/
def customJS (page : WebPage) : String := page.m_customJS

/-- `WebPage::createWindow` (lines 138-153): the page returned. It is built on
the parent's profile; `setCustomUserAgent` also sets that profile's user agent. -/
def createWindow (page : WebPage) : WebPage :=
  let newPage := WebPage.new page.profileUserAgent
  let newPage := setCustomUserAgent page.m_customUserAgent newPage
  let newPage := enableContentBlocking page.m_contentBlockingEnabled newPage
  let newPage := setCustomHeaders page.m_customHeaders newPage
  let newPage := setCustomCSS page.m_customCSS newPage
  let newPage := enableCustomCSS page.m_customCSSEnabled newPage
  let newPage := setCustomJS page.m_customJS newPage
  let newPage := enableCustomJS page.m_customJSEnabled newPage
  newPage

end WebPage

/-! ## PrivacyManager (src/PrivacyManager.cpp) -/

/-- The signals of `PrivacyManager` (PrivacyManager.h). -/
inductive PrivacySignal where
  | vpnStatusChanged (active : Bool)
  | adBlockingStatusChanged (enabled : Bool)
  | cookiePolicyChanged
  | httpsOnlyModeChanged (enabled : Bool)
  | doNotTrackChanged (enabled : Bool)
  | fingerprintingProtectionChanged (enabled : Bool)
  | contentSettingsChanged
  | savePasswordsEnabledChanged (enabled : Bool)
  | proxyChanged
deriving DecidableEq, Repr

/-- A `PrivacyManager`: its flags and rule lists, the request interceptor of
the profile it acts on (`none` when no interceptor is installed; an installed
interceptor says which URLs it blocks), and the signals emitted so far. -/
structure PrivacyManager where
  m_vpnActive : Bool
  m_adBlockingEnabled : Bool
  m_httpsOnlyMode : Bool
  m_doNotTrack : Bool
  m_fingerprintingProtection : Bool
  m_savePasswordsEnabled : Bool
  m_adBlockLists : QMap (List String)
  /-- the profile's `urlRequestInterceptor` -/
  urlRequestInterceptor : Option (QUrl → Bool)
  emitted : List PrivacySignal

namespace PrivacyManager

/-- `PrivacyManager::applyAdBlockRules` (lines 230-234): empty body. -/
def applyAdBlockRules (pm : PrivacyManager) : PrivacyManager := pm

/-- `PrivacyManager::enableAdBlocking` (lines 42-52). -/
def enableAdBlocking (enable : Bool) (pm : PrivacyManager) : PrivacyManager :=
  let pm1 := { pm with m_adBlockingEnabled := enable }
  let pm2 := if enable then applyAdBlockRules pm1 else { pm1 with urlRequestInterceptor := none }
  { pm2 with emitted := pm2.emitted ++ [PrivacySignal.adBlockingStatusChanged enable] }

/-- `PrivacyManager::isAdBlockingEnabled` (lines 54-57). -/
def isAdBlockingEnabled (pm : PrivacyManager) : Bool :=
  pm.m_adBlockingEnabled

/-- `PrivacyManager::updateAdBlockList` (lines 59-65). -/
def updateAdBlockList (rules : List String) (pm : PrivacyManager) : PrivacyManager :=
  let pm1 := { pm with m_adBlockLists := QMap.insert "custom" rules pm.m_adBlockLists }
  if pm1.m_adBlockingEnabled then applyAdBlockRules pm1 else pm1

/-- Whether the profile lets a request for `url` through: it does unless an
installed interceptor blocks the URL. -/
def requestAccepted (pm : PrivacyManager) (url : QUrl) : Bool :=
  match pm.urlRequestInterceptor with
  | none => true
  | some blocks => !blocks url

end PrivacyManager

/-! ## Machine integers -/

/-- The value of a 32-bit `int` after an arithmetic result wraps around. -/
def int32 (x : Int) : Int := Int.bmod x 4294967296

/-- The value of a 64-bit `qint64` after an arithmetic result wraps around. -/
def int64 (x : Int) : Int := Int.bmod x 18446744073709551616

/-! ## Browser (src/Browser.cpp) -/

/-- A row of the history model: the item text and the URL stored under `Qt::UserRole`. -/
structure HistoryItem where
  text : String
  url : QUrl
deriving DecidableEq, Repr

/-- The parts of a `Browser` window the tab and history methods act on. -/
structure Browser where
  /-- `m_tabWidget`: a plain `QTabWidget` -/
  m_tabWidget : TabWidget
  m_startupUrl : QUrl
  /-- rows of `m_historyModel`, row 0 first -/
  m_historyModel : List HistoryItem
  /-- whether `close()` was called on the window -/
  closed : Bool
deriving DecidableEq, Repr

namespace Browser

/-- `Browser::newTab` (lines 84-111): a new view is appended under the text
"New Tab", made current, and loads `url` when it is valid, the start-up URL
otherwise. -/
def newTab (url : QUrl) (b : Browser) : Browser :=
  let webView : Tab := { view := some QUrl.empty, text := "New Tab" }
  let index := b.m_tabWidget.tabs.length
  let w1 := { b.m_tabWidget with tabs := b.m_tabWidget.tabs ++ [webView] }
  let w2 := TabWidget.setCurrentIndex index w1
  let loaded := if url.isValid then url else b.m_startupUrl
  { b with m_tabWidget := { w2 with tabs := setUrlAt index loaded w2.tabs } }

/-- `Browser::closeTab` (lines 113-122): `delete widget` on a null widget does nothing. -/
def closeTab (index : Int) (b : Browser) : Browser :=
  if TabWidget.count b.m_tabWidget > 1 then
    { b with m_tabWidget := TabWidget.removeTab index b.m_tabWidget }
  else { b with closed := true }

/-- `Browser::closeCurrentTab` (lines 124-127). -/
def closeCurrentTab (b : Browser) : Browser :=
  closeTab b.m_tabWidget.currentIndex b

/-- `Browser::nextTab` (lines 129-133). The remainder by a tab count of zero has
no defined result: `none`. -/
def nextTab (b : Browser) : Option Browser :=
  if TabWidget.count b.m_tabWidget = 0 then none
  else
    let next := Int.tmod (int32 (b.m_tabWidget.currentIndex + 1)) (TabWidget.count b.m_tabWidget)
    some { b with m_tabWidget := TabWidget.setCurrentIndex next b.m_tabWidget }

/-- `Browser::previousTab` (lines 135-139). The remainder by a tab count of zero
has no defined result: `none`. -/
def previousTab (b : Browser) : Option Browser :=
  if TabWidget.count b.m_tabWidget = 0 then none
  else
    let prev := Int.tmod
      (int32 (int32 (b.m_tabWidget.currentIndex - 1) + TabWidget.count b.m_tabWidget))
      (TabWidget.count b.m_tabWidget)
    some { b with m_tabWidget := TabWidget.setCurrentIndex prev b.m_tabWidget }

/-- The loop of `addToHistory` (lines 794-796): while there are more than 1000
rows the last row is removed; `fuel` bounds the number of iterations. -/
def limitHistory : Nat → List HistoryItem → List HistoryItem
  | 0, rows => rows
  | fuel + 1, rows => if rows.length > 1000 then limitHistory fuel rows.dropLast else rows

/-- `Browser::addToHistory` (lines 787-797). The loop runs with as many
iterations allowed as there are rows, which is more than it needs. -/
def addToHistory (url : QUrl) (title : String) (b : Browser) : Browser :=
  let item : HistoryItem := { text := if title.isEmpty then url.encoded else title, url := url }
  let rows := item :: b.m_historyModel
  { b with m_historyModel := limitHistory rows.length rows }

/-- The progress the `downloadProgress` handler of `handleDownloadRequested`
stores (lines 384-387): `(bytesReceived * 100) / bytesTotal` in `qint64`,
narrowed to `int`. Division by zero has no defined result: `none`. -/
def downloadProgress (bytesReceived bytesTotal : Int) : Option Int :=
  if bytesTotal = 0 then none
  else some (int32 (int64 (Int.tdiv (int64 (bytesReceived * 100)) bytesTotal)))

/-- One call in a sequence of `newTab` and `closeTab` calls. -/
inductive Call where
  | newTab (url : QUrl)
  | closeTab (index : Int)
deriving DecidableEq, Repr

/-- Perform a sequence of calls, first to last. -/
def runCalls : List Call → Browser → Browser
  | [], b => b
  | Call.newTab url :: rest, b => runCalls rest (newTab url b)
  | Call.closeTab index :: rest, b => runCalls rest (closeTab index b)

/-- `count` successive `nextTab` calls. -/
def nextTabs : Nat → Browser → Option Browser
  | 0, b => some b
  | count + 1, b =>
    match nextTab b with
    | some b2 => nextTabs count b2
    | none => none

end Browser

/-- A browser window on the sample tab widget, with an empty history. -/
def sampleBrowser : Browser :=
  { m_tabWidget := sampleTabWidget
    m_startupUrl := { encoded := "https://start.example/", isValid := true }
    m_historyModel := []
    closed := false }

/-- The sample window as a plain widget that is no `QMainWindow`, with a hidden
status bar, and the engine constructed on it. -/
def sampleEnginePlainWindow : CustomizationEngine :=
  CustomizationEngine.create
    { sampleHost with
      mainWindow := { sampleHost.mainWindow with isQMainWindow := false, statusBarVisible := false } }

open CustomizationEngine

/-! ## Lemmas about the key order and `QMap` -/

theorem ltChars_irrefl (l : List Char) : ltChars l l = false := by
  induction l with
  | nil => rfl
  | cons c cs ih => simp [ltChars, ih]

theorem QString.lt_irrefl (a : String) : QString.lt a a = false :=
  ltChars_irrefl a.data

theorem QString.ne_of_lt {a b : String} (h : QString.lt a b = true) : a ≠ b := by
  intro hab
  subst hab
  rw [QString.lt_irrefl] at h
  exact Bool.noConfusion h

theorem ltChars_trans : ∀ (a b c : List Char),
    ltChars a b = true → ltChars b c = true → ltChars a c = true
  | [], [], _, h, _ => by simp [ltChars] at h
  | [], _ :: _, [], _, h => by simp [ltChars] at h
  | [], _ :: _, _ :: _, _, _ => by simp [ltChars]
  | _ :: _, [], _, h, _ => by simp [ltChars] at h
  | _ :: _, _ :: _, [], _, h => by simp [ltChars] at h
  | x :: xs, y :: ys, z :: zs, h1, h2 => by
    simp only [ltChars] at h1 h2 ⊢
    by_cases hxy : x.toNat < y.toNat
    · by_cases hyz : y.toNat < z.toNat
      · have : x.toNat < z.toNat := Nat.lt_trans hxy hyz
        simp [this]
      · simp only [hyz, if_false] at h2
        by_cases hyz2 : y.toNat = z.toNat
        · have : x.toNat < z.toNat := by omega
          simp [this]
        · simp [hyz2] at h2
    · simp only [hxy, if_false] at h1
      by_cases hxy2 : x.toNat = y.toNat
      · simp only [hxy2, if_true] at h1
        by_cases hyz : y.toNat < z.toNat
        · have : x.toNat < z.toNat := by omega
          simp [this]
        · simp only [hyz, if_false] at h2
          by_cases hyz2 : y.toNat = z.toNat
          · simp only [hyz2, if_true] at h2
            have h3 : ¬ x.toNat < z.toNat := by omega
            have h4 : x.toNat = z.toNat := by omega
            rw [if_neg h3, if_pos h4]
            exact ltChars_trans xs ys zs h1 h2
          · simp [hyz2] at h2
      · simp [hxy2] at h1

theorem ltChars_total : ∀ (a b : List Char), a ≠ b → ltChars a b = true ∨ ltChars b a = true
  | [], [], h => absurd rfl h
  | [], _ :: _, _ => Or.inl rfl
  | _ :: _, [], _ => Or.inr rfl
  | x :: xs, y :: ys, h => by
    simp only [ltChars]
    by_cases hxy : x.toNat < y.toNat
    · simp [hxy]
    · by_cases hyx : y.toNat < x.toNat
      · simp [hyx]
      · have heq : x.toNat = y.toNat := by omega
        have hc : x = y := by
          rw [← Char.ofNat_toNat x, ← Char.ofNat_toNat y, heq]
        subst hc
        have hne : xs ≠ ys := fun e => h (by rw [e])
        simpa using ltChars_total xs ys hne

theorem QString.lt_total {a b : String} (h : a ≠ b) :
    QString.lt a b = true ∨ QString.lt b a = true := by
  apply ltChars_total
  intro e
  exact h (String.ext e)

theorem QString.lt_trans {a b c : String} (h1 : QString.lt a b = true)
    (h2 : QString.lt b c = true) : QString.lt a c = true :=
  ltChars_trans a.data b.data c.data h1 h2

namespace QMap

theorem value_insert_self {α : Type} (key : String) (v : α) (m : QMap α) :
    QMap.value (QMap.insert key v m) key = some v := by
  induction m with
  | nil => simp [QMap.insert, QMap.value, List.lookup]
  | cons e rest ih =>
    obtain ⟨k, w⟩ := e
    simp only [QMap.insert]
    split
    · simp [QMap.value, List.lookup]
    · split
      · simp [QMap.value, List.lookup]
      · rename_i hne
        have hb : (key == k) = false := by simpa using hne
        simpa [QMap.value, List.lookup, hb] using ih

theorem value_insert_of_ne {α : Type} {key key2 : String} (v : α) (m : QMap α)
    (h : key2 ≠ key) : QMap.value (QMap.insert key v m) key2 = QMap.value m key2 := by
  have hb : (key2 == key) = false := by simpa using h
  induction m with
  | nil => simp [QMap.insert, QMap.value, List.lookup, hb]
  | cons e rest ih =>
    obtain ⟨k, w⟩ := e
    simp only [QMap.insert]
    split
    · simp [QMap.value, List.lookup, hb]
    · split
      · rename_i heq
        subst heq
        simp [QMap.value, List.lookup, hb]
      · simp only [QMap.value, List.lookup] at ih ⊢
        rw [ih]

theorem contains_insert_of_ne {α : Type} {key key2 : String} (v : α) (m : QMap α)
    (h : key2 ≠ key) : QMap.contains (QMap.insert key v m) key2 = QMap.contains m key2 := by
  simp [QMap.contains, value_insert_of_ne v m h]

theorem contains_insert_self {α : Type} (key : String) (v : α) (m : QMap α) :
    QMap.contains (QMap.insert key v m) key = true := by
  simp [QMap.contains, value_insert_self]

theorem mem_keys_iff_contains {α : Type} (m : QMap α) (key : String) :
    key ∈ QMap.keys m ↔ QMap.contains m key = true := by
  induction m with
  | nil => simp [QMap.keys, QMap.contains, QMap.value, List.lookup]
  | cons e rest ih =>
    obtain ⟨k, w⟩ := e
    by_cases h : key = k
    · subst h
      simp [QMap.keys, QMap.contains, QMap.value, List.lookup]
    · have hb : (key == k) = false := by simpa using h
      simp only [QMap.keys, QMap.contains, QMap.value, List.lookup, List.map_cons,
        List.mem_cons, hb] at ih ⊢
      simp [h, ih]

theorem mem_keys_insert {α : Type} (key key2 : String) (v : α) (m : QMap α) :
    key2 ∈ QMap.keys (QMap.insert key v m) ↔ key2 = key ∨ key2 ∈ QMap.keys m := by
  by_cases h : key2 = key
  · subst h
    simp [mem_keys_iff_contains, contains_insert_self]
  · simp [mem_keys_iff_contains, contains_insert_of_ne v m h, h]

theorem mem_keys_remove {α : Type} (key key2 : String) (m : QMap α) :
    key2 ∈ QMap.keys (QMap.remove key m) ↔ key2 ≠ key ∧ key2 ∈ QMap.keys m := by
  simp only [QMap.keys, QMap.remove, List.mem_map, List.mem_filter]
  constructor
  · rintro ⟨e, ⟨he, hne⟩, rfl⟩
    exact ⟨by simpa using hne, e, he, rfl⟩
  · rintro ⟨hne, e, he, rfl⟩
    exact ⟨e, ⟨he, by simpa using hne⟩, rfl⟩

theorem insert_of_all_lt {α : Type} (key : String) (v : α) (m : QMap α)
    (h : ∀ a ∈ QMap.keys m, QString.lt a key = true) :
    QMap.insert key v m = m ++ [(key, v)] := by
  induction m with
  | nil => rfl
  | cons e rest ih =>
    obtain ⟨k, w⟩ := e
    have hk : QString.lt k key = true := h k (by simp [QMap.keys])
    have hnlt : ¬ QString.lt key k = true := by
      intro hlt
      have := QString.lt_trans hlt hk
      rw [QString.lt_irrefl] at this
      exact Bool.noConfusion this
    have hne : key ≠ k := fun e => QString.ne_of_lt hk e.symm
    have hrest : ∀ a ∈ QMap.keys rest, QString.lt a key = true := fun a ha =>
      h a (by simp only [QMap.keys, List.map_cons, List.mem_cons] at ha ⊢; exact Or.inr ha)
    simp only [QMap.insert, if_neg hnlt, if_neg hne, ih hrest, List.cons_append]

theorem foldl_insert_of_WF {α β : Type} (f : α → β) (m : QMap α) (acc : QMap β)
    (hacc : ∀ a ∈ QMap.keys acc, ∀ b ∈ QMap.keys m, QString.lt a b = true)
    (hwf : QMap.WF m) :
    m.foldl (fun obj e => QMap.insert e.1 (f e.2) obj) acc =
      acc ++ m.map (fun e => (e.1, f e.2)) := by
  induction m generalizing acc with
  | nil => simp
  | cons e rest ih =>
    obtain ⟨k, v⟩ := e
    have hwf2 : (∀ b ∈ QMap.keys rest, QString.lt k b = true) ∧ QMap.WF rest := by
      simpa [QMap.WF, QMap.keys] using hwf
    have hins : QMap.insert k (f v) acc = acc ++ [(k, f v)] :=
      insert_of_all_lt k (f v) acc (fun a ha => hacc a ha k (by simp [QMap.keys]))
    have hacc2 : ∀ a ∈ QMap.keys (acc ++ [(k, f v)]), ∀ b ∈ QMap.keys rest,
        QString.lt a b = true := by
      intro a ha b hb
      simp only [QMap.keys, List.map_append, List.map_cons, List.map_nil, List.mem_append,
        List.mem_singleton] at ha
      rcases ha with ha | ha
      · exact hacc a ha b (by simp only [QMap.keys, List.map_cons, List.mem_cons] at hb ⊢
                              exact Or.inr hb)
      · subst ha
        exact hwf2.1 b hb
    simp only [List.foldl_cons, hins, ih (acc ++ [(k, f v)]) hacc2 hwf2.2, List.map_cons,
      List.append_assoc, List.singleton_append]

/-- Entering the entries of a well-formed map into an empty map, in order,
rebuilds the map. -/
theorem foldl_insert_self {α : Type} (m : QMap α) (hwf : QMap.WF m) :
    m.foldl (fun obj e => QMap.insert e.1 e.2 obj) [] = m := by
  have := foldl_insert_of_WF (fun v : α => v) m [] (by simp [QMap.keys]) hwf
  simpa using this

theorem insert_insert {α : Type} (key : String) (v1 v2 : α) (m : QMap α) :
    QMap.insert key v2 (QMap.insert key v1 m) = QMap.insert key v2 m := by
  induction m with
  | nil => simp [QMap.insert, QString.lt_irrefl]
  | cons e rest ih =>
    obtain ⟨k, w⟩ := e
    by_cases hlt : QString.lt key k = true
    · simp [QMap.insert, hlt, QString.lt_irrefl]
    · by_cases heq : key = k
      · subst heq
        simp [QMap.insert, QString.lt_irrefl]
      · simp [QMap.insert, hlt, heq, ih]

theorem filter_key_eq_nil {α : Type} (key : String) (m : QMap α)
    (h : ∀ b ∈ QMap.keys m, QString.lt key b = true) :
    m.filter (fun e => e.1 == key) = [] := by
  rw [List.filter_eq_nil_iff]
  intro e he
  have hlt := h e.1 (by simp only [QMap.keys, List.mem_map]; exact ⟨e, he, rfl⟩)
  have hne : key ≠ e.1 := QString.ne_of_lt hlt
  simpa using fun h2 => hne h2.symm

theorem filter_key_insert {α : Type} (key : String) (v : α) (m : QMap α) (hwf : QMap.WF m) :
    (QMap.insert key v m).filter (fun e => e.1 == key) = [(key, v)] := by
  induction m with
  | nil => simp [QMap.insert]
  | cons e rest ih =>
    obtain ⟨k, w⟩ := e
    have hwf2 : (∀ b ∈ QMap.keys rest, QString.lt k b = true) ∧ QMap.WF rest := by
      simpa [QMap.WF, QMap.keys] using hwf
    by_cases hlt : QString.lt key k = true
    · have hall : ∀ b ∈ QMap.keys ((k, w) :: rest), QString.lt key b = true := by
        intro b hb
        simp only [QMap.keys, List.map_cons, List.mem_cons] at hb
        rcases hb with rfl | hb
        · exact hlt
        · exact QString.lt_trans hlt (hwf2.1 b hb)
      simp only [QMap.insert, if_pos hlt]
      rw [List.filter_cons_of_pos (by simp), filter_key_eq_nil key _ hall]
    · by_cases heq : key = k
      · subst heq
        simp only [QMap.insert, if_neg hlt, if_true]
        rw [List.filter_cons_of_pos (by simp), filter_key_eq_nil key rest hwf2.1]
      · simp only [QMap.insert, if_neg hlt, if_neg heq]
        rw [List.filter_cons_of_neg (by simpa using fun h2 : k = key => heq h2.symm)]
        exact ih hwf2.2

theorem WF_insert {α : Type} (key : String) (v : α) (m : QMap α) (hwf : QMap.WF m) :
    QMap.WF (QMap.insert key v m) := by
  induction m with
  | nil => simp [QMap.insert, QMap.WF, QMap.keys]
  | cons e rest ih =>
    obtain ⟨k, w⟩ := e
    have hwf2 : (∀ b ∈ QMap.keys rest, QString.lt k b = true) ∧ QMap.WF rest := by
      simpa [QMap.WF, QMap.keys] using hwf
    by_cases hlt : QString.lt key k = true
    · simp only [QMap.insert, if_pos hlt]
      have hall : ∀ b ∈ QMap.keys ((k, w) :: rest), QString.lt key b = true := by
        intro b hb
        simp only [QMap.keys, List.map_cons, List.mem_cons] at hb
        rcases hb with rfl | hb
        · exact hlt
        · exact QString.lt_trans hlt (hwf2.1 b hb)
      exact List.Pairwise.cons hall hwf
    · by_cases heq : key = k
      · subst heq
        simp only [QMap.insert, if_neg hlt, if_true]
        exact List.Pairwise.cons hwf2.1 hwf2.2
      · simp only [QMap.insert, if_neg hlt, if_neg heq]
        have hkk : QString.lt k key = true := by
          rcases QString.lt_total heq with h1 | h1
          · exact absurd h1 hlt
          · exact h1
        refine List.Pairwise.cons ?_ (ih hwf2.2)
        intro b hb
        rcases (mem_keys_insert key b v rest).1 hb with rfl | hb2
        · exact hkk
        · exact hwf2.1 b hb2

theorem value_remove_self {α : Type} (key : String) (m : QMap α) :
    QMap.value (QMap.remove key m) key = none := by
  induction m with
  | nil => rfl
  | cons e rest ih =>
    obtain ⟨k, w⟩ := e
    by_cases h : k = key
    · subst h
      simpa [QMap.remove, QMap.value] using ih
    · have hb : (key == k) = false := by simpa using fun e : key = k => h e.symm
      simpa [QMap.remove, QMap.value, h, List.lookup, hb] using ih

theorem value_remove_of_ne {α : Type} {key key2 : String} (m : QMap α) (h : key2 ≠ key) :
    QMap.value (QMap.remove key m) key2 = QMap.value m key2 := by
  induction m with
  | nil => rfl
  | cons e rest ih =>
    obtain ⟨k, w⟩ := e
    by_cases hk : k = key
    · subst hk
      have hb : (key2 == k) = false := by simpa using h
      simpa [QMap.remove, QMap.value, List.lookup, hb] using ih
    · by_cases hk2 : key2 = k
      · subst hk2
        simp [QMap.remove, QMap.value, hk, List.lookup]
      · have hb : (key2 == k) = false := by simpa using hk2
        simpa [QMap.remove, QMap.value, hk, List.lookup, hb] using ih

theorem remove_of_not_contains {α : Type} (key : String) (m : QMap α)
    (h : QMap.contains m key = false) : QMap.remove key m = m := by
  induction m with
  | nil => rfl
  | cons e rest ih =>
    obtain ⟨k, w⟩ := e
    by_cases hk : key = k
    · subst hk
      simp [QMap.contains, QMap.value, List.lookup] at h
    · have hb : (key == k) = false := by simpa using hk
      have hrest : QMap.contains rest key = false := by
        simpa [QMap.contains, QMap.value, List.lookup, hb] using h
      have hk2 : ¬ k = key := fun e => hk e.symm
      simp only [QMap.remove] at ih ⊢
      rw [List.filter_cons_of_pos (by simpa using hk2), ih hrest]

theorem value_map {α β : Type} (f : α → β) (m : QMap α) (key : String) :
    QMap.value (m.map (fun e => (e.1, f e.2))) key = (QMap.value m key).map f := by
  induction m with
  | nil => rfl
  | cons e rest ih =>
    obtain ⟨k, w⟩ := e
    simp only [QMap.value, List.map_cons, List.lookup] at ih ⊢
    cases (key == k) <;> simp [ih]

end QMap

/-! ## Frame lemmas: what each operation leaves unchanged -/

namespace CustomizationEngine

theorem foldl_frame {γ α : Type} (p : CustomizationEngine → γ)
    (f : CustomizationEngine → α → CustomizationEngine)
    (h : ∀ s a, p (f s a) = p s) (l : List α) (s : CustomizationEngine) :
    p (l.foldl f s) = p s := by
  induction l generalizing s with
  | nil => rfl
  | cons a rest ih =>
    show p (rest.foldl f (f s a)) = p s
    rw [ih (f s a)]
    exact h s a

@[simp]
theorem applyTheme_m_themes (themeName : String) (s : CustomizationEngine) :
    (applyTheme themeName s).m_themes = s.m_themes := by
  unfold applyTheme
  split <;> rfl

@[simp]
theorem setTabOrientation_m_themes (orientation : TabOrientation) (s : CustomizationEngine) :
    (setTabOrientation orientation s).m_themes = s.m_themes := by
  unfold setTabOrientation
  split <;> rfl

@[simp]
theorem injectCustomCSS_m_themes (url css : String) (s : CustomizationEngine) :
    (injectCustomCSS url css s).m_themes = s.m_themes := by
  rfl

@[simp]
theorem setToolbarPosition_m_themes (area : Int) (s : CustomizationEngine) :
    (setToolbarPosition area s).m_themes = s.m_themes := by
  unfold setToolbarPosition
  split
  · split <;> rfl
  · rfl

@[simp]
theorem setStatusBarVisibility_m_themes (visible : Bool) (s : CustomizationEngine) :
    (setStatusBarVisibility visible s).m_themes = s.m_themes := by
  unfold setStatusBarVisibility
  split <;> rfl

@[simp]
theorem setSidebarPosition_m_themes (area : Int) (s : CustomizationEngine) :
    (setSidebarPosition area s).m_themes = s.m_themes := by
  unfold setSidebarPosition
  split
  · split <;> rfl
  · rfl

@[simp]
theorem setGlobalFont_m_themes (font : QFont) (s : CustomizationEngine) :
    (setGlobalFont font s).m_themes = s.m_themes := by
  rfl

@[simp]
theorem setMinimumFontSize_m_themes (size : Int) (s : CustomizationEngine) :
    (setMinimumFontSize size s).m_themes = s.m_themes := by
  rfl

@[simp]
theorem setColorScheme_m_themes (schemeName : String) (s : CustomizationEngine) :
    (setColorScheme schemeName s).m_themes = s.m_themes := by
  rfl

@[simp]
theorem addUserScript_m_themes (name script : String) (urlPatterns : List String) (s : CustomizationEngine) :
    (addUserScript name script urlPatterns s).m_themes = s.m_themes := by
  rfl

@[simp]
theorem setKeyboardShortcut_m_themes (actionName shortcut : String) (s : CustomizationEngine) :
    (setKeyboardShortcut actionName shortcut s).m_themes = s.m_themes := by
  rfl

@[simp]
theorem setDoNotTrack_m_themes (enable : Bool) (s : CustomizationEngine) :
    (setDoNotTrack enable s).m_themes = s.m_themes := by
  rfl

@[simp]
theorem setThirdPartyCookiesPolicy_m_themes (policy : Int) (s : CustomizationEngine) :
    (setThirdPartyCookiesPolicy policy s).m_themes = s.m_themes := by
  rfl

@[simp]
theorem setZoomFactor_m_themes (factor : ℚ) (s : CustomizationEngine) :
    (setZoomFactor factor s).m_themes = s.m_themes := by
  rfl

@[simp]
theorem saveSettingsToJson_m_themes (filename : String) (s : CustomizationEngine) :
    (saveSettingsToJson filename s).m_themes = s.m_themes := by
  unfold saveSettingsToJson
  split <;> rfl

@[simp]
theorem loadTheme_m_themes (root : QJsonObject) (s : CustomizationEngine) :
    (loadTheme root s).m_themes = s.m_themes := by
  unfold loadTheme
  split
  · exact applyTheme_m_themes _ _
  · rfl

@[simp]
theorem loadTabOrientation_m_themes (root : QJsonObject) (s : CustomizationEngine) :
    (loadTabOrientation root s).m_themes = s.m_themes := by
  unfold loadTabOrientation
  split
  · exact setTabOrientation_m_themes _ _
  · rfl

@[simp]
theorem loadCustomCSS_m_themes (root : QJsonObject) (s : CustomizationEngine) :
    (loadCustomCSS root s).m_themes = s.m_themes := by
  unfold loadCustomCSS
  split
  · exact foldl_frame (fun st => st.m_themes) _ (fun st e => injectCustomCSS_m_themes _ _ st) _ s
  · rfl

@[simp]
theorem loadToolbarPosition_m_themes (root : QJsonObject) (s : CustomizationEngine) :
    (loadToolbarPosition root s).m_themes = s.m_themes := by
  unfold loadToolbarPosition
  split
  · exact setToolbarPosition_m_themes _ _
  · rfl

@[simp]
theorem loadStatusBarVisibility_m_themes (root : QJsonObject) (s : CustomizationEngine) :
    (loadStatusBarVisibility root s).m_themes = s.m_themes := by
  unfold loadStatusBarVisibility
  split
  · exact setStatusBarVisibility_m_themes _ _
  · rfl

@[simp]
theorem loadSidebarPosition_m_themes (root : QJsonObject) (s : CustomizationEngine) :
    (loadSidebarPosition root s).m_themes = s.m_themes := by
  unfold loadSidebarPosition
  split
  · exact setSidebarPosition_m_themes _ _
  · rfl

@[simp]
theorem loadGlobalFont_m_themes (root : QJsonObject) (s : CustomizationEngine) :
    (loadGlobalFont root s).m_themes = s.m_themes := by
  unfold loadGlobalFont
  split
  · exact setGlobalFont_m_themes _ _
  · rfl

@[simp]
theorem loadMinimumFontSize_m_themes (root : QJsonObject) (s : CustomizationEngine) :
    (loadMinimumFontSize root s).m_themes = s.m_themes := by
  unfold loadMinimumFontSize
  split
  · exact setMinimumFontSize_m_themes _ _
  · rfl

@[simp]
theorem loadColorScheme_m_themes (root : QJsonObject) (s : CustomizationEngine) :
    (loadColorScheme root s).m_themes = s.m_themes := by
  unfold loadColorScheme
  split
  · exact setColorScheme_m_themes _ _
  · rfl

@[simp]
theorem loadExtensions_m_themes (root : QJsonObject) (s : CustomizationEngine) :
    (loadExtensions root s).m_themes = s.m_themes := by
  unfold loadExtensions
  split
  · exact foldl_frame (fun st => st.m_themes) _ (fun _ _ => rfl) _ s
  · rfl

@[simp]
theorem loadUserScripts_m_themes (root : QJsonObject) (s : CustomizationEngine) :
    (loadUserScripts root s).m_themes = s.m_themes := by
  unfold loadUserScripts
  split
  · refine foldl_frame (fun st => st.m_themes) _ (fun st v => ?_) _ s
    show (loadUserScript st v).m_themes = _
    unfold loadUserScript
    split
    · exact addUserScript_m_themes _ _ _ _
    · rfl
  · rfl

@[simp]
theorem loadKeyboardShortcuts_m_themes (root : QJsonObject) (s : CustomizationEngine) :
    (loadKeyboardShortcuts root s).m_themes = s.m_themes := by
  unfold loadKeyboardShortcuts
  split
  · exact foldl_frame (fun st => st.m_themes) _ (fun st e => setKeyboardShortcut_m_themes _ _ st) _ s
  · rfl

@[simp]
theorem loadDoNotTrack_m_themes (root : QJsonObject) (s : CustomizationEngine) :
    (loadDoNotTrack root s).m_themes = s.m_themes := by
  unfold loadDoNotTrack
  split
  · exact setDoNotTrack_m_themes _ _
  · rfl

@[simp]
theorem loadThirdPartyCookiesPolicy_m_themes (root : QJsonObject) (s : CustomizationEngine) :
    (loadThirdPartyCookiesPolicy root s).m_themes = s.m_themes := by
  unfold loadThirdPartyCookiesPolicy
  split
  · exact setThirdPartyCookiesPolicy_m_themes _ _
  · rfl


@[simp]
theorem loadRoot_m_themes (root : QJsonObject) (s : CustomizationEngine) :
    (loadRoot root s).m_themes = s.m_themes := by
  simp [loadRoot]

@[simp]
theorem resetToDefaultSettings_m_themes (s : CustomizationEngine) :
    (resetToDefaultSettings s).m_themes = s.m_themes := by
  simp [resetToDefaultSettings, saveCustomization]

@[simp]
theorem applyTheme_minimumFontSize (themeName : String) (s : CustomizationEngine) :
    (applyTheme themeName s).webView.minimumFontSize = s.webView.minimumFontSize := by
  unfold applyTheme
  split <;> rfl

@[simp]
theorem setTabOrientation_minimumFontSize (orientation : TabOrientation) (s : CustomizationEngine) :
    (setTabOrientation orientation s).webView.minimumFontSize = s.webView.minimumFontSize := by
  unfold setTabOrientation
  split <;> rfl

@[simp]
theorem injectCustomCSS_minimumFontSize (url css : String) (s : CustomizationEngine) :
    (injectCustomCSS url css s).webView.minimumFontSize = s.webView.minimumFontSize := by
  rfl

@[simp]
theorem setToolbarPosition_minimumFontSize (area : Int) (s : CustomizationEngine) :
    (setToolbarPosition area s).webView.minimumFontSize = s.webView.minimumFontSize := by
  unfold setToolbarPosition
  split
  · split <;> rfl
  · rfl

@[simp]
theorem setStatusBarVisibility_minimumFontSize (visible : Bool) (s : CustomizationEngine) :
    (setStatusBarVisibility visible s).webView.minimumFontSize = s.webView.minimumFontSize := by
  unfold setStatusBarVisibility
  split <;> rfl

@[simp]
theorem setSidebarPosition_minimumFontSize (area : Int) (s : CustomizationEngine) :
    (setSidebarPosition area s).webView.minimumFontSize = s.webView.minimumFontSize := by
  unfold setSidebarPosition
  split
  · split <;> rfl
  · rfl

@[simp]
theorem setGlobalFont_minimumFontSize (font : QFont) (s : CustomizationEngine) :
    (setGlobalFont font s).webView.minimumFontSize = s.webView.minimumFontSize := by
  rfl

@[simp]
theorem setColorScheme_minimumFontSize (schemeName : String) (s : CustomizationEngine) :
    (setColorScheme schemeName s).webView.minimumFontSize = s.webView.minimumFontSize := by
  rfl

@[simp]
theorem addUserScript_minimumFontSize (name script : String) (urlPatterns : List String) (s : CustomizationEngine) :
    (addUserScript name script urlPatterns s).webView.minimumFontSize = s.webView.minimumFontSize := by
  rfl

@[simp]
theorem setKeyboardShortcut_minimumFontSize (actionName shortcut : String) (s : CustomizationEngine) :
    (setKeyboardShortcut actionName shortcut s).webView.minimumFontSize = s.webView.minimumFontSize := by
  rfl

@[simp]
theorem setDoNotTrack_minimumFontSize (enable : Bool) (s : CustomizationEngine) :
    (setDoNotTrack enable s).webView.minimumFontSize = s.webView.minimumFontSize := by
  rfl

@[simp]
theorem setThirdPartyCookiesPolicy_minimumFontSize (policy : Int) (s : CustomizationEngine) :
    (setThirdPartyCookiesPolicy policy s).webView.minimumFontSize = s.webView.minimumFontSize := by
  rfl

@[simp]
theorem setZoomFactor_minimumFontSize (factor : ℚ) (s : CustomizationEngine) :
    (setZoomFactor factor s).webView.minimumFontSize = s.webView.minimumFontSize := by
  rfl

@[simp]
theorem saveSettingsToJson_minimumFontSize (filename : String) (s : CustomizationEngine) :
    (saveSettingsToJson filename s).webView.minimumFontSize = s.webView.minimumFontSize := by
  unfold saveSettingsToJson
  split <;> rfl

@[simp]
theorem loadTheme_minimumFontSize (root : QJsonObject) (s : CustomizationEngine) :
    (loadTheme root s).webView.minimumFontSize = s.webView.minimumFontSize := by
  unfold loadTheme
  split
  · exact applyTheme_minimumFontSize _ _
  · rfl

@[simp]
theorem loadTabOrientation_minimumFontSize (root : QJsonObject) (s : CustomizationEngine) :
    (loadTabOrientation root s).webView.minimumFontSize = s.webView.minimumFontSize := by
  unfold loadTabOrientation
  split
  · exact setTabOrientation_minimumFontSize _ _
  · rfl

@[simp]
theorem loadCustomCSS_minimumFontSize (root : QJsonObject) (s : CustomizationEngine) :
    (loadCustomCSS root s).webView.minimumFontSize = s.webView.minimumFontSize := by
  unfold loadCustomCSS
  split
  · exact foldl_frame (fun st => st.webView.minimumFontSize) _ (fun st e => injectCustomCSS_minimumFontSize _ _ st) _ s
  · rfl

@[simp]
theorem loadToolbarPosition_minimumFontSize (root : QJsonObject) (s : CustomizationEngine) :
    (loadToolbarPosition root s).webView.minimumFontSize = s.webView.minimumFontSize := by
  unfold loadToolbarPosition
  split
  · exact setToolbarPosition_minimumFontSize _ _
  · rfl

@[simp]
theorem loadStatusBarVisibility_minimumFontSize (root : QJsonObject) (s : CustomizationEngine) :
    (loadStatusBarVisibility root s).webView.minimumFontSize = s.webView.minimumFontSize := by
  unfold loadStatusBarVisibility
  split
  · exact setStatusBarVisibility_minimumFontSize _ _
  · rfl

@[simp]
theorem loadSidebarPosition_minimumFontSize (root : QJsonObject) (s : CustomizationEngine) :
    (loadSidebarPosition root s).webView.minimumFontSize = s.webView.minimumFontSize := by
  unfold loadSidebarPosition
  split
  · exact setSidebarPosition_minimumFontSize _ _
  · rfl

@[simp]
theorem loadGlobalFont_minimumFontSize (root : QJsonObject) (s : CustomizationEngine) :
    (loadGlobalFont root s).webView.minimumFontSize = s.webView.minimumFontSize := by
  unfold loadGlobalFont
  split
  · exact setGlobalFont_minimumFontSize _ _
  · rfl

@[simp]
theorem loadColorScheme_minimumFontSize (root : QJsonObject) (s : CustomizationEngine) :
    (loadColorScheme root s).webView.minimumFontSize = s.webView.minimumFontSize := by
  unfold loadColorScheme
  split
  · exact setColorScheme_minimumFontSize _ _
  · rfl

@[simp]
theorem loadExtensions_minimumFontSize (root : QJsonObject) (s : CustomizationEngine) :
    (loadExtensions root s).webView.minimumFontSize = s.webView.minimumFontSize := by
  unfold loadExtensions
  split
  · exact foldl_frame (fun st => st.webView.minimumFontSize) _ (fun _ _ => rfl) _ s
  · rfl

@[simp]
theorem loadUserScripts_minimumFontSize (root : QJsonObject) (s : CustomizationEngine) :
    (loadUserScripts root s).webView.minimumFontSize = s.webView.minimumFontSize := by
  unfold loadUserScripts
  split
  · refine foldl_frame (fun st => st.webView.minimumFontSize) _ (fun st v => ?_) _ s
    show (loadUserScript st v).webView.minimumFontSize = _
    unfold loadUserScript
    split
    · exact addUserScript_minimumFontSize _ _ _ _
    · rfl
  · rfl

@[simp]
theorem loadKeyboardShortcuts_minimumFontSize (root : QJsonObject) (s : CustomizationEngine) :
    (loadKeyboardShortcuts root s).webView.minimumFontSize = s.webView.minimumFontSize := by
  unfold loadKeyboardShortcuts
  split
  · exact foldl_frame (fun st => st.webView.minimumFontSize) _ (fun st e => setKeyboardShortcut_minimumFontSize _ _ st) _ s
  · rfl

@[simp]
theorem loadDoNotTrack_minimumFontSize (root : QJsonObject) (s : CustomizationEngine) :
    (loadDoNotTrack root s).webView.minimumFontSize = s.webView.minimumFontSize := by
  unfold loadDoNotTrack
  split
  · exact setDoNotTrack_minimumFontSize _ _
  · rfl

@[simp]
theorem loadThirdPartyCookiesPolicy_minimumFontSize (root : QJsonObject) (s : CustomizationEngine) :
    (loadThirdPartyCookiesPolicy root s).webView.minimumFontSize = s.webView.minimumFontSize := by
  unfold loadThirdPartyCookiesPolicy
  split
  · exact setThirdPartyCookiesPolicy_minimumFontSize _ _
  · rfl


@[simp]
theorem applyTheme_m_customCSS (themeName : String) (s : CustomizationEngine) :
    (applyTheme themeName s).m_customCSS = s.m_customCSS := by
  unfold applyTheme
  split <;> rfl

@[simp]
theorem setTabOrientation_m_customCSS (orientation : TabOrientation) (s : CustomizationEngine) :
    (setTabOrientation orientation s).m_customCSS = s.m_customCSS := by
  unfold setTabOrientation
  split <;> rfl

@[simp]
theorem setToolbarPosition_m_customCSS (area : Int) (s : CustomizationEngine) :
    (setToolbarPosition area s).m_customCSS = s.m_customCSS := by
  unfold setToolbarPosition
  split
  · split <;> rfl
  · rfl

@[simp]
theorem setStatusBarVisibility_m_customCSS (visible : Bool) (s : CustomizationEngine) :
    (setStatusBarVisibility visible s).m_customCSS = s.m_customCSS := by
  unfold setStatusBarVisibility
  split <;> rfl

@[simp]
theorem setSidebarPosition_m_customCSS (area : Int) (s : CustomizationEngine) :
    (setSidebarPosition area s).m_customCSS = s.m_customCSS := by
  unfold setSidebarPosition
  split
  · split <;> rfl
  · rfl

@[simp]
theorem setGlobalFont_m_customCSS (font : QFont) (s : CustomizationEngine) :
    (setGlobalFont font s).m_customCSS = s.m_customCSS := by
  rfl

@[simp]
theorem setMinimumFontSize_m_customCSS (size : Int) (s : CustomizationEngine) :
    (setMinimumFontSize size s).m_customCSS = s.m_customCSS := by
  rfl

@[simp]
theorem setColorScheme_m_customCSS (schemeName : String) (s : CustomizationEngine) :
    (setColorScheme schemeName s).m_customCSS = s.m_customCSS := by
  rfl

@[simp]
theorem addUserScript_m_customCSS (name script : String) (urlPatterns : List String) (s : CustomizationEngine) :
    (addUserScript name script urlPatterns s).m_customCSS = s.m_customCSS := by
  rfl

@[simp]
theorem setKeyboardShortcut_m_customCSS (actionName shortcut : String) (s : CustomizationEngine) :
    (setKeyboardShortcut actionName shortcut s).m_customCSS = s.m_customCSS := by
  rfl

@[simp]
theorem setDoNotTrack_m_customCSS (enable : Bool) (s : CustomizationEngine) :
    (setDoNotTrack enable s).m_customCSS = s.m_customCSS := by
  rfl

@[simp]
theorem setThirdPartyCookiesPolicy_m_customCSS (policy : Int) (s : CustomizationEngine) :
    (setThirdPartyCookiesPolicy policy s).m_customCSS = s.m_customCSS := by
  rfl

@[simp]
theorem setZoomFactor_m_customCSS (factor : ℚ) (s : CustomizationEngine) :
    (setZoomFactor factor s).m_customCSS = s.m_customCSS := by
  rfl

@[simp]
theorem saveSettingsToJson_m_customCSS (filename : String) (s : CustomizationEngine) :
    (saveSettingsToJson filename s).m_customCSS = s.m_customCSS := by
  unfold saveSettingsToJson
  split <;> rfl

@[simp]
theorem loadTheme_m_customCSS (root : QJsonObject) (s : CustomizationEngine) :
    (loadTheme root s).m_customCSS = s.m_customCSS := by
  unfold loadTheme
  split
  · exact applyTheme_m_customCSS _ _
  · rfl

@[simp]
theorem loadTabOrientation_m_customCSS (root : QJsonObject) (s : CustomizationEngine) :
    (loadTabOrientation root s).m_customCSS = s.m_customCSS := by
  unfold loadTabOrientation
  split
  · exact setTabOrientation_m_customCSS _ _
  · rfl

@[simp]
theorem loadToolbarPosition_m_customCSS (root : QJsonObject) (s : CustomizationEngine) :
    (loadToolbarPosition root s).m_customCSS = s.m_customCSS := by
  unfold loadToolbarPosition
  split
  · exact setToolbarPosition_m_customCSS _ _
  · rfl

@[simp]
theorem loadStatusBarVisibility_m_customCSS (root : QJsonObject) (s : CustomizationEngine) :
    (loadStatusBarVisibility root s).m_customCSS = s.m_customCSS := by
  unfold loadStatusBarVisibility
  split
  · exact setStatusBarVisibility_m_customCSS _ _
  · rfl

@[simp]
theorem loadSidebarPosition_m_customCSS (root : QJsonObject) (s : CustomizationEngine) :
    (loadSidebarPosition root s).m_customCSS = s.m_customCSS := by
  unfold loadSidebarPosition
  split
  · exact setSidebarPosition_m_customCSS _ _
  · rfl

@[simp]
theorem loadGlobalFont_m_customCSS (root : QJsonObject) (s : CustomizationEngine) :
    (loadGlobalFont root s).m_customCSS = s.m_customCSS := by
  unfold loadGlobalFont
  split
  · exact setGlobalFont_m_customCSS _ _
  · rfl

@[simp]
theorem loadMinimumFontSize_m_customCSS (root : QJsonObject) (s : CustomizationEngine) :
    (loadMinimumFontSize root s).m_customCSS = s.m_customCSS := by
  unfold loadMinimumFontSize
  split
  · exact setMinimumFontSize_m_customCSS _ _
  · rfl

@[simp]
theorem loadColorScheme_m_customCSS (root : QJsonObject) (s : CustomizationEngine) :
    (loadColorScheme root s).m_customCSS = s.m_customCSS := by
  unfold loadColorScheme
  split
  · exact setColorScheme_m_customCSS _ _
  · rfl

@[simp]
theorem loadExtensions_m_customCSS (root : QJsonObject) (s : CustomizationEngine) :
    (loadExtensions root s).m_customCSS = s.m_customCSS := by
  unfold loadExtensions
  split
  · exact foldl_frame (fun st => st.m_customCSS) _ (fun _ _ => rfl) _ s
  · rfl

@[simp]
theorem loadUserScripts_m_customCSS (root : QJsonObject) (s : CustomizationEngine) :
    (loadUserScripts root s).m_customCSS = s.m_customCSS := by
  unfold loadUserScripts
  split
  · refine foldl_frame (fun st => st.m_customCSS) _ (fun st v => ?_) _ s
    show (loadUserScript st v).m_customCSS = _
    unfold loadUserScript
    split
    · exact addUserScript_m_customCSS _ _ _ _
    · rfl
  · rfl

@[simp]
theorem loadKeyboardShortcuts_m_customCSS (root : QJsonObject) (s : CustomizationEngine) :
    (loadKeyboardShortcuts root s).m_customCSS = s.m_customCSS := by
  unfold loadKeyboardShortcuts
  split
  · exact foldl_frame (fun st => st.m_customCSS) _ (fun st e => setKeyboardShortcut_m_customCSS _ _ st) _ s
  · rfl

@[simp]
theorem loadDoNotTrack_m_customCSS (root : QJsonObject) (s : CustomizationEngine) :
    (loadDoNotTrack root s).m_customCSS = s.m_customCSS := by
  unfold loadDoNotTrack
  split
  · exact setDoNotTrack_m_customCSS _ _
  · rfl

@[simp]
theorem loadThirdPartyCookiesPolicy_m_customCSS (root : QJsonObject) (s : CustomizationEngine) :
    (loadThirdPartyCookiesPolicy root s).m_customCSS = s.m_customCSS := by
  unfold loadThirdPartyCookiesPolicy
  split
  · exact setThirdPartyCookiesPolicy_m_customCSS _ _
  · rfl


@[simp]
theorem applyTheme_tabWidget (themeName : String) (s : CustomizationEngine) :
    (applyTheme themeName s).mainWindow.tabWidget = s.mainWindow.tabWidget := by
  unfold applyTheme
  split <;> rfl

@[simp]
theorem injectCustomCSS_tabWidget (url css : String) (s : CustomizationEngine) :
    (injectCustomCSS url css s).mainWindow.tabWidget = s.mainWindow.tabWidget := by
  rfl

@[simp]
theorem setToolbarPosition_tabWidget (area : Int) (s : CustomizationEngine) :
    (setToolbarPosition area s).mainWindow.tabWidget = s.mainWindow.tabWidget := by
  unfold setToolbarPosition
  split
  · split <;> rfl
  · rfl

@[simp]
theorem setStatusBarVisibility_tabWidget (visible : Bool) (s : CustomizationEngine) :
    (setStatusBarVisibility visible s).mainWindow.tabWidget = s.mainWindow.tabWidget := by
  unfold setStatusBarVisibility
  split <;> rfl

@[simp]
theorem setSidebarPosition_tabWidget (area : Int) (s : CustomizationEngine) :
    (setSidebarPosition area s).mainWindow.tabWidget = s.mainWindow.tabWidget := by
  unfold setSidebarPosition
  split
  · split <;> rfl
  · rfl

@[simp]
theorem setGlobalFont_tabWidget (font : QFont) (s : CustomizationEngine) :
    (setGlobalFont font s).mainWindow.tabWidget = s.mainWindow.tabWidget := by
  rfl

@[simp]
theorem setMinimumFontSize_tabWidget (size : Int) (s : CustomizationEngine) :
    (setMinimumFontSize size s).mainWindow.tabWidget = s.mainWindow.tabWidget := by
  rfl

@[simp]
theorem setColorScheme_tabWidget (schemeName : String) (s : CustomizationEngine) :
    (setColorScheme schemeName s).mainWindow.tabWidget = s.mainWindow.tabWidget := by
  rfl

@[simp]
theorem addUserScript_tabWidget (name script : String) (urlPatterns : List String) (s : CustomizationEngine) :
    (addUserScript name script urlPatterns s).mainWindow.tabWidget = s.mainWindow.tabWidget := by
  rfl

@[simp]
theorem setKeyboardShortcut_tabWidget (actionName shortcut : String) (s : CustomizationEngine) :
    (setKeyboardShortcut actionName shortcut s).mainWindow.tabWidget = s.mainWindow.tabWidget := by
  rfl

@[simp]
theorem setDoNotTrack_tabWidget (enable : Bool) (s : CustomizationEngine) :
    (setDoNotTrack enable s).mainWindow.tabWidget = s.mainWindow.tabWidget := by
  rfl

@[simp]
theorem setThirdPartyCookiesPolicy_tabWidget (policy : Int) (s : CustomizationEngine) :
    (setThirdPartyCookiesPolicy policy s).mainWindow.tabWidget = s.mainWindow.tabWidget := by
  rfl

@[simp]
theorem setZoomFactor_tabWidget (factor : ℚ) (s : CustomizationEngine) :
    (setZoomFactor factor s).mainWindow.tabWidget = s.mainWindow.tabWidget := by
  rfl

@[simp]
theorem saveSettingsToJson_tabWidget (filename : String) (s : CustomizationEngine) :
    (saveSettingsToJson filename s).mainWindow.tabWidget = s.mainWindow.tabWidget := by
  unfold saveSettingsToJson
  split <;> rfl

@[simp]
theorem loadTheme_tabWidget (root : QJsonObject) (s : CustomizationEngine) :
    (loadTheme root s).mainWindow.tabWidget = s.mainWindow.tabWidget := by
  unfold loadTheme
  split
  · exact applyTheme_tabWidget _ _
  · rfl

@[simp]
theorem loadCustomCSS_tabWidget (root : QJsonObject) (s : CustomizationEngine) :
    (loadCustomCSS root s).mainWindow.tabWidget = s.mainWindow.tabWidget := by
  unfold loadCustomCSS
  split
  · exact foldl_frame (fun st => st.mainWindow.tabWidget) _ (fun st e => injectCustomCSS_tabWidget _ _ st) _ s
  · rfl

@[simp]
theorem loadToolbarPosition_tabWidget (root : QJsonObject) (s : CustomizationEngine) :
    (loadToolbarPosition root s).mainWindow.tabWidget = s.mainWindow.tabWidget := by
  unfold loadToolbarPosition
  split
  · exact setToolbarPosition_tabWidget _ _
  · rfl

@[simp]
theorem loadStatusBarVisibility_tabWidget (root : QJsonObject) (s : CustomizationEngine) :
    (loadStatusBarVisibility root s).mainWindow.tabWidget = s.mainWindow.tabWidget := by
  unfold loadStatusBarVisibility
  split
  · exact setStatusBarVisibility_tabWidget _ _
  · rfl

@[simp]
theorem loadSidebarPosition_tabWidget (root : QJsonObject) (s : CustomizationEngine) :
    (loadSidebarPosition root s).mainWindow.tabWidget = s.mainWindow.tabWidget := by
  unfold loadSidebarPosition
  split
  · exact setSidebarPosition_tabWidget _ _
  · rfl

@[simp]
theorem loadGlobalFont_tabWidget (root : QJsonObject) (s : CustomizationEngine) :
    (loadGlobalFont root s).mainWindow.tabWidget = s.mainWindow.tabWidget := by
  unfold loadGlobalFont
  split
  · exact setGlobalFont_tabWidget _ _
  · rfl

@[simp]
theorem loadMinimumFontSize_tabWidget (root : QJsonObject) (s : CustomizationEngine) :
    (loadMinimumFontSize root s).mainWindow.tabWidget = s.mainWindow.tabWidget := by
  unfold loadMinimumFontSize
  split
  · exact setMinimumFontSize_tabWidget _ _
  · rfl

@[simp]
theorem loadColorScheme_tabWidget (root : QJsonObject) (s : CustomizationEngine) :
    (loadColorScheme root s).mainWindow.tabWidget = s.mainWindow.tabWidget := by
  unfold loadColorScheme
  split
  · exact setColorScheme_tabWidget _ _
  · rfl

@[simp]
theorem loadExtensions_tabWidget (root : QJsonObject) (s : CustomizationEngine) :
    (loadExtensions root s).mainWindow.tabWidget = s.mainWindow.tabWidget := by
  unfold loadExtensions
  split
  · exact foldl_frame (fun st => st.mainWindow.tabWidget) _ (fun _ _ => rfl) _ s
  · rfl

@[simp]
theorem loadUserScripts_tabWidget (root : QJsonObject) (s : CustomizationEngine) :
    (loadUserScripts root s).mainWindow.tabWidget = s.mainWindow.tabWidget := by
  unfold loadUserScripts
  split
  · refine foldl_frame (fun st => st.mainWindow.tabWidget) _ (fun st v => ?_) _ s
    show (loadUserScript st v).mainWindow.tabWidget = _
    unfold loadUserScript
    split
    · exact addUserScript_tabWidget _ _ _ _
    · rfl
  · rfl

@[simp]
theorem loadKeyboardShortcuts_tabWidget (root : QJsonObject) (s : CustomizationEngine) :
    (loadKeyboardShortcuts root s).mainWindow.tabWidget = s.mainWindow.tabWidget := by
  unfold loadKeyboardShortcuts
  split
  · exact foldl_frame (fun st => st.mainWindow.tabWidget) _ (fun st e => setKeyboardShortcut_tabWidget _ _ st) _ s
  · rfl

@[simp]
theorem loadDoNotTrack_tabWidget (root : QJsonObject) (s : CustomizationEngine) :
    (loadDoNotTrack root s).mainWindow.tabWidget = s.mainWindow.tabWidget := by
  unfold loadDoNotTrack
  split
  · exact setDoNotTrack_tabWidget _ _
  · rfl

@[simp]
theorem loadThirdPartyCookiesPolicy_tabWidget (root : QJsonObject) (s : CustomizationEngine) :
    (loadThirdPartyCookiesPolicy root s).mainWindow.tabWidget = s.mainWindow.tabWidget := by
  unfold loadThirdPartyCookiesPolicy
  split
  · exact setThirdPartyCookiesPolicy_tabWidget _ _
  · rfl


@[simp]
theorem applyTheme_toolBar (themeName : String) (s : CustomizationEngine) :
    (applyTheme themeName s).mainWindow.toolBar = s.mainWindow.toolBar := by
  unfold applyTheme
  split <;> rfl

@[simp]
theorem setTabOrientation_toolBar (orientation : TabOrientation) (s : CustomizationEngine) :
    (setTabOrientation orientation s).mainWindow.toolBar = s.mainWindow.toolBar := by
  unfold setTabOrientation
  split <;> rfl

@[simp]
theorem injectCustomCSS_toolBar (url css : String) (s : CustomizationEngine) :
    (injectCustomCSS url css s).mainWindow.toolBar = s.mainWindow.toolBar := by
  rfl

@[simp]
theorem setStatusBarVisibility_toolBar (visible : Bool) (s : CustomizationEngine) :
    (setStatusBarVisibility visible s).mainWindow.toolBar = s.mainWindow.toolBar := by
  unfold setStatusBarVisibility
  split <;> rfl

@[simp]
theorem setSidebarPosition_toolBar (area : Int) (s : CustomizationEngine) :
    (setSidebarPosition area s).mainWindow.toolBar = s.mainWindow.toolBar := by
  unfold setSidebarPosition
  split
  · split <;> rfl
  · rfl

@[simp]
theorem setGlobalFont_toolBar (font : QFont) (s : CustomizationEngine) :
    (setGlobalFont font s).mainWindow.toolBar = s.mainWindow.toolBar := by
  rfl

@[simp]
theorem setMinimumFontSize_toolBar (size : Int) (s : CustomizationEngine) :
    (setMinimumFontSize size s).mainWindow.toolBar = s.mainWindow.toolBar := by
  rfl

@[simp]
theorem setColorScheme_toolBar (schemeName : String) (s : CustomizationEngine) :
    (setColorScheme schemeName s).mainWindow.toolBar = s.mainWindow.toolBar := by
  rfl

@[simp]
theorem addUserScript_toolBar (name script : String) (urlPatterns : List String) (s : CustomizationEngine) :
    (addUserScript name script urlPatterns s).mainWindow.toolBar = s.mainWindow.toolBar := by
  rfl

@[simp]
theorem setKeyboardShortcut_toolBar (actionName shortcut : String) (s : CustomizationEngine) :
    (setKeyboardShortcut actionName shortcut s).mainWindow.toolBar = s.mainWindow.toolBar := by
  rfl

@[simp]
theorem setDoNotTrack_toolBar (enable : Bool) (s : CustomizationEngine) :
    (setDoNotTrack enable s).mainWindow.toolBar = s.mainWindow.toolBar := by
  rfl

@[simp]
theorem setThirdPartyCookiesPolicy_toolBar (policy : Int) (s : CustomizationEngine) :
    (setThirdPartyCookiesPolicy policy s).mainWindow.toolBar = s.mainWindow.toolBar := by
  rfl

@[simp]
theorem setZoomFactor_toolBar (factor : ℚ) (s : CustomizationEngine) :
    (setZoomFactor factor s).mainWindow.toolBar = s.mainWindow.toolBar := by
  rfl

@[simp]
theorem saveSettingsToJson_toolBar (filename : String) (s : CustomizationEngine) :
    (saveSettingsToJson filename s).mainWindow.toolBar = s.mainWindow.toolBar := by
  unfold saveSettingsToJson
  split <;> rfl

@[simp]
theorem loadTheme_toolBar (root : QJsonObject) (s : CustomizationEngine) :
    (loadTheme root s).mainWindow.toolBar = s.mainWindow.toolBar := by
  unfold loadTheme
  split
  · exact applyTheme_toolBar _ _
  · rfl

@[simp]
theorem loadTabOrientation_toolBar (root : QJsonObject) (s : CustomizationEngine) :
    (loadTabOrientation root s).mainWindow.toolBar = s.mainWindow.toolBar := by
  unfold loadTabOrientation
  split
  · exact setTabOrientation_toolBar _ _
  · rfl

@[simp]
theorem loadCustomCSS_toolBar (root : QJsonObject) (s : CustomizationEngine) :
    (loadCustomCSS root s).mainWindow.toolBar = s.mainWindow.toolBar := by
  unfold loadCustomCSS
  split
  · exact foldl_frame (fun st => st.mainWindow.toolBar) _ (fun st e => injectCustomCSS_toolBar _ _ st) _ s
  · rfl

@[simp]
theorem loadStatusBarVisibility_toolBar (root : QJsonObject) (s : CustomizationEngine) :
    (loadStatusBarVisibility root s).mainWindow.toolBar = s.mainWindow.toolBar := by
  unfold loadStatusBarVisibility
  split
  · exact setStatusBarVisibility_toolBar _ _
  · rfl

@[simp]
theorem loadSidebarPosition_toolBar (root : QJsonObject) (s : CustomizationEngine) :
    (loadSidebarPosition root s).mainWindow.toolBar = s.mainWindow.toolBar := by
  unfold loadSidebarPosition
  split
  · exact setSidebarPosition_toolBar _ _
  · rfl

@[simp]
theorem loadGlobalFont_toolBar (root : QJsonObject) (s : CustomizationEngine) :
    (loadGlobalFont root s).mainWindow.toolBar = s.mainWindow.toolBar := by
  unfold loadGlobalFont
  split
  · exact setGlobalFont_toolBar _ _
  · rfl

@[simp]
theorem loadMinimumFontSize_toolBar (root : QJsonObject) (s : CustomizationEngine) :
    (loadMinimumFontSize root s).mainWindow.toolBar = s.mainWindow.toolBar := by
  unfold loadMinimumFontSize
  split
  · exact setMinimumFontSize_toolBar _ _
  · rfl

@[simp]
theorem loadColorScheme_toolBar (root : QJsonObject) (s : CustomizationEngine) :
    (loadColorScheme root s).mainWindow.toolBar = s.mainWindow.toolBar := by
  unfold loadColorScheme
  split
  · exact setColorScheme_toolBar _ _
  · rfl

@[simp]
theorem loadExtensions_toolBar (root : QJsonObject) (s : CustomizationEngine) :
    (loadExtensions root s).mainWindow.toolBar = s.mainWindow.toolBar := by
  unfold loadExtensions
  split
  · exact foldl_frame (fun st => st.mainWindow.toolBar) _ (fun _ _ => rfl) _ s
  · rfl

@[simp]
theorem loadUserScripts_toolBar (root : QJsonObject) (s : CustomizationEngine) :
    (loadUserScripts root s).mainWindow.toolBar = s.mainWindow.toolBar := by
  unfold loadUserScripts
  split
  · refine foldl_frame (fun st => st.mainWindow.toolBar) _ (fun st v => ?_) _ s
    show (loadUserScript st v).mainWindow.toolBar = _
    unfold loadUserScript
    split
    · exact addUserScript_toolBar _ _ _ _
    · rfl
  · rfl

@[simp]
theorem loadKeyboardShortcuts_toolBar (root : QJsonObject) (s : CustomizationEngine) :
    (loadKeyboardShortcuts root s).mainWindow.toolBar = s.mainWindow.toolBar := by
  unfold loadKeyboardShortcuts
  split
  · exact foldl_frame (fun st => st.mainWindow.toolBar) _ (fun st e => setKeyboardShortcut_toolBar _ _ st) _ s
  · rfl

@[simp]
theorem loadDoNotTrack_toolBar (root : QJsonObject) (s : CustomizationEngine) :
    (loadDoNotTrack root s).mainWindow.toolBar = s.mainWindow.toolBar := by
  unfold loadDoNotTrack
  split
  · exact setDoNotTrack_toolBar _ _
  · rfl

@[simp]
theorem loadThirdPartyCookiesPolicy_toolBar (root : QJsonObject) (s : CustomizationEngine) :
    (loadThirdPartyCookiesPolicy root s).mainWindow.toolBar = s.mainWindow.toolBar := by
  unfold loadThirdPartyCookiesPolicy
  split
  · exact setThirdPartyCookiesPolicy_toolBar _ _
  · rfl


@[simp]
theorem applyTheme_statusBarVisible (themeName : String) (s : CustomizationEngine) :
    (applyTheme themeName s).mainWindow.statusBarVisible = s.mainWindow.statusBarVisible := by
  unfold applyTheme
  split <;> rfl

@[simp]
theorem setTabOrientation_statusBarVisible (orientation : TabOrientation) (s : CustomizationEngine) :
    (setTabOrientation orientation s).mainWindow.statusBarVisible = s.mainWindow.statusBarVisible := by
  unfold setTabOrientation
  split <;> rfl

@[simp]
theorem injectCustomCSS_statusBarVisible (url css : String) (s : CustomizationEngine) :
    (injectCustomCSS url css s).mainWindow.statusBarVisible = s.mainWindow.statusBarVisible := by
  rfl

@[simp]
theorem setToolbarPosition_statusBarVisible (area : Int) (s : CustomizationEngine) :
    (setToolbarPosition area s).mainWindow.statusBarVisible = s.mainWindow.statusBarVisible := by
  unfold setToolbarPosition
  split
  · split <;> rfl
  · rfl

@[simp]
theorem setSidebarPosition_statusBarVisible (area : Int) (s : CustomizationEngine) :
    (setSidebarPosition area s).mainWindow.statusBarVisible = s.mainWindow.statusBarVisible := by
  unfold setSidebarPosition
  split
  · split <;> rfl
  · rfl

@[simp]
theorem setGlobalFont_statusBarVisible (font : QFont) (s : CustomizationEngine) :
    (setGlobalFont font s).mainWindow.statusBarVisible = s.mainWindow.statusBarVisible := by
  rfl

@[simp]
theorem setMinimumFontSize_statusBarVisible (size : Int) (s : CustomizationEngine) :
    (setMinimumFontSize size s).mainWindow.statusBarVisible = s.mainWindow.statusBarVisible := by
  rfl

@[simp]
theorem setColorScheme_statusBarVisible (schemeName : String) (s : CustomizationEngine) :
    (setColorScheme schemeName s).mainWindow.statusBarVisible = s.mainWindow.statusBarVisible := by
  rfl

@[simp]
theorem addUserScript_statusBarVisible (name script : String) (urlPatterns : List String) (s : CustomizationEngine) :
    (addUserScript name script urlPatterns s).mainWindow.statusBarVisible = s.mainWindow.statusBarVisible := by
  rfl

@[simp]
theorem setKeyboardShortcut_statusBarVisible (actionName shortcut : String) (s : CustomizationEngine) :
    (setKeyboardShortcut actionName shortcut s).mainWindow.statusBarVisible = s.mainWindow.statusBarVisible := by
  rfl

@[simp]
theorem setDoNotTrack_statusBarVisible (enable : Bool) (s : CustomizationEngine) :
    (setDoNotTrack enable s).mainWindow.statusBarVisible = s.mainWindow.statusBarVisible := by
  rfl

@[simp]
theorem setThirdPartyCookiesPolicy_statusBarVisible (policy : Int) (s : CustomizationEngine) :
    (setThirdPartyCookiesPolicy policy s).mainWindow.statusBarVisible = s.mainWindow.statusBarVisible := by
  rfl

@[simp]
theorem setZoomFactor_statusBarVisible (factor : ℚ) (s : CustomizationEngine) :
    (setZoomFactor factor s).mainWindow.statusBarVisible = s.mainWindow.statusBarVisible := by
  rfl

@[simp]
theorem saveSettingsToJson_statusBarVisible (filename : String) (s : CustomizationEngine) :
    (saveSettingsToJson filename s).mainWindow.statusBarVisible = s.mainWindow.statusBarVisible := by
  unfold saveSettingsToJson
  split <;> rfl

@[simp]
theorem loadTheme_statusBarVisible (root : QJsonObject) (s : CustomizationEngine) :
    (loadTheme root s).mainWindow.statusBarVisible = s.mainWindow.statusBarVisible := by
  unfold loadTheme
  split
  · exact applyTheme_statusBarVisible _ _
  · rfl

@[simp]
theorem loadTabOrientation_statusBarVisible (root : QJsonObject) (s : CustomizationEngine) :
    (loadTabOrientation root s).mainWindow.statusBarVisible = s.mainWindow.statusBarVisible := by
  unfold loadTabOrientation
  split
  · exact setTabOrientation_statusBarVisible _ _
  · rfl

@[simp]
theorem loadCustomCSS_statusBarVisible (root : QJsonObject) (s : CustomizationEngine) :
    (loadCustomCSS root s).mainWindow.statusBarVisible = s.mainWindow.statusBarVisible := by
  unfold loadCustomCSS
  split
  · exact foldl_frame (fun st => st.mainWindow.statusBarVisible) _ (fun st e => injectCustomCSS_statusBarVisible _ _ st) _ s
  · rfl

@[simp]
theorem loadToolbarPosition_statusBarVisible (root : QJsonObject) (s : CustomizationEngine) :
    (loadToolbarPosition root s).mainWindow.statusBarVisible = s.mainWindow.statusBarVisible := by
  unfold loadToolbarPosition
  split
  · exact setToolbarPosition_statusBarVisible _ _
  · rfl

@[simp]
theorem loadSidebarPosition_statusBarVisible (root : QJsonObject) (s : CustomizationEngine) :
    (loadSidebarPosition root s).mainWindow.statusBarVisible = s.mainWindow.statusBarVisible := by
  unfold loadSidebarPosition
  split
  · exact setSidebarPosition_statusBarVisible _ _
  · rfl

@[simp]
theorem loadGlobalFont_statusBarVisible (root : QJsonObject) (s : CustomizationEngine) :
    (loadGlobalFont root s).mainWindow.statusBarVisible = s.mainWindow.statusBarVisible := by
  unfold loadGlobalFont
  split
  · exact setGlobalFont_statusBarVisible _ _
  · rfl

@[simp]
theorem loadMinimumFontSize_statusBarVisible (root : QJsonObject) (s : CustomizationEngine) :
    (loadMinimumFontSize root s).mainWindow.statusBarVisible = s.mainWindow.statusBarVisible := by
  unfold loadMinimumFontSize
  split
  · exact setMinimumFontSize_statusBarVisible _ _
  · rfl

@[simp]
theorem loadColorScheme_statusBarVisible (root : QJsonObject) (s : CustomizationEngine) :
    (loadColorScheme root s).mainWindow.statusBarVisible = s.mainWindow.statusBarVisible := by
  unfold loadColorScheme
  split
  · exact setColorScheme_statusBarVisible _ _
  · rfl

@[simp]
theorem loadExtensions_statusBarVisible (root : QJsonObject) (s : CustomizationEngine) :
    (loadExtensions root s).mainWindow.statusBarVisible = s.mainWindow.statusBarVisible := by
  unfold loadExtensions
  split
  · exact foldl_frame (fun st => st.mainWindow.statusBarVisible) _ (fun _ _ => rfl) _ s
  · rfl

@[simp]
theorem loadUserScripts_statusBarVisible (root : QJsonObject) (s : CustomizationEngine) :
    (loadUserScripts root s).mainWindow.statusBarVisible = s.mainWindow.statusBarVisible := by
  unfold loadUserScripts
  split
  · refine foldl_frame (fun st => st.mainWindow.statusBarVisible) _ (fun st v => ?_) _ s
    show (loadUserScript st v).mainWindow.statusBarVisible = _
    unfold loadUserScript
    split
    · exact addUserScript_statusBarVisible _ _ _ _
    · rfl
  · rfl

@[simp]
theorem loadKeyboardShortcuts_statusBarVisible (root : QJsonObject) (s : CustomizationEngine) :
    (loadKeyboardShortcuts root s).mainWindow.statusBarVisible = s.mainWindow.statusBarVisible := by
  unfold loadKeyboardShortcuts
  split
  · exact foldl_frame (fun st => st.mainWindow.statusBarVisible) _ (fun st e => setKeyboardShortcut_statusBarVisible _ _ st) _ s
  · rfl

@[simp]
theorem loadDoNotTrack_statusBarVisible (root : QJsonObject) (s : CustomizationEngine) :
    (loadDoNotTrack root s).mainWindow.statusBarVisible = s.mainWindow.statusBarVisible := by
  unfold loadDoNotTrack
  split
  · exact setDoNotTrack_statusBarVisible _ _
  · rfl

@[simp]
theorem loadThirdPartyCookiesPolicy_statusBarVisible (root : QJsonObject) (s : CustomizationEngine) :
    (loadThirdPartyCookiesPolicy root s).mainWindow.statusBarVisible = s.mainWindow.statusBarVisible := by
  unfold loadThirdPartyCookiesPolicy
  split
  · exact setThirdPartyCookiesPolicy_statusBarVisible _ _
  · rfl


@[simp]
theorem applyTheme_sidebar (themeName : String) (s : CustomizationEngine) :
    (applyTheme themeName s).mainWindow.sidebar = s.mainWindow.sidebar := by
  unfold applyTheme
  split <;> rfl

@[simp]
theorem setTabOrientation_sidebar (orientation : TabOrientation) (s : CustomizationEngine) :
    (setTabOrientation orientation s).mainWindow.sidebar = s.mainWindow.sidebar := by
  unfold setTabOrientation
  split <;> rfl

@[simp]
theorem injectCustomCSS_sidebar (url css : String) (s : CustomizationEngine) :
    (injectCustomCSS url css s).mainWindow.sidebar = s.mainWindow.sidebar := by
  rfl

@[simp]
theorem setToolbarPosition_sidebar (area : Int) (s : CustomizationEngine) :
    (setToolbarPosition area s).mainWindow.sidebar = s.mainWindow.sidebar := by
  unfold setToolbarPosition
  split
  · split <;> rfl
  · rfl

@[simp]
theorem setStatusBarVisibility_sidebar (visible : Bool) (s : CustomizationEngine) :
    (setStatusBarVisibility visible s).mainWindow.sidebar = s.mainWindow.sidebar := by
  unfold setStatusBarVisibility
  split <;> rfl

@[simp]
theorem setGlobalFont_sidebar (font : QFont) (s : CustomizationEngine) :
    (setGlobalFont font s).mainWindow.sidebar = s.mainWindow.sidebar := by
  rfl

@[simp]
theorem setMinimumFontSize_sidebar (size : Int) (s : CustomizationEngine) :
    (setMinimumFontSize size s).mainWindow.sidebar = s.mainWindow.sidebar := by
  rfl

@[simp]
theorem setColorScheme_sidebar (schemeName : String) (s : CustomizationEngine) :
    (setColorScheme schemeName s).mainWindow.sidebar = s.mainWindow.sidebar := by
  rfl

@[simp]
theorem addUserScript_sidebar (name script : String) (urlPatterns : List String) (s : CustomizationEngine) :
    (addUserScript name script urlPatterns s).mainWindow.sidebar = s.mainWindow.sidebar := by
  rfl

@[simp]
theorem setKeyboardShortcut_sidebar (actionName shortcut : String) (s : CustomizationEngine) :
    (setKeyboardShortcut actionName shortcut s).mainWindow.sidebar = s.mainWindow.sidebar := by
  rfl

@[simp]
theorem setDoNotTrack_sidebar (enable : Bool) (s : CustomizationEngine) :
    (setDoNotTrack enable s).mainWindow.sidebar = s.mainWindow.sidebar := by
  rfl

@[simp]
theorem setThirdPartyCookiesPolicy_sidebar (policy : Int) (s : CustomizationEngine) :
    (setThirdPartyCookiesPolicy policy s).mainWindow.sidebar = s.mainWindow.sidebar := by
  rfl

@[simp]
theorem setZoomFactor_sidebar (factor : ℚ) (s : CustomizationEngine) :
    (setZoomFactor factor s).mainWindow.sidebar = s.mainWindow.sidebar := by
  rfl

@[simp]
theorem saveSettingsToJson_sidebar (filename : String) (s : CustomizationEngine) :
    (saveSettingsToJson filename s).mainWindow.sidebar = s.mainWindow.sidebar := by
  unfold saveSettingsToJson
  split <;> rfl

@[simp]
theorem loadTheme_sidebar (root : QJsonObject) (s : CustomizationEngine) :
    (loadTheme root s).mainWindow.sidebar = s.mainWindow.sidebar := by
  unfold loadTheme
  split
  · exact applyTheme_sidebar _ _
  · rfl

@[simp]
theorem loadTabOrientation_sidebar (root : QJsonObject) (s : CustomizationEngine) :
    (loadTabOrientation root s).mainWindow.sidebar = s.mainWindow.sidebar := by
  unfold loadTabOrientation
  split
  · exact setTabOrientation_sidebar _ _
  · rfl

@[simp]
theorem loadCustomCSS_sidebar (root : QJsonObject) (s : CustomizationEngine) :
    (loadCustomCSS root s).mainWindow.sidebar = s.mainWindow.sidebar := by
  unfold loadCustomCSS
  split
  · exact foldl_frame (fun st => st.mainWindow.sidebar) _ (fun st e => injectCustomCSS_sidebar _ _ st) _ s
  · rfl

@[simp]
theorem loadToolbarPosition_sidebar (root : QJsonObject) (s : CustomizationEngine) :
    (loadToolbarPosition root s).mainWindow.sidebar = s.mainWindow.sidebar := by
  unfold loadToolbarPosition
  split
  · exact setToolbarPosition_sidebar _ _
  · rfl

@[simp]
theorem loadStatusBarVisibility_sidebar (root : QJsonObject) (s : CustomizationEngine) :
    (loadStatusBarVisibility root s).mainWindow.sidebar = s.mainWindow.sidebar := by
  unfold loadStatusBarVisibility
  split
  · exact setStatusBarVisibility_sidebar _ _
  · rfl

@[simp]
theorem loadGlobalFont_sidebar (root : QJsonObject) (s : CustomizationEngine) :
    (loadGlobalFont root s).mainWindow.sidebar = s.mainWindow.sidebar := by
  unfold loadGlobalFont
  split
  · exact setGlobalFont_sidebar _ _
  · rfl

@[simp]
theorem loadMinimumFontSize_sidebar (root : QJsonObject) (s : CustomizationEngine) :
    (loadMinimumFontSize root s).mainWindow.sidebar = s.mainWindow.sidebar := by
  unfold loadMinimumFontSize
  split
  · exact setMinimumFontSize_sidebar _ _
  · rfl

@[simp]
theorem loadColorScheme_sidebar (root : QJsonObject) (s : CustomizationEngine) :
    (loadColorScheme root s).mainWindow.sidebar = s.mainWindow.sidebar := by
  unfold loadColorScheme
  split
  · exact setColorScheme_sidebar _ _
  · rfl

@[simp]
theorem loadExtensions_sidebar (root : QJsonObject) (s : CustomizationEngine) :
    (loadExtensions root s).mainWindow.sidebar = s.mainWindow.sidebar := by
  unfold loadExtensions
  split
  · exact foldl_frame (fun st => st.mainWindow.sidebar) _ (fun _ _ => rfl) _ s
  · rfl

@[simp]
theorem loadUserScripts_sidebar (root : QJsonObject) (s : CustomizationEngine) :
    (loadUserScripts root s).mainWindow.sidebar = s.mainWindow.sidebar := by
  unfold loadUserScripts
  split
  · refine foldl_frame (fun st => st.mainWindow.sidebar) _ (fun st v => ?_) _ s
    show (loadUserScript st v).mainWindow.sidebar = _
    unfold loadUserScript
    split
    · exact addUserScript_sidebar _ _ _ _
    · rfl
  · rfl

@[simp]
theorem loadKeyboardShortcuts_sidebar (root : QJsonObject) (s : CustomizationEngine) :
    (loadKeyboardShortcuts root s).mainWindow.sidebar = s.mainWindow.sidebar := by
  unfold loadKeyboardShortcuts
  split
  · exact foldl_frame (fun st => st.mainWindow.sidebar) _ (fun st e => setKeyboardShortcut_sidebar _ _ st) _ s
  · rfl

@[simp]
theorem loadDoNotTrack_sidebar (root : QJsonObject) (s : CustomizationEngine) :
    (loadDoNotTrack root s).mainWindow.sidebar = s.mainWindow.sidebar := by
  unfold loadDoNotTrack
  split
  · exact setDoNotTrack_sidebar _ _
  · rfl

@[simp]
theorem loadThirdPartyCookiesPolicy_sidebar (root : QJsonObject) (s : CustomizationEngine) :
    (loadThirdPartyCookiesPolicy root s).mainWindow.sidebar = s.mainWindow.sidebar := by
  unfold loadThirdPartyCookiesPolicy
  split
  · exact setThirdPartyCookiesPolicy_sidebar _ _
  · rfl


@[simp]
theorem setTabOrientation_appFont (orientation : TabOrientation) (s : CustomizationEngine) :
    (setTabOrientation orientation s).appFont = s.appFont := by
  unfold setTabOrientation
  split <;> rfl

@[simp]
theorem injectCustomCSS_appFont (url css : String) (s : CustomizationEngine) :
    (injectCustomCSS url css s).appFont = s.appFont := by
  rfl

@[simp]
theorem setToolbarPosition_appFont (area : Int) (s : CustomizationEngine) :
    (setToolbarPosition area s).appFont = s.appFont := by
  unfold setToolbarPosition
  split
  · split <;> rfl
  · rfl

@[simp]
theorem setStatusBarVisibility_appFont (visible : Bool) (s : CustomizationEngine) :
    (setStatusBarVisibility visible s).appFont = s.appFont := by
  unfold setStatusBarVisibility
  split <;> rfl

@[simp]
theorem setSidebarPosition_appFont (area : Int) (s : CustomizationEngine) :
    (setSidebarPosition area s).appFont = s.appFont := by
  unfold setSidebarPosition
  split
  · split <;> rfl
  · rfl

@[simp]
theorem setMinimumFontSize_appFont (size : Int) (s : CustomizationEngine) :
    (setMinimumFontSize size s).appFont = s.appFont := by
  rfl

@[simp]
theorem setColorScheme_appFont (schemeName : String) (s : CustomizationEngine) :
    (setColorScheme schemeName s).appFont = s.appFont := by
  rfl

@[simp]
theorem addUserScript_appFont (name script : String) (urlPatterns : List String) (s : CustomizationEngine) :
    (addUserScript name script urlPatterns s).appFont = s.appFont := by
  rfl

@[simp]
theorem setKeyboardShortcut_appFont (actionName shortcut : String) (s : CustomizationEngine) :
    (setKeyboardShortcut actionName shortcut s).appFont = s.appFont := by
  rfl

@[simp]
theorem setDoNotTrack_appFont (enable : Bool) (s : CustomizationEngine) :
    (setDoNotTrack enable s).appFont = s.appFont := by
  rfl

@[simp]
theorem setThirdPartyCookiesPolicy_appFont (policy : Int) (s : CustomizationEngine) :
    (setThirdPartyCookiesPolicy policy s).appFont = s.appFont := by
  rfl

@[simp]
theorem setZoomFactor_appFont (factor : ℚ) (s : CustomizationEngine) :
    (setZoomFactor factor s).appFont = s.appFont := by
  rfl

@[simp]
theorem saveSettingsToJson_appFont (filename : String) (s : CustomizationEngine) :
    (saveSettingsToJson filename s).appFont = s.appFont := by
  unfold saveSettingsToJson
  split <;> rfl

@[simp]
theorem loadTabOrientation_appFont (root : QJsonObject) (s : CustomizationEngine) :
    (loadTabOrientation root s).appFont = s.appFont := by
  unfold loadTabOrientation
  split
  · exact setTabOrientation_appFont _ _
  · rfl

@[simp]
theorem loadCustomCSS_appFont (root : QJsonObject) (s : CustomizationEngine) :
    (loadCustomCSS root s).appFont = s.appFont := by
  unfold loadCustomCSS
  split
  · exact foldl_frame (fun st => st.appFont) _ (fun st e => injectCustomCSS_appFont _ _ st) _ s
  · rfl

@[simp]
theorem loadToolbarPosition_appFont (root : QJsonObject) (s : CustomizationEngine) :
    (loadToolbarPosition root s).appFont = s.appFont := by
  unfold loadToolbarPosition
  split
  · exact setToolbarPosition_appFont _ _
  · rfl

@[simp]
theorem loadStatusBarVisibility_appFont (root : QJsonObject) (s : CustomizationEngine) :
    (loadStatusBarVisibility root s).appFont = s.appFont := by
  unfold loadStatusBarVisibility
  split
  · exact setStatusBarVisibility_appFont _ _
  · rfl

@[simp]
theorem loadSidebarPosition_appFont (root : QJsonObject) (s : CustomizationEngine) :
    (loadSidebarPosition root s).appFont = s.appFont := by
  unfold loadSidebarPosition
  split
  · exact setSidebarPosition_appFont _ _
  · rfl

@[simp]
theorem loadMinimumFontSize_appFont (root : QJsonObject) (s : CustomizationEngine) :
    (loadMinimumFontSize root s).appFont = s.appFont := by
  unfold loadMinimumFontSize
  split
  · exact setMinimumFontSize_appFont _ _
  · rfl

@[simp]
theorem loadColorScheme_appFont (root : QJsonObject) (s : CustomizationEngine) :
    (loadColorScheme root s).appFont = s.appFont := by
  unfold loadColorScheme
  split
  · exact setColorScheme_appFont _ _
  · rfl

@[simp]
theorem loadExtensions_appFont (root : QJsonObject) (s : CustomizationEngine) :
    (loadExtensions root s).appFont = s.appFont := by
  unfold loadExtensions
  split
  · exact foldl_frame (fun st => st.appFont) _ (fun _ _ => rfl) _ s
  · rfl

@[simp]
theorem loadUserScripts_appFont (root : QJsonObject) (s : CustomizationEngine) :
    (loadUserScripts root s).appFont = s.appFont := by
  unfold loadUserScripts
  split
  · refine foldl_frame (fun st => st.appFont) _ (fun st v => ?_) _ s
    show (loadUserScript st v).appFont = _
    unfold loadUserScript
    split
    · exact addUserScript_appFont _ _ _ _
    · rfl
  · rfl

@[simp]
theorem loadKeyboardShortcuts_appFont (root : QJsonObject) (s : CustomizationEngine) :
    (loadKeyboardShortcuts root s).appFont = s.appFont := by
  unfold loadKeyboardShortcuts
  split
  · exact foldl_frame (fun st => st.appFont) _ (fun st e => setKeyboardShortcut_appFont _ _ st) _ s
  · rfl

@[simp]
theorem loadDoNotTrack_appFont (root : QJsonObject) (s : CustomizationEngine) :
    (loadDoNotTrack root s).appFont = s.appFont := by
  unfold loadDoNotTrack
  split
  · exact setDoNotTrack_appFont _ _
  · rfl

@[simp]
theorem loadThirdPartyCookiesPolicy_appFont (root : QJsonObject) (s : CustomizationEngine) :
    (loadThirdPartyCookiesPolicy root s).appFont = s.appFont := by
  unfold loadThirdPartyCookiesPolicy
  split
  · exact setThirdPartyCookiesPolicy_appFont _ _
  · rfl


@[simp]
theorem setTabOrientation_appPalette (orientation : TabOrientation) (s : CustomizationEngine) :
    (setTabOrientation orientation s).appPalette = s.appPalette := by
  unfold setTabOrientation
  split <;> rfl

@[simp]
theorem injectCustomCSS_appPalette (url css : String) (s : CustomizationEngine) :
    (injectCustomCSS url css s).appPalette = s.appPalette := by
  rfl

@[simp]
theorem setToolbarPosition_appPalette (area : Int) (s : CustomizationEngine) :
    (setToolbarPosition area s).appPalette = s.appPalette := by
  unfold setToolbarPosition
  split
  · split <;> rfl
  · rfl

@[simp]
theorem setStatusBarVisibility_appPalette (visible : Bool) (s : CustomizationEngine) :
    (setStatusBarVisibility visible s).appPalette = s.appPalette := by
  unfold setStatusBarVisibility
  split <;> rfl

@[simp]
theorem setSidebarPosition_appPalette (area : Int) (s : CustomizationEngine) :
    (setSidebarPosition area s).appPalette = s.appPalette := by
  unfold setSidebarPosition
  split
  · split <;> rfl
  · rfl

@[simp]
theorem setGlobalFont_appPalette (font : QFont) (s : CustomizationEngine) :
    (setGlobalFont font s).appPalette = s.appPalette := by
  rfl

@[simp]
theorem setMinimumFontSize_appPalette (size : Int) (s : CustomizationEngine) :
    (setMinimumFontSize size s).appPalette = s.appPalette := by
  rfl

@[simp]
theorem setColorScheme_appPalette (schemeName : String) (s : CustomizationEngine) :
    (setColorScheme schemeName s).appPalette = s.appPalette := by
  rfl

@[simp]
theorem addUserScript_appPalette (name script : String) (urlPatterns : List String) (s : CustomizationEngine) :
    (addUserScript name script urlPatterns s).appPalette = s.appPalette := by
  rfl

@[simp]
theorem setKeyboardShortcut_appPalette (actionName shortcut : String) (s : CustomizationEngine) :
    (setKeyboardShortcut actionName shortcut s).appPalette = s.appPalette := by
  rfl

@[simp]
theorem setDoNotTrack_appPalette (enable : Bool) (s : CustomizationEngine) :
    (setDoNotTrack enable s).appPalette = s.appPalette := by
  rfl

@[simp]
theorem setThirdPartyCookiesPolicy_appPalette (policy : Int) (s : CustomizationEngine) :
    (setThirdPartyCookiesPolicy policy s).appPalette = s.appPalette := by
  rfl

@[simp]
theorem setZoomFactor_appPalette (factor : ℚ) (s : CustomizationEngine) :
    (setZoomFactor factor s).appPalette = s.appPalette := by
  rfl

@[simp]
theorem saveSettingsToJson_appPalette (filename : String) (s : CustomizationEngine) :
    (saveSettingsToJson filename s).appPalette = s.appPalette := by
  unfold saveSettingsToJson
  split <;> rfl

@[simp]
theorem loadTabOrientation_appPalette (root : QJsonObject) (s : CustomizationEngine) :
    (loadTabOrientation root s).appPalette = s.appPalette := by
  unfold loadTabOrientation
  split
  · exact setTabOrientation_appPalette _ _
  · rfl

@[simp]
theorem loadCustomCSS_appPalette (root : QJsonObject) (s : CustomizationEngine) :
    (loadCustomCSS root s).appPalette = s.appPalette := by
  unfold loadCustomCSS
  split
  · exact foldl_frame (fun st => st.appPalette) _ (fun st e => injectCustomCSS_appPalette _ _ st) _ s
  · rfl

@[simp]
theorem loadToolbarPosition_appPalette (root : QJsonObject) (s : CustomizationEngine) :
    (loadToolbarPosition root s).appPalette = s.appPalette := by
  unfold loadToolbarPosition
  split
  · exact setToolbarPosition_appPalette _ _
  · rfl

@[simp]
theorem loadStatusBarVisibility_appPalette (root : QJsonObject) (s : CustomizationEngine) :
    (loadStatusBarVisibility root s).appPalette = s.appPalette := by
  unfold loadStatusBarVisibility
  split
  · exact setStatusBarVisibility_appPalette _ _
  · rfl

@[simp]
theorem loadSidebarPosition_appPalette (root : QJsonObject) (s : CustomizationEngine) :
    (loadSidebarPosition root s).appPalette = s.appPalette := by
  unfold loadSidebarPosition
  split
  · exact setSidebarPosition_appPalette _ _
  · rfl

@[simp]
theorem loadGlobalFont_appPalette (root : QJsonObject) (s : CustomizationEngine) :
    (loadGlobalFont root s).appPalette = s.appPalette := by
  unfold loadGlobalFont
  split
  · exact setGlobalFont_appPalette _ _
  · rfl

@[simp]
theorem loadMinimumFontSize_appPalette (root : QJsonObject) (s : CustomizationEngine) :
    (loadMinimumFontSize root s).appPalette = s.appPalette := by
  unfold loadMinimumFontSize
  split
  · exact setMinimumFontSize_appPalette _ _
  · rfl

@[simp]
theorem loadColorScheme_appPalette (root : QJsonObject) (s : CustomizationEngine) :
    (loadColorScheme root s).appPalette = s.appPalette := by
  unfold loadColorScheme
  split
  · exact setColorScheme_appPalette _ _
  · rfl

@[simp]
theorem loadExtensions_appPalette (root : QJsonObject) (s : CustomizationEngine) :
    (loadExtensions root s).appPalette = s.appPalette := by
  unfold loadExtensions
  split
  · exact foldl_frame (fun st => st.appPalette) _ (fun _ _ => rfl) _ s
  · rfl

@[simp]
theorem loadUserScripts_appPalette (root : QJsonObject) (s : CustomizationEngine) :
    (loadUserScripts root s).appPalette = s.appPalette := by
  unfold loadUserScripts
  split
  · refine foldl_frame (fun st => st.appPalette) _ (fun st v => ?_) _ s
    show (loadUserScript st v).appPalette = _
    unfold loadUserScript
    split
    · exact addUserScript_appPalette _ _ _ _
    · rfl
  · rfl

@[simp]
theorem loadKeyboardShortcuts_appPalette (root : QJsonObject) (s : CustomizationEngine) :
    (loadKeyboardShortcuts root s).appPalette = s.appPalette := by
  unfold loadKeyboardShortcuts
  split
  · exact foldl_frame (fun st => st.appPalette) _ (fun st e => setKeyboardShortcut_appPalette _ _ st) _ s
  · rfl

@[simp]
theorem loadDoNotTrack_appPalette (root : QJsonObject) (s : CustomizationEngine) :
    (loadDoNotTrack root s).appPalette = s.appPalette := by
  unfold loadDoNotTrack
  split
  · exact setDoNotTrack_appPalette _ _
  · rfl

@[simp]
theorem loadThirdPartyCookiesPolicy_appPalette (root : QJsonObject) (s : CustomizationEngine) :
    (loadThirdPartyCookiesPolicy root s).appPalette = s.appPalette := by
  unfold loadThirdPartyCookiesPolicy
  split
  · exact setThirdPartyCookiesPolicy_appPalette _ _
  · rfl


@[simp]
theorem setTabOrientation_widget (orientation : TabOrientation) (s : CustomizationEngine) :
    (setTabOrientation orientation s).mainWindow.widget = s.mainWindow.widget := by
  unfold setTabOrientation
  split <;> rfl

@[simp]
theorem injectCustomCSS_widget (url css : String) (s : CustomizationEngine) :
    (injectCustomCSS url css s).mainWindow.widget = s.mainWindow.widget := by
  rfl

@[simp]
theorem setToolbarPosition_widget (area : Int) (s : CustomizationEngine) :
    (setToolbarPosition area s).mainWindow.widget = s.mainWindow.widget := by
  unfold setToolbarPosition
  split
  · split <;> rfl
  · rfl

@[simp]
theorem setStatusBarVisibility_widget (visible : Bool) (s : CustomizationEngine) :
    (setStatusBarVisibility visible s).mainWindow.widget = s.mainWindow.widget := by
  unfold setStatusBarVisibility
  split <;> rfl

@[simp]
theorem setSidebarPosition_widget (area : Int) (s : CustomizationEngine) :
    (setSidebarPosition area s).mainWindow.widget = s.mainWindow.widget := by
  unfold setSidebarPosition
  split
  · split <;> rfl
  · rfl

@[simp]
theorem setGlobalFont_widget (font : QFont) (s : CustomizationEngine) :
    (setGlobalFont font s).mainWindow.widget = s.mainWindow.widget := by
  rfl

@[simp]
theorem setMinimumFontSize_widget (size : Int) (s : CustomizationEngine) :
    (setMinimumFontSize size s).mainWindow.widget = s.mainWindow.widget := by
  rfl

@[simp]
theorem setColorScheme_widget (schemeName : String) (s : CustomizationEngine) :
    (setColorScheme schemeName s).mainWindow.widget = s.mainWindow.widget := by
  rfl

@[simp]
theorem addUserScript_widget (name script : String) (urlPatterns : List String) (s : CustomizationEngine) :
    (addUserScript name script urlPatterns s).mainWindow.widget = s.mainWindow.widget := by
  rfl

@[simp]
theorem setKeyboardShortcut_widget (actionName shortcut : String) (s : CustomizationEngine) :
    (setKeyboardShortcut actionName shortcut s).mainWindow.widget = s.mainWindow.widget := by
  rfl

@[simp]
theorem setDoNotTrack_widget (enable : Bool) (s : CustomizationEngine) :
    (setDoNotTrack enable s).mainWindow.widget = s.mainWindow.widget := by
  rfl

@[simp]
theorem setThirdPartyCookiesPolicy_widget (policy : Int) (s : CustomizationEngine) :
    (setThirdPartyCookiesPolicy policy s).mainWindow.widget = s.mainWindow.widget := by
  rfl

@[simp]
theorem setZoomFactor_widget (factor : ℚ) (s : CustomizationEngine) :
    (setZoomFactor factor s).mainWindow.widget = s.mainWindow.widget := by
  rfl

@[simp]
theorem saveSettingsToJson_widget (filename : String) (s : CustomizationEngine) :
    (saveSettingsToJson filename s).mainWindow.widget = s.mainWindow.widget := by
  unfold saveSettingsToJson
  split <;> rfl

@[simp]
theorem loadTabOrientation_widget (root : QJsonObject) (s : CustomizationEngine) :
    (loadTabOrientation root s).mainWindow.widget = s.mainWindow.widget := by
  unfold loadTabOrientation
  split
  · exact setTabOrientation_widget _ _
  · rfl

@[simp]
theorem loadCustomCSS_widget (root : QJsonObject) (s : CustomizationEngine) :
    (loadCustomCSS root s).mainWindow.widget = s.mainWindow.widget := by
  unfold loadCustomCSS
  split
  · exact foldl_frame (fun st => st.mainWindow.widget) _ (fun st e => injectCustomCSS_widget _ _ st) _ s
  · rfl

@[simp]
theorem loadToolbarPosition_widget (root : QJsonObject) (s : CustomizationEngine) :
    (loadToolbarPosition root s).mainWindow.widget = s.mainWindow.widget := by
  unfold loadToolbarPosition
  split
  · exact setToolbarPosition_widget _ _
  · rfl

@[simp]
theorem loadStatusBarVisibility_widget (root : QJsonObject) (s : CustomizationEngine) :
    (loadStatusBarVisibility root s).mainWindow.widget = s.mainWindow.widget := by
  unfold loadStatusBarVisibility
  split
  · exact setStatusBarVisibility_widget _ _
  · rfl

@[simp]
theorem loadSidebarPosition_widget (root : QJsonObject) (s : CustomizationEngine) :
    (loadSidebarPosition root s).mainWindow.widget = s.mainWindow.widget := by
  unfold loadSidebarPosition
  split
  · exact setSidebarPosition_widget _ _
  · rfl

@[simp]
theorem loadGlobalFont_widget (root : QJsonObject) (s : CustomizationEngine) :
    (loadGlobalFont root s).mainWindow.widget = s.mainWindow.widget := by
  unfold loadGlobalFont
  split
  · exact setGlobalFont_widget _ _
  · rfl

@[simp]
theorem loadMinimumFontSize_widget (root : QJsonObject) (s : CustomizationEngine) :
    (loadMinimumFontSize root s).mainWindow.widget = s.mainWindow.widget := by
  unfold loadMinimumFontSize
  split
  · exact setMinimumFontSize_widget _ _
  · rfl

@[simp]
theorem loadColorScheme_widget (root : QJsonObject) (s : CustomizationEngine) :
    (loadColorScheme root s).mainWindow.widget = s.mainWindow.widget := by
  unfold loadColorScheme
  split
  · exact setColorScheme_widget _ _
  · rfl

@[simp]
theorem loadExtensions_widget (root : QJsonObject) (s : CustomizationEngine) :
    (loadExtensions root s).mainWindow.widget = s.mainWindow.widget := by
  unfold loadExtensions
  split
  · exact foldl_frame (fun st => st.mainWindow.widget) _ (fun _ _ => rfl) _ s
  · rfl

@[simp]
theorem loadUserScripts_widget (root : QJsonObject) (s : CustomizationEngine) :
    (loadUserScripts root s).mainWindow.widget = s.mainWindow.widget := by
  unfold loadUserScripts
  split
  · refine foldl_frame (fun st => st.mainWindow.widget) _ (fun st v => ?_) _ s
    show (loadUserScript st v).mainWindow.widget = _
    unfold loadUserScript
    split
    · exact addUserScript_widget _ _ _ _
    · rfl
  · rfl

@[simp]
theorem loadKeyboardShortcuts_widget (root : QJsonObject) (s : CustomizationEngine) :
    (loadKeyboardShortcuts root s).mainWindow.widget = s.mainWindow.widget := by
  unfold loadKeyboardShortcuts
  split
  · exact foldl_frame (fun st => st.mainWindow.widget) _ (fun st e => setKeyboardShortcut_widget _ _ st) _ s
  · rfl

@[simp]
theorem loadDoNotTrack_widget (root : QJsonObject) (s : CustomizationEngine) :
    (loadDoNotTrack root s).mainWindow.widget = s.mainWindow.widget := by
  unfold loadDoNotTrack
  split
  · exact setDoNotTrack_widget _ _
  · rfl

@[simp]
theorem loadThirdPartyCookiesPolicy_widget (root : QJsonObject) (s : CustomizationEngine) :
    (loadThirdPartyCookiesPolicy root s).mainWindow.widget = s.mainWindow.widget := by
  unfold loadThirdPartyCookiesPolicy
  split
  · exact setThirdPartyCookiesPolicy_widget _ _
  · rfl


@[simp]
theorem setTabOrientation_javaScriptRun (orientation : TabOrientation) (s : CustomizationEngine) :
    (setTabOrientation orientation s).webView.javaScriptRun = s.webView.javaScriptRun := by
  unfold setTabOrientation
  split <;> rfl

@[simp]
theorem injectCustomCSS_javaScriptRun (url css : String) (s : CustomizationEngine) :
    (injectCustomCSS url css s).webView.javaScriptRun = s.webView.javaScriptRun := by
  rfl

@[simp]
theorem setToolbarPosition_javaScriptRun (area : Int) (s : CustomizationEngine) :
    (setToolbarPosition area s).webView.javaScriptRun = s.webView.javaScriptRun := by
  unfold setToolbarPosition
  split
  · split <;> rfl
  · rfl

@[simp]
theorem setStatusBarVisibility_javaScriptRun (visible : Bool) (s : CustomizationEngine) :
    (setStatusBarVisibility visible s).webView.javaScriptRun = s.webView.javaScriptRun := by
  unfold setStatusBarVisibility
  split <;> rfl

@[simp]
theorem setSidebarPosition_javaScriptRun (area : Int) (s : CustomizationEngine) :
    (setSidebarPosition area s).webView.javaScriptRun = s.webView.javaScriptRun := by
  unfold setSidebarPosition
  split
  · split <;> rfl
  · rfl

@[simp]
theorem setGlobalFont_javaScriptRun (font : QFont) (s : CustomizationEngine) :
    (setGlobalFont font s).webView.javaScriptRun = s.webView.javaScriptRun := by
  rfl

@[simp]
theorem setMinimumFontSize_javaScriptRun (size : Int) (s : CustomizationEngine) :
    (setMinimumFontSize size s).webView.javaScriptRun = s.webView.javaScriptRun := by
  rfl

@[simp]
theorem setColorScheme_javaScriptRun (schemeName : String) (s : CustomizationEngine) :
    (setColorScheme schemeName s).webView.javaScriptRun = s.webView.javaScriptRun := by
  rfl

@[simp]
theorem addUserScript_javaScriptRun (name script : String) (urlPatterns : List String) (s : CustomizationEngine) :
    (addUserScript name script urlPatterns s).webView.javaScriptRun = s.webView.javaScriptRun := by
  rfl

@[simp]
theorem setKeyboardShortcut_javaScriptRun (actionName shortcut : String) (s : CustomizationEngine) :
    (setKeyboardShortcut actionName shortcut s).webView.javaScriptRun = s.webView.javaScriptRun := by
  rfl

@[simp]
theorem setDoNotTrack_javaScriptRun (enable : Bool) (s : CustomizationEngine) :
    (setDoNotTrack enable s).webView.javaScriptRun = s.webView.javaScriptRun := by
  rfl

@[simp]
theorem setThirdPartyCookiesPolicy_javaScriptRun (policy : Int) (s : CustomizationEngine) :
    (setThirdPartyCookiesPolicy policy s).webView.javaScriptRun = s.webView.javaScriptRun := by
  rfl

@[simp]
theorem setZoomFactor_javaScriptRun (factor : ℚ) (s : CustomizationEngine) :
    (setZoomFactor factor s).webView.javaScriptRun = s.webView.javaScriptRun := by
  rfl

@[simp]
theorem saveSettingsToJson_javaScriptRun (filename : String) (s : CustomizationEngine) :
    (saveSettingsToJson filename s).webView.javaScriptRun = s.webView.javaScriptRun := by
  unfold saveSettingsToJson
  split <;> rfl

@[simp]
theorem loadTabOrientation_javaScriptRun (root : QJsonObject) (s : CustomizationEngine) :
    (loadTabOrientation root s).webView.javaScriptRun = s.webView.javaScriptRun := by
  unfold loadTabOrientation
  split
  · exact setTabOrientation_javaScriptRun _ _
  · rfl

@[simp]
theorem loadCustomCSS_javaScriptRun (root : QJsonObject) (s : CustomizationEngine) :
    (loadCustomCSS root s).webView.javaScriptRun = s.webView.javaScriptRun := by
  unfold loadCustomCSS
  split
  · exact foldl_frame (fun st => st.webView.javaScriptRun) _ (fun st e => injectCustomCSS_javaScriptRun _ _ st) _ s
  · rfl

@[simp]
theorem loadToolbarPosition_javaScriptRun (root : QJsonObject) (s : CustomizationEngine) :
    (loadToolbarPosition root s).webView.javaScriptRun = s.webView.javaScriptRun := by
  unfold loadToolbarPosition
  split
  · exact setToolbarPosition_javaScriptRun _ _
  · rfl

@[simp]
theorem loadStatusBarVisibility_javaScriptRun (root : QJsonObject) (s : CustomizationEngine) :
    (loadStatusBarVisibility root s).webView.javaScriptRun = s.webView.javaScriptRun := by
  unfold loadStatusBarVisibility
  split
  · exact setStatusBarVisibility_javaScriptRun _ _
  · rfl

@[simp]
theorem loadSidebarPosition_javaScriptRun (root : QJsonObject) (s : CustomizationEngine) :
    (loadSidebarPosition root s).webView.javaScriptRun = s.webView.javaScriptRun := by
  unfold loadSidebarPosition
  split
  · exact setSidebarPosition_javaScriptRun _ _
  · rfl

@[simp]
theorem loadGlobalFont_javaScriptRun (root : QJsonObject) (s : CustomizationEngine) :
    (loadGlobalFont root s).webView.javaScriptRun = s.webView.javaScriptRun := by
  unfold loadGlobalFont
  split
  · exact setGlobalFont_javaScriptRun _ _
  · rfl

@[simp]
theorem loadMinimumFontSize_javaScriptRun (root : QJsonObject) (s : CustomizationEngine) :
    (loadMinimumFontSize root s).webView.javaScriptRun = s.webView.javaScriptRun := by
  unfold loadMinimumFontSize
  split
  · exact setMinimumFontSize_javaScriptRun _ _
  · rfl

@[simp]
theorem loadColorScheme_javaScriptRun (root : QJsonObject) (s : CustomizationEngine) :
    (loadColorScheme root s).webView.javaScriptRun = s.webView.javaScriptRun := by
  unfold loadColorScheme
  split
  · exact setColorScheme_javaScriptRun _ _
  · rfl

@[simp]
theorem loadExtensions_javaScriptRun (root : QJsonObject) (s : CustomizationEngine) :
    (loadExtensions root s).webView.javaScriptRun = s.webView.javaScriptRun := by
  unfold loadExtensions
  split
  · exact foldl_frame (fun st => st.webView.javaScriptRun) _ (fun _ _ => rfl) _ s
  · rfl

@[simp]
theorem loadUserScripts_javaScriptRun (root : QJsonObject) (s : CustomizationEngine) :
    (loadUserScripts root s).webView.javaScriptRun = s.webView.javaScriptRun := by
  unfold loadUserScripts
  split
  · refine foldl_frame (fun st => st.webView.javaScriptRun) _ (fun st v => ?_) _ s
    show (loadUserScript st v).webView.javaScriptRun = _
    unfold loadUserScript
    split
    · exact addUserScript_javaScriptRun _ _ _ _
    · rfl
  · rfl

@[simp]
theorem loadKeyboardShortcuts_javaScriptRun (root : QJsonObject) (s : CustomizationEngine) :
    (loadKeyboardShortcuts root s).webView.javaScriptRun = s.webView.javaScriptRun := by
  unfold loadKeyboardShortcuts
  split
  · exact foldl_frame (fun st => st.webView.javaScriptRun) _ (fun st e => setKeyboardShortcut_javaScriptRun _ _ st) _ s
  · rfl

@[simp]
theorem loadDoNotTrack_javaScriptRun (root : QJsonObject) (s : CustomizationEngine) :
    (loadDoNotTrack root s).webView.javaScriptRun = s.webView.javaScriptRun := by
  unfold loadDoNotTrack
  split
  · exact setDoNotTrack_javaScriptRun _ _
  · rfl

@[simp]
theorem loadThirdPartyCookiesPolicy_javaScriptRun (root : QJsonObject) (s : CustomizationEngine) :
    (loadThirdPartyCookiesPolicy root s).webView.javaScriptRun = s.webView.javaScriptRun := by
  unfold loadThirdPartyCookiesPolicy
  split
  · exact setThirdPartyCookiesPolicy_javaScriptRun _ _
  · rfl


@[simp]
theorem applyTheme_m_keyboardShortcuts (themeName : String) (s : CustomizationEngine) :
    (applyTheme themeName s).m_keyboardShortcuts = s.m_keyboardShortcuts := by
  unfold applyTheme
  split <;> rfl

@[simp]
theorem setTabOrientation_m_keyboardShortcuts (orientation : TabOrientation) (s : CustomizationEngine) :
    (setTabOrientation orientation s).m_keyboardShortcuts = s.m_keyboardShortcuts := by
  unfold setTabOrientation
  split <;> rfl

@[simp]
theorem injectCustomCSS_m_keyboardShortcuts (url css : String) (s : CustomizationEngine) :
    (injectCustomCSS url css s).m_keyboardShortcuts = s.m_keyboardShortcuts := by
  rfl

@[simp]
theorem setToolbarPosition_m_keyboardShortcuts (area : Int) (s : CustomizationEngine) :
    (setToolbarPosition area s).m_keyboardShortcuts = s.m_keyboardShortcuts := by
  unfold setToolbarPosition
  split
  · split <;> rfl
  · rfl

@[simp]
theorem setStatusBarVisibility_m_keyboardShortcuts (visible : Bool) (s : CustomizationEngine) :
    (setStatusBarVisibility visible s).m_keyboardShortcuts = s.m_keyboardShortcuts := by
  unfold setStatusBarVisibility
  split <;> rfl

@[simp]
theorem setSidebarPosition_m_keyboardShortcuts (area : Int) (s : CustomizationEngine) :
    (setSidebarPosition area s).m_keyboardShortcuts = s.m_keyboardShortcuts := by
  unfold setSidebarPosition
  split
  · split <;> rfl
  · rfl

@[simp]
theorem setGlobalFont_m_keyboardShortcuts (font : QFont) (s : CustomizationEngine) :
    (setGlobalFont font s).m_keyboardShortcuts = s.m_keyboardShortcuts := by
  rfl

@[simp]
theorem setMinimumFontSize_m_keyboardShortcuts (size : Int) (s : CustomizationEngine) :
    (setMinimumFontSize size s).m_keyboardShortcuts = s.m_keyboardShortcuts := by
  rfl

@[simp]
theorem setColorScheme_m_keyboardShortcuts (schemeName : String) (s : CustomizationEngine) :
    (setColorScheme schemeName s).m_keyboardShortcuts = s.m_keyboardShortcuts := by
  rfl

@[simp]
theorem addUserScript_m_keyboardShortcuts (name script : String) (urlPatterns : List String) (s : CustomizationEngine) :
    (addUserScript name script urlPatterns s).m_keyboardShortcuts = s.m_keyboardShortcuts := by
  rfl

@[simp]
theorem setDoNotTrack_m_keyboardShortcuts (enable : Bool) (s : CustomizationEngine) :
    (setDoNotTrack enable s).m_keyboardShortcuts = s.m_keyboardShortcuts := by
  rfl

@[simp]
theorem setThirdPartyCookiesPolicy_m_keyboardShortcuts (policy : Int) (s : CustomizationEngine) :
    (setThirdPartyCookiesPolicy policy s).m_keyboardShortcuts = s.m_keyboardShortcuts := by
  rfl

@[simp]
theorem setZoomFactor_m_keyboardShortcuts (factor : ℚ) (s : CustomizationEngine) :
    (setZoomFactor factor s).m_keyboardShortcuts = s.m_keyboardShortcuts := by
  rfl

@[simp]
theorem saveSettingsToJson_m_keyboardShortcuts (filename : String) (s : CustomizationEngine) :
    (saveSettingsToJson filename s).m_keyboardShortcuts = s.m_keyboardShortcuts := by
  unfold saveSettingsToJson
  split <;> rfl

@[simp]
theorem loadTheme_m_keyboardShortcuts (root : QJsonObject) (s : CustomizationEngine) :
    (loadTheme root s).m_keyboardShortcuts = s.m_keyboardShortcuts := by
  unfold loadTheme
  split
  · exact applyTheme_m_keyboardShortcuts _ _
  · rfl

@[simp]
theorem loadTabOrientation_m_keyboardShortcuts (root : QJsonObject) (s : CustomizationEngine) :
    (loadTabOrientation root s).m_keyboardShortcuts = s.m_keyboardShortcuts := by
  unfold loadTabOrientation
  split
  · exact setTabOrientation_m_keyboardShortcuts _ _
  · rfl

@[simp]
theorem loadCustomCSS_m_keyboardShortcuts (root : QJsonObject) (s : CustomizationEngine) :
    (loadCustomCSS root s).m_keyboardShortcuts = s.m_keyboardShortcuts := by
  unfold loadCustomCSS
  split
  · exact foldl_frame (fun st => st.m_keyboardShortcuts) _ (fun st e => injectCustomCSS_m_keyboardShortcuts _ _ st) _ s
  · rfl

@[simp]
theorem loadToolbarPosition_m_keyboardShortcuts (root : QJsonObject) (s : CustomizationEngine) :
    (loadToolbarPosition root s).m_keyboardShortcuts = s.m_keyboardShortcuts := by
  unfold loadToolbarPosition
  split
  · exact setToolbarPosition_m_keyboardShortcuts _ _
  · rfl

@[simp]
theorem loadStatusBarVisibility_m_keyboardShortcuts (root : QJsonObject) (s : CustomizationEngine) :
    (loadStatusBarVisibility root s).m_keyboardShortcuts = s.m_keyboardShortcuts := by
  unfold loadStatusBarVisibility
  split
  · exact setStatusBarVisibility_m_keyboardShortcuts _ _
  · rfl

@[simp]
theorem loadSidebarPosition_m_keyboardShortcuts (root : QJsonObject) (s : CustomizationEngine) :
    (loadSidebarPosition root s).m_keyboardShortcuts = s.m_keyboardShortcuts := by
  unfold loadSidebarPosition
  split
  · exact setSidebarPosition_m_keyboardShortcuts _ _
  · rfl

@[simp]
theorem loadGlobalFont_m_keyboardShortcuts (root : QJsonObject) (s : CustomizationEngine) :
    (loadGlobalFont root s).m_keyboardShortcuts = s.m_keyboardShortcuts := by
  unfold loadGlobalFont
  split
  · exact setGlobalFont_m_keyboardShortcuts _ _
  · rfl

@[simp]
theorem loadMinimumFontSize_m_keyboardShortcuts (root : QJsonObject) (s : CustomizationEngine) :
    (loadMinimumFontSize root s).m_keyboardShortcuts = s.m_keyboardShortcuts := by
  unfold loadMinimumFontSize
  split
  · exact setMinimumFontSize_m_keyboardShortcuts _ _
  · rfl

@[simp]
theorem loadColorScheme_m_keyboardShortcuts (root : QJsonObject) (s : CustomizationEngine) :
    (loadColorScheme root s).m_keyboardShortcuts = s.m_keyboardShortcuts := by
  unfold loadColorScheme
  split
  · exact setColorScheme_m_keyboardShortcuts _ _
  · rfl

@[simp]
theorem loadExtensions_m_keyboardShortcuts (root : QJsonObject) (s : CustomizationEngine) :
    (loadExtensions root s).m_keyboardShortcuts = s.m_keyboardShortcuts := by
  unfold loadExtensions
  split
  · exact foldl_frame (fun st => st.m_keyboardShortcuts) _ (fun _ _ => rfl) _ s
  · rfl

@[simp]
theorem loadUserScripts_m_keyboardShortcuts (root : QJsonObject) (s : CustomizationEngine) :
    (loadUserScripts root s).m_keyboardShortcuts = s.m_keyboardShortcuts := by
  unfold loadUserScripts
  split
  · refine foldl_frame (fun st => st.m_keyboardShortcuts) _ (fun st v => ?_) _ s
    show (loadUserScript st v).m_keyboardShortcuts = _
    unfold loadUserScript
    split
    · exact addUserScript_m_keyboardShortcuts _ _ _ _
    · rfl
  · rfl

@[simp]
theorem loadDoNotTrack_m_keyboardShortcuts (root : QJsonObject) (s : CustomizationEngine) :
    (loadDoNotTrack root s).m_keyboardShortcuts = s.m_keyboardShortcuts := by
  unfold loadDoNotTrack
  split
  · exact setDoNotTrack_m_keyboardShortcuts _ _
  · rfl

@[simp]
theorem loadThirdPartyCookiesPolicy_m_keyboardShortcuts (root : QJsonObject) (s : CustomizationEngine) :
    (loadThirdPartyCookiesPolicy root s).m_keyboardShortcuts = s.m_keyboardShortcuts := by
  unfold loadThirdPartyCookiesPolicy
  split
  · exact setThirdPartyCookiesPolicy_m_keyboardShortcuts _ _
  · rfl


@[simp]
theorem applyTheme_httpAcceptLanguage (themeName : String) (s : CustomizationEngine) :
    (applyTheme themeName s).webView.httpAcceptLanguage = s.webView.httpAcceptLanguage := by
  unfold applyTheme
  split <;> rfl

@[simp]
theorem setTabOrientation_httpAcceptLanguage (orientation : TabOrientation) (s : CustomizationEngine) :
    (setTabOrientation orientation s).webView.httpAcceptLanguage = s.webView.httpAcceptLanguage := by
  unfold setTabOrientation
  split <;> rfl

@[simp]
theorem injectCustomCSS_httpAcceptLanguage (url css : String) (s : CustomizationEngine) :
    (injectCustomCSS url css s).webView.httpAcceptLanguage = s.webView.httpAcceptLanguage := by
  rfl

@[simp]
theorem setToolbarPosition_httpAcceptLanguage (area : Int) (s : CustomizationEngine) :
    (setToolbarPosition area s).webView.httpAcceptLanguage = s.webView.httpAcceptLanguage := by
  unfold setToolbarPosition
  split
  · split <;> rfl
  · rfl

@[simp]
theorem setStatusBarVisibility_httpAcceptLanguage (visible : Bool) (s : CustomizationEngine) :
    (setStatusBarVisibility visible s).webView.httpAcceptLanguage = s.webView.httpAcceptLanguage := by
  unfold setStatusBarVisibility
  split <;> rfl

@[simp]
theorem setSidebarPosition_httpAcceptLanguage (area : Int) (s : CustomizationEngine) :
    (setSidebarPosition area s).webView.httpAcceptLanguage = s.webView.httpAcceptLanguage := by
  unfold setSidebarPosition
  split
  · split <;> rfl
  · rfl

@[simp]
theorem setGlobalFont_httpAcceptLanguage (font : QFont) (s : CustomizationEngine) :
    (setGlobalFont font s).webView.httpAcceptLanguage = s.webView.httpAcceptLanguage := by
  rfl

@[simp]
theorem setMinimumFontSize_httpAcceptLanguage (size : Int) (s : CustomizationEngine) :
    (setMinimumFontSize size s).webView.httpAcceptLanguage = s.webView.httpAcceptLanguage := by
  rfl

@[simp]
theorem setColorScheme_httpAcceptLanguage (schemeName : String) (s : CustomizationEngine) :
    (setColorScheme schemeName s).webView.httpAcceptLanguage = s.webView.httpAcceptLanguage := by
  rfl

@[simp]
theorem addUserScript_httpAcceptLanguage (name script : String) (urlPatterns : List String) (s : CustomizationEngine) :
    (addUserScript name script urlPatterns s).webView.httpAcceptLanguage = s.webView.httpAcceptLanguage := by
  rfl

@[simp]
theorem setKeyboardShortcut_httpAcceptLanguage (actionName shortcut : String) (s : CustomizationEngine) :
    (setKeyboardShortcut actionName shortcut s).webView.httpAcceptLanguage = s.webView.httpAcceptLanguage := by
  rfl

@[simp]
theorem setThirdPartyCookiesPolicy_httpAcceptLanguage (policy : Int) (s : CustomizationEngine) :
    (setThirdPartyCookiesPolicy policy s).webView.httpAcceptLanguage = s.webView.httpAcceptLanguage := by
  rfl

@[simp]
theorem setZoomFactor_httpAcceptLanguage (factor : ℚ) (s : CustomizationEngine) :
    (setZoomFactor factor s).webView.httpAcceptLanguage = s.webView.httpAcceptLanguage := by
  rfl

@[simp]
theorem saveSettingsToJson_httpAcceptLanguage (filename : String) (s : CustomizationEngine) :
    (saveSettingsToJson filename s).webView.httpAcceptLanguage = s.webView.httpAcceptLanguage := by
  unfold saveSettingsToJson
  split <;> rfl

@[simp]
theorem loadTheme_httpAcceptLanguage (root : QJsonObject) (s : CustomizationEngine) :
    (loadTheme root s).webView.httpAcceptLanguage = s.webView.httpAcceptLanguage := by
  unfold loadTheme
  split
  · exact applyTheme_httpAcceptLanguage _ _
  · rfl

@[simp]
theorem loadTabOrientation_httpAcceptLanguage (root : QJsonObject) (s : CustomizationEngine) :
    (loadTabOrientation root s).webView.httpAcceptLanguage = s.webView.httpAcceptLanguage := by
  unfold loadTabOrientation
  split
  · exact setTabOrientation_httpAcceptLanguage _ _
  · rfl

@[simp]
theorem loadCustomCSS_httpAcceptLanguage (root : QJsonObject) (s : CustomizationEngine) :
    (loadCustomCSS root s).webView.httpAcceptLanguage = s.webView.httpAcceptLanguage := by
  unfold loadCustomCSS
  split
  · exact foldl_frame (fun st => st.webView.httpAcceptLanguage) _ (fun st e => injectCustomCSS_httpAcceptLanguage _ _ st) _ s
  · rfl

@[simp]
theorem loadToolbarPosition_httpAcceptLanguage (root : QJsonObject) (s : CustomizationEngine) :
    (loadToolbarPosition root s).webView.httpAcceptLanguage = s.webView.httpAcceptLanguage := by
  unfold loadToolbarPosition
  split
  · exact setToolbarPosition_httpAcceptLanguage _ _
  · rfl

@[simp]
theorem loadStatusBarVisibility_httpAcceptLanguage (root : QJsonObject) (s : CustomizationEngine) :
    (loadStatusBarVisibility root s).webView.httpAcceptLanguage = s.webView.httpAcceptLanguage := by
  unfold loadStatusBarVisibility
  split
  · exact setStatusBarVisibility_httpAcceptLanguage _ _
  · rfl

@[simp]
theorem loadSidebarPosition_httpAcceptLanguage (root : QJsonObject) (s : CustomizationEngine) :
    (loadSidebarPosition root s).webView.httpAcceptLanguage = s.webView.httpAcceptLanguage := by
  unfold loadSidebarPosition
  split
  · exact setSidebarPosition_httpAcceptLanguage _ _
  · rfl

@[simp]
theorem loadGlobalFont_httpAcceptLanguage (root : QJsonObject) (s : CustomizationEngine) :
    (loadGlobalFont root s).webView.httpAcceptLanguage = s.webView.httpAcceptLanguage := by
  unfold loadGlobalFont
  split
  · exact setGlobalFont_httpAcceptLanguage _ _
  · rfl

@[simp]
theorem loadMinimumFontSize_httpAcceptLanguage (root : QJsonObject) (s : CustomizationEngine) :
    (loadMinimumFontSize root s).webView.httpAcceptLanguage = s.webView.httpAcceptLanguage := by
  unfold loadMinimumFontSize
  split
  · exact setMinimumFontSize_httpAcceptLanguage _ _
  · rfl

@[simp]
theorem loadColorScheme_httpAcceptLanguage (root : QJsonObject) (s : CustomizationEngine) :
    (loadColorScheme root s).webView.httpAcceptLanguage = s.webView.httpAcceptLanguage := by
  unfold loadColorScheme
  split
  · exact setColorScheme_httpAcceptLanguage _ _
  · rfl

@[simp]
theorem loadExtensions_httpAcceptLanguage (root : QJsonObject) (s : CustomizationEngine) :
    (loadExtensions root s).webView.httpAcceptLanguage = s.webView.httpAcceptLanguage := by
  unfold loadExtensions
  split
  · exact foldl_frame (fun st => st.webView.httpAcceptLanguage) _ (fun _ _ => rfl) _ s
  · rfl

@[simp]
theorem loadUserScripts_httpAcceptLanguage (root : QJsonObject) (s : CustomizationEngine) :
    (loadUserScripts root s).webView.httpAcceptLanguage = s.webView.httpAcceptLanguage := by
  unfold loadUserScripts
  split
  · refine foldl_frame (fun st => st.webView.httpAcceptLanguage) _ (fun st v => ?_) _ s
    show (loadUserScript st v).webView.httpAcceptLanguage = _
    unfold loadUserScript
    split
    · exact addUserScript_httpAcceptLanguage _ _ _ _
    · rfl
  · rfl

@[simp]
theorem loadKeyboardShortcuts_httpAcceptLanguage (root : QJsonObject) (s : CustomizationEngine) :
    (loadKeyboardShortcuts root s).webView.httpAcceptLanguage = s.webView.httpAcceptLanguage := by
  unfold loadKeyboardShortcuts
  split
  · exact foldl_frame (fun st => st.webView.httpAcceptLanguage) _ (fun st e => setKeyboardShortcut_httpAcceptLanguage _ _ st) _ s
  · rfl

@[simp]
theorem loadThirdPartyCookiesPolicy_httpAcceptLanguage (root : QJsonObject) (s : CustomizationEngine) :
    (loadThirdPartyCookiesPolicy root s).webView.httpAcceptLanguage = s.webView.httpAcceptLanguage := by
  unfold loadThirdPartyCookiesPolicy
  split
  · exact setThirdPartyCookiesPolicy_httpAcceptLanguage _ _
  · rfl


@[simp]
theorem applyTheme_thirdPartyCookiePolicy (themeName : String) (s : CustomizationEngine) :
    (applyTheme themeName s).webView.thirdPartyCookiePolicy = s.webView.thirdPartyCookiePolicy := by
  unfold applyTheme
  split <;> rfl

@[simp]
theorem setTabOrientation_thirdPartyCookiePolicy (orientation : TabOrientation) (s : CustomizationEngine) :
    (setTabOrientation orientation s).webView.thirdPartyCookiePolicy = s.webView.thirdPartyCookiePolicy := by
  unfold setTabOrientation
  split <;> rfl

@[simp]
theorem injectCustomCSS_thirdPartyCookiePolicy (url css : String) (s : CustomizationEngine) :
    (injectCustomCSS url css s).webView.thirdPartyCookiePolicy = s.webView.thirdPartyCookiePolicy := by
  rfl

@[simp]
theorem setToolbarPosition_thirdPartyCookiePolicy (area : Int) (s : CustomizationEngine) :
    (setToolbarPosition area s).webView.thirdPartyCookiePolicy = s.webView.thirdPartyCookiePolicy := by
  unfold setToolbarPosition
  split
  · split <;> rfl
  · rfl

@[simp]
theorem setStatusBarVisibility_thirdPartyCookiePolicy (visible : Bool) (s : CustomizationEngine) :
    (setStatusBarVisibility visible s).webView.thirdPartyCookiePolicy = s.webView.thirdPartyCookiePolicy := by
  unfold setStatusBarVisibility
  split <;> rfl

@[simp]
theorem setSidebarPosition_thirdPartyCookiePolicy (area : Int) (s : CustomizationEngine) :
    (setSidebarPosition area s).webView.thirdPartyCookiePolicy = s.webView.thirdPartyCookiePolicy := by
  unfold setSidebarPosition
  split
  · split <;> rfl
  · rfl

@[simp]
theorem setGlobalFont_thirdPartyCookiePolicy (font : QFont) (s : CustomizationEngine) :
    (setGlobalFont font s).webView.thirdPartyCookiePolicy = s.webView.thirdPartyCookiePolicy := by
  rfl

@[simp]
theorem setMinimumFontSize_thirdPartyCookiePolicy (size : Int) (s : CustomizationEngine) :
    (setMinimumFontSize size s).webView.thirdPartyCookiePolicy = s.webView.thirdPartyCookiePolicy := by
  rfl

@[simp]
theorem setColorScheme_thirdPartyCookiePolicy (schemeName : String) (s : CustomizationEngine) :
    (setColorScheme schemeName s).webView.thirdPartyCookiePolicy = s.webView.thirdPartyCookiePolicy := by
  rfl

@[simp]
theorem addUserScript_thirdPartyCookiePolicy (name script : String) (urlPatterns : List String) (s : CustomizationEngine) :
    (addUserScript name script urlPatterns s).webView.thirdPartyCookiePolicy = s.webView.thirdPartyCookiePolicy := by
  rfl

@[simp]
theorem setKeyboardShortcut_thirdPartyCookiePolicy (actionName shortcut : String) (s : CustomizationEngine) :
    (setKeyboardShortcut actionName shortcut s).webView.thirdPartyCookiePolicy = s.webView.thirdPartyCookiePolicy := by
  rfl

@[simp]
theorem setDoNotTrack_thirdPartyCookiePolicy (enable : Bool) (s : CustomizationEngine) :
    (setDoNotTrack enable s).webView.thirdPartyCookiePolicy = s.webView.thirdPartyCookiePolicy := by
  rfl

@[simp]
theorem setZoomFactor_thirdPartyCookiePolicy (factor : ℚ) (s : CustomizationEngine) :
    (setZoomFactor factor s).webView.thirdPartyCookiePolicy = s.webView.thirdPartyCookiePolicy := by
  rfl

@[simp]
theorem saveSettingsToJson_thirdPartyCookiePolicy (filename : String) (s : CustomizationEngine) :
    (saveSettingsToJson filename s).webView.thirdPartyCookiePolicy = s.webView.thirdPartyCookiePolicy := by
  unfold saveSettingsToJson
  split <;> rfl

@[simp]
theorem loadTheme_thirdPartyCookiePolicy (root : QJsonObject) (s : CustomizationEngine) :
    (loadTheme root s).webView.thirdPartyCookiePolicy = s.webView.thirdPartyCookiePolicy := by
  unfold loadTheme
  split
  · exact applyTheme_thirdPartyCookiePolicy _ _
  · rfl

@[simp]
theorem loadTabOrientation_thirdPartyCookiePolicy (root : QJsonObject) (s : CustomizationEngine) :
    (loadTabOrientation root s).webView.thirdPartyCookiePolicy = s.webView.thirdPartyCookiePolicy := by
  unfold loadTabOrientation
  split
  · exact setTabOrientation_thirdPartyCookiePolicy _ _
  · rfl

@[simp]
theorem loadCustomCSS_thirdPartyCookiePolicy (root : QJsonObject) (s : CustomizationEngine) :
    (loadCustomCSS root s).webView.thirdPartyCookiePolicy = s.webView.thirdPartyCookiePolicy := by
  unfold loadCustomCSS
  split
  · exact foldl_frame (fun st => st.webView.thirdPartyCookiePolicy) _ (fun st e => injectCustomCSS_thirdPartyCookiePolicy _ _ st) _ s
  · rfl

@[simp]
theorem loadToolbarPosition_thirdPartyCookiePolicy (root : QJsonObject) (s : CustomizationEngine) :
    (loadToolbarPosition root s).webView.thirdPartyCookiePolicy = s.webView.thirdPartyCookiePolicy := by
  unfold loadToolbarPosition
  split
  · exact setToolbarPosition_thirdPartyCookiePolicy _ _
  · rfl

@[simp]
theorem loadStatusBarVisibility_thirdPartyCookiePolicy (root : QJsonObject) (s : CustomizationEngine) :
    (loadStatusBarVisibility root s).webView.thirdPartyCookiePolicy = s.webView.thirdPartyCookiePolicy := by
  unfold loadStatusBarVisibility
  split
  · exact setStatusBarVisibility_thirdPartyCookiePolicy _ _
  · rfl

@[simp]
theorem loadSidebarPosition_thirdPartyCookiePolicy (root : QJsonObject) (s : CustomizationEngine) :
    (loadSidebarPosition root s).webView.thirdPartyCookiePolicy = s.webView.thirdPartyCookiePolicy := by
  unfold loadSidebarPosition
  split
  · exact setSidebarPosition_thirdPartyCookiePolicy _ _
  · rfl

@[simp]
theorem loadGlobalFont_thirdPartyCookiePolicy (root : QJsonObject) (s : CustomizationEngine) :
    (loadGlobalFont root s).webView.thirdPartyCookiePolicy = s.webView.thirdPartyCookiePolicy := by
  unfold loadGlobalFont
  split
  · exact setGlobalFont_thirdPartyCookiePolicy _ _
  · rfl

@[simp]
theorem loadMinimumFontSize_thirdPartyCookiePolicy (root : QJsonObject) (s : CustomizationEngine) :
    (loadMinimumFontSize root s).webView.thirdPartyCookiePolicy = s.webView.thirdPartyCookiePolicy := by
  unfold loadMinimumFontSize
  split
  · exact setMinimumFontSize_thirdPartyCookiePolicy _ _
  · rfl

@[simp]
theorem loadColorScheme_thirdPartyCookiePolicy (root : QJsonObject) (s : CustomizationEngine) :
    (loadColorScheme root s).webView.thirdPartyCookiePolicy = s.webView.thirdPartyCookiePolicy := by
  unfold loadColorScheme
  split
  · exact setColorScheme_thirdPartyCookiePolicy _ _
  · rfl

@[simp]
theorem loadExtensions_thirdPartyCookiePolicy (root : QJsonObject) (s : CustomizationEngine) :
    (loadExtensions root s).webView.thirdPartyCookiePolicy = s.webView.thirdPartyCookiePolicy := by
  unfold loadExtensions
  split
  · exact foldl_frame (fun st => st.webView.thirdPartyCookiePolicy) _ (fun _ _ => rfl) _ s
  · rfl

@[simp]
theorem loadUserScripts_thirdPartyCookiePolicy (root : QJsonObject) (s : CustomizationEngine) :
    (loadUserScripts root s).webView.thirdPartyCookiePolicy = s.webView.thirdPartyCookiePolicy := by
  unfold loadUserScripts
  split
  · refine foldl_frame (fun st => st.webView.thirdPartyCookiePolicy) _ (fun st v => ?_) _ s
    show (loadUserScript st v).webView.thirdPartyCookiePolicy = _
    unfold loadUserScript
    split
    · exact addUserScript_thirdPartyCookiePolicy _ _ _ _
    · rfl
  · rfl

@[simp]
theorem loadKeyboardShortcuts_thirdPartyCookiePolicy (root : QJsonObject) (s : CustomizationEngine) :
    (loadKeyboardShortcuts root s).webView.thirdPartyCookiePolicy = s.webView.thirdPartyCookiePolicy := by
  unfold loadKeyboardShortcuts
  split
  · exact foldl_frame (fun st => st.webView.thirdPartyCookiePolicy) _ (fun st e => setKeyboardShortcut_thirdPartyCookiePolicy _ _ st) _ s
  · rfl

@[simp]
theorem loadDoNotTrack_thirdPartyCookiePolicy (root : QJsonObject) (s : CustomizationEngine) :
    (loadDoNotTrack root s).webView.thirdPartyCookiePolicy = s.webView.thirdPartyCookiePolicy := by
  unfold loadDoNotTrack
  split
  · exact setDoNotTrack_thirdPartyCookiePolicy _ _
  · rfl


@[simp]
theorem applyTheme_scripts (themeName : String) (s : CustomizationEngine) :
    (applyTheme themeName s).webView.scripts = s.webView.scripts := by
  unfold applyTheme
  split <;> rfl

@[simp]
theorem setTabOrientation_scripts (orientation : TabOrientation) (s : CustomizationEngine) :
    (setTabOrientation orientation s).webView.scripts = s.webView.scripts := by
  unfold setTabOrientation
  split <;> rfl

@[simp]
theorem setToolbarPosition_scripts (area : Int) (s : CustomizationEngine) :
    (setToolbarPosition area s).webView.scripts = s.webView.scripts := by
  unfold setToolbarPosition
  split
  · split <;> rfl
  · rfl

@[simp]
theorem setStatusBarVisibility_scripts (visible : Bool) (s : CustomizationEngine) :
    (setStatusBarVisibility visible s).webView.scripts = s.webView.scripts := by
  unfold setStatusBarVisibility
  split <;> rfl

@[simp]
theorem setSidebarPosition_scripts (area : Int) (s : CustomizationEngine) :
    (setSidebarPosition area s).webView.scripts = s.webView.scripts := by
  unfold setSidebarPosition
  split
  · split <;> rfl
  · rfl

@[simp]
theorem setGlobalFont_scripts (font : QFont) (s : CustomizationEngine) :
    (setGlobalFont font s).webView.scripts = s.webView.scripts := by
  rfl

@[simp]
theorem setMinimumFontSize_scripts (size : Int) (s : CustomizationEngine) :
    (setMinimumFontSize size s).webView.scripts = s.webView.scripts := by
  rfl

@[simp]
theorem setColorScheme_scripts (schemeName : String) (s : CustomizationEngine) :
    (setColorScheme schemeName s).webView.scripts = s.webView.scripts := by
  rfl

@[simp]
theorem setKeyboardShortcut_scripts (actionName shortcut : String) (s : CustomizationEngine) :
    (setKeyboardShortcut actionName shortcut s).webView.scripts = s.webView.scripts := by
  rfl

@[simp]
theorem setDoNotTrack_scripts (enable : Bool) (s : CustomizationEngine) :
    (setDoNotTrack enable s).webView.scripts = s.webView.scripts := by
  rfl

@[simp]
theorem setThirdPartyCookiesPolicy_scripts (policy : Int) (s : CustomizationEngine) :
    (setThirdPartyCookiesPolicy policy s).webView.scripts = s.webView.scripts := by
  rfl

@[simp]
theorem setZoomFactor_scripts (factor : ℚ) (s : CustomizationEngine) :
    (setZoomFactor factor s).webView.scripts = s.webView.scripts := by
  rfl

@[simp]
theorem saveSettingsToJson_scripts (filename : String) (s : CustomizationEngine) :
    (saveSettingsToJson filename s).webView.scripts = s.webView.scripts := by
  unfold saveSettingsToJson
  split <;> rfl

@[simp]
theorem loadTheme_scripts (root : QJsonObject) (s : CustomizationEngine) :
    (loadTheme root s).webView.scripts = s.webView.scripts := by
  unfold loadTheme
  split
  · exact applyTheme_scripts _ _
  · rfl

@[simp]
theorem loadTabOrientation_scripts (root : QJsonObject) (s : CustomizationEngine) :
    (loadTabOrientation root s).webView.scripts = s.webView.scripts := by
  unfold loadTabOrientation
  split
  · exact setTabOrientation_scripts _ _
  · rfl

@[simp]
theorem loadToolbarPosition_scripts (root : QJsonObject) (s : CustomizationEngine) :
    (loadToolbarPosition root s).webView.scripts = s.webView.scripts := by
  unfold loadToolbarPosition
  split
  · exact setToolbarPosition_scripts _ _
  · rfl

@[simp]
theorem loadStatusBarVisibility_scripts (root : QJsonObject) (s : CustomizationEngine) :
    (loadStatusBarVisibility root s).webView.scripts = s.webView.scripts := by
  unfold loadStatusBarVisibility
  split
  · exact setStatusBarVisibility_scripts _ _
  · rfl

@[simp]
theorem loadSidebarPosition_scripts (root : QJsonObject) (s : CustomizationEngine) :
    (loadSidebarPosition root s).webView.scripts = s.webView.scripts := by
  unfold loadSidebarPosition
  split
  · exact setSidebarPosition_scripts _ _
  · rfl

@[simp]
theorem loadGlobalFont_scripts (root : QJsonObject) (s : CustomizationEngine) :
    (loadGlobalFont root s).webView.scripts = s.webView.scripts := by
  unfold loadGlobalFont
  split
  · exact setGlobalFont_scripts _ _
  · rfl

@[simp]
theorem loadMinimumFontSize_scripts (root : QJsonObject) (s : CustomizationEngine) :
    (loadMinimumFontSize root s).webView.scripts = s.webView.scripts := by
  unfold loadMinimumFontSize
  split
  · exact setMinimumFontSize_scripts _ _
  · rfl

@[simp]
theorem loadColorScheme_scripts (root : QJsonObject) (s : CustomizationEngine) :
    (loadColorScheme root s).webView.scripts = s.webView.scripts := by
  unfold loadColorScheme
  split
  · exact setColorScheme_scripts _ _
  · rfl

@[simp]
theorem loadExtensions_scripts (root : QJsonObject) (s : CustomizationEngine) :
    (loadExtensions root s).webView.scripts = s.webView.scripts := by
  unfold loadExtensions
  split
  · exact foldl_frame (fun st => st.webView.scripts) _ (fun _ _ => rfl) _ s
  · rfl

@[simp]
theorem loadKeyboardShortcuts_scripts (root : QJsonObject) (s : CustomizationEngine) :
    (loadKeyboardShortcuts root s).webView.scripts = s.webView.scripts := by
  unfold loadKeyboardShortcuts
  split
  · exact foldl_frame (fun st => st.webView.scripts) _ (fun st e => setKeyboardShortcut_scripts _ _ st) _ s
  · rfl

@[simp]
theorem loadDoNotTrack_scripts (root : QJsonObject) (s : CustomizationEngine) :
    (loadDoNotTrack root s).webView.scripts = s.webView.scripts := by
  unfold loadDoNotTrack
  split
  · exact setDoNotTrack_scripts _ _
  · rfl

@[simp]
theorem loadThirdPartyCookiesPolicy_scripts (root : QJsonObject) (s : CustomizationEngine) :
    (loadThirdPartyCookiesPolicy root s).webView.scripts = s.webView.scripts := by
  unfold loadThirdPartyCookiesPolicy
  split
  · exact setThirdPartyCookiesPolicy_scripts _ _
  · rfl


@[simp]
theorem applyTheme_currentColorScheme (themeName : String) (s : CustomizationEngine) :
    (applyTheme themeName s).mainWindow.currentColorScheme = s.mainWindow.currentColorScheme := by
  unfold applyTheme
  split <;> rfl

@[simp]
theorem setTabOrientation_currentColorScheme (orientation : TabOrientation) (s : CustomizationEngine) :
    (setTabOrientation orientation s).mainWindow.currentColorScheme = s.mainWindow.currentColorScheme := by
  unfold setTabOrientation
  split <;> rfl

@[simp]
theorem injectCustomCSS_currentColorScheme (url css : String) (s : CustomizationEngine) :
    (injectCustomCSS url css s).mainWindow.currentColorScheme = s.mainWindow.currentColorScheme := by
  rfl

@[simp]
theorem setToolbarPosition_currentColorScheme (area : Int) (s : CustomizationEngine) :
    (setToolbarPosition area s).mainWindow.currentColorScheme = s.mainWindow.currentColorScheme := by
  unfold setToolbarPosition
  split
  · split <;> rfl
  · rfl

@[simp]
theorem setStatusBarVisibility_currentColorScheme (visible : Bool) (s : CustomizationEngine) :
    (setStatusBarVisibility visible s).mainWindow.currentColorScheme = s.mainWindow.currentColorScheme := by
  unfold setStatusBarVisibility
  split <;> rfl

@[simp]
theorem setSidebarPosition_currentColorScheme (area : Int) (s : CustomizationEngine) :
    (setSidebarPosition area s).mainWindow.currentColorScheme = s.mainWindow.currentColorScheme := by
  unfold setSidebarPosition
  split
  · split <;> rfl
  · rfl

@[simp]
theorem setGlobalFont_currentColorScheme (font : QFont) (s : CustomizationEngine) :
    (setGlobalFont font s).mainWindow.currentColorScheme = s.mainWindow.currentColorScheme := by
  rfl

@[simp]
theorem setMinimumFontSize_currentColorScheme (size : Int) (s : CustomizationEngine) :
    (setMinimumFontSize size s).mainWindow.currentColorScheme = s.mainWindow.currentColorScheme := by
  rfl

@[simp]
theorem setColorScheme_currentColorScheme (schemeName : String) (s : CustomizationEngine) :
    (setColorScheme schemeName s).mainWindow.currentColorScheme = s.mainWindow.currentColorScheme := by
  rfl

@[simp]
theorem addUserScript_currentColorScheme (name script : String) (urlPatterns : List String) (s : CustomizationEngine) :
    (addUserScript name script urlPatterns s).mainWindow.currentColorScheme = s.mainWindow.currentColorScheme := by
  rfl

@[simp]
theorem setKeyboardShortcut_currentColorScheme (actionName shortcut : String) (s : CustomizationEngine) :
    (setKeyboardShortcut actionName shortcut s).mainWindow.currentColorScheme = s.mainWindow.currentColorScheme := by
  rfl

@[simp]
theorem setDoNotTrack_currentColorScheme (enable : Bool) (s : CustomizationEngine) :
    (setDoNotTrack enable s).mainWindow.currentColorScheme = s.mainWindow.currentColorScheme := by
  rfl

@[simp]
theorem setThirdPartyCookiesPolicy_currentColorScheme (policy : Int) (s : CustomizationEngine) :
    (setThirdPartyCookiesPolicy policy s).mainWindow.currentColorScheme = s.mainWindow.currentColorScheme := by
  rfl

@[simp]
theorem setZoomFactor_currentColorScheme (factor : ℚ) (s : CustomizationEngine) :
    (setZoomFactor factor s).mainWindow.currentColorScheme = s.mainWindow.currentColorScheme := by
  rfl

@[simp]
theorem saveSettingsToJson_currentColorScheme (filename : String) (s : CustomizationEngine) :
    (saveSettingsToJson filename s).mainWindow.currentColorScheme = s.mainWindow.currentColorScheme := by
  unfold saveSettingsToJson
  split <;> rfl

@[simp]
theorem loadTheme_currentColorScheme (root : QJsonObject) (s : CustomizationEngine) :
    (loadTheme root s).mainWindow.currentColorScheme = s.mainWindow.currentColorScheme := by
  unfold loadTheme
  split
  · exact applyTheme_currentColorScheme _ _
  · rfl

@[simp]
theorem loadTabOrientation_currentColorScheme (root : QJsonObject) (s : CustomizationEngine) :
    (loadTabOrientation root s).mainWindow.currentColorScheme = s.mainWindow.currentColorScheme := by
  unfold loadTabOrientation
  split
  · exact setTabOrientation_currentColorScheme _ _
  · rfl

@[simp]
theorem loadCustomCSS_currentColorScheme (root : QJsonObject) (s : CustomizationEngine) :
    (loadCustomCSS root s).mainWindow.currentColorScheme = s.mainWindow.currentColorScheme := by
  unfold loadCustomCSS
  split
  · exact foldl_frame (fun st => st.mainWindow.currentColorScheme) _ (fun st e => injectCustomCSS_currentColorScheme _ _ st) _ s
  · rfl

@[simp]
theorem loadToolbarPosition_currentColorScheme (root : QJsonObject) (s : CustomizationEngine) :
    (loadToolbarPosition root s).mainWindow.currentColorScheme = s.mainWindow.currentColorScheme := by
  unfold loadToolbarPosition
  split
  · exact setToolbarPosition_currentColorScheme _ _
  · rfl

@[simp]
theorem loadStatusBarVisibility_currentColorScheme (root : QJsonObject) (s : CustomizationEngine) :
    (loadStatusBarVisibility root s).mainWindow.currentColorScheme = s.mainWindow.currentColorScheme := by
  unfold loadStatusBarVisibility
  split
  · exact setStatusBarVisibility_currentColorScheme _ _
  · rfl

@[simp]
theorem loadSidebarPosition_currentColorScheme (root : QJsonObject) (s : CustomizationEngine) :
    (loadSidebarPosition root s).mainWindow.currentColorScheme = s.mainWindow.currentColorScheme := by
  unfold loadSidebarPosition
  split
  · exact setSidebarPosition_currentColorScheme _ _
  · rfl

@[simp]
theorem loadGlobalFont_currentColorScheme (root : QJsonObject) (s : CustomizationEngine) :
    (loadGlobalFont root s).mainWindow.currentColorScheme = s.mainWindow.currentColorScheme := by
  unfold loadGlobalFont
  split
  · exact setGlobalFont_currentColorScheme _ _
  · rfl

@[simp]
theorem loadMinimumFontSize_currentColorScheme (root : QJsonObject) (s : CustomizationEngine) :
    (loadMinimumFontSize root s).mainWindow.currentColorScheme = s.mainWindow.currentColorScheme := by
  unfold loadMinimumFontSize
  split
  · exact setMinimumFontSize_currentColorScheme _ _
  · rfl

@[simp]
theorem loadColorScheme_currentColorScheme (root : QJsonObject) (s : CustomizationEngine) :
    (loadColorScheme root s).mainWindow.currentColorScheme = s.mainWindow.currentColorScheme := by
  unfold loadColorScheme
  split
  · exact setColorScheme_currentColorScheme _ _
  · rfl

@[simp]
theorem loadExtensions_currentColorScheme (root : QJsonObject) (s : CustomizationEngine) :
    (loadExtensions root s).mainWindow.currentColorScheme = s.mainWindow.currentColorScheme := by
  unfold loadExtensions
  split
  · exact foldl_frame (fun st => st.mainWindow.currentColorScheme) _ (fun _ _ => rfl) _ s
  · rfl

@[simp]
theorem loadUserScripts_currentColorScheme (root : QJsonObject) (s : CustomizationEngine) :
    (loadUserScripts root s).mainWindow.currentColorScheme = s.mainWindow.currentColorScheme := by
  unfold loadUserScripts
  split
  · refine foldl_frame (fun st => st.mainWindow.currentColorScheme) _ (fun st v => ?_) _ s
    show (loadUserScript st v).mainWindow.currentColorScheme = _
    unfold loadUserScript
    split
    · exact addUserScript_currentColorScheme _ _ _ _
    · rfl
  · rfl

@[simp]
theorem loadKeyboardShortcuts_currentColorScheme (root : QJsonObject) (s : CustomizationEngine) :
    (loadKeyboardShortcuts root s).mainWindow.currentColorScheme = s.mainWindow.currentColorScheme := by
  unfold loadKeyboardShortcuts
  split
  · exact foldl_frame (fun st => st.mainWindow.currentColorScheme) _ (fun st e => setKeyboardShortcut_currentColorScheme _ _ st) _ s
  · rfl

@[simp]
theorem loadDoNotTrack_currentColorScheme (root : QJsonObject) (s : CustomizationEngine) :
    (loadDoNotTrack root s).mainWindow.currentColorScheme = s.mainWindow.currentColorScheme := by
  unfold loadDoNotTrack
  split
  · exact setDoNotTrack_currentColorScheme _ _
  · rfl

@[simp]
theorem loadThirdPartyCookiesPolicy_currentColorScheme (root : QJsonObject) (s : CustomizationEngine) :
    (loadThirdPartyCookiesPolicy root s).mainWindow.currentColorScheme = s.mainWindow.currentColorScheme := by
  unfold loadThirdPartyCookiesPolicy
  split
  · exact setThirdPartyCookiesPolicy_currentColorScheme _ _
  · rfl

@[simp]
theorem applyTheme_fs (themeName : String) (s : CustomizationEngine) :
    (applyTheme themeName s).fs = s.fs := by
  unfold applyTheme
  split <;> rfl

@[simp]
theorem setTabOrientation_fs (orientation : TabOrientation) (s : CustomizationEngine) :
    (setTabOrientation orientation s).fs = s.fs := by
  unfold setTabOrientation
  split <;> rfl

@[simp]
theorem injectCustomCSS_fs (url css : String) (s : CustomizationEngine) :
    (injectCustomCSS url css s).fs = s.fs := by
  rfl

@[simp]
theorem setToolbarPosition_fs (area : Int) (s : CustomizationEngine) :
    (setToolbarPosition area s).fs = s.fs := by
  unfold setToolbarPosition
  split
  · split <;> rfl
  · rfl

@[simp]
theorem setStatusBarVisibility_fs (visible : Bool) (s : CustomizationEngine) :
    (setStatusBarVisibility visible s).fs = s.fs := by
  unfold setStatusBarVisibility
  split <;> rfl

@[simp]
theorem setSidebarPosition_fs (area : Int) (s : CustomizationEngine) :
    (setSidebarPosition area s).fs = s.fs := by
  unfold setSidebarPosition
  split
  · split <;> rfl
  · rfl

@[simp]
theorem setGlobalFont_fs (font : QFont) (s : CustomizationEngine) :
    (setGlobalFont font s).fs = s.fs := by
  rfl

@[simp]
theorem setMinimumFontSize_fs (size : Int) (s : CustomizationEngine) :
    (setMinimumFontSize size s).fs = s.fs := by
  rfl

@[simp]
theorem setColorScheme_fs (schemeName : String) (s : CustomizationEngine) :
    (setColorScheme schemeName s).fs = s.fs := by
  rfl

@[simp]
theorem addUserScript_fs (name script : String) (urlPatterns : List String) (s : CustomizationEngine) :
    (addUserScript name script urlPatterns s).fs = s.fs := by
  rfl

@[simp]
theorem setKeyboardShortcut_fs (actionName shortcut : String) (s : CustomizationEngine) :
    (setKeyboardShortcut actionName shortcut s).fs = s.fs := by
  rfl

@[simp]
theorem setDoNotTrack_fs (enable : Bool) (s : CustomizationEngine) :
    (setDoNotTrack enable s).fs = s.fs := by
  rfl

@[simp]
theorem setThirdPartyCookiesPolicy_fs (policy : Int) (s : CustomizationEngine) :
    (setThirdPartyCookiesPolicy policy s).fs = s.fs := by
  rfl

@[simp]
theorem setZoomFactor_fs (factor : ℚ) (s : CustomizationEngine) :
    (setZoomFactor factor s).fs = s.fs := by
  rfl

@[simp]
theorem loadTheme_fs (root : QJsonObject) (s : CustomizationEngine) :
    (loadTheme root s).fs = s.fs := by
  unfold loadTheme
  split
  · exact applyTheme_fs _ _
  · rfl

@[simp]
theorem loadTabOrientation_fs (root : QJsonObject) (s : CustomizationEngine) :
    (loadTabOrientation root s).fs = s.fs := by
  unfold loadTabOrientation
  split
  · exact setTabOrientation_fs _ _
  · rfl

@[simp]
theorem loadCustomCSS_fs (root : QJsonObject) (s : CustomizationEngine) :
    (loadCustomCSS root s).fs = s.fs := by
  unfold loadCustomCSS
  split
  · exact foldl_frame (fun st => st.fs) _ (fun st e => injectCustomCSS_fs _ _ st) _ s
  · rfl

@[simp]
theorem loadToolbarPosition_fs (root : QJsonObject) (s : CustomizationEngine) :
    (loadToolbarPosition root s).fs = s.fs := by
  unfold loadToolbarPosition
  split
  · exact setToolbarPosition_fs _ _
  · rfl

@[simp]
theorem loadStatusBarVisibility_fs (root : QJsonObject) (s : CustomizationEngine) :
    (loadStatusBarVisibility root s).fs = s.fs := by
  unfold loadStatusBarVisibility
  split
  · exact setStatusBarVisibility_fs _ _
  · rfl

@[simp]
theorem loadSidebarPosition_fs (root : QJsonObject) (s : CustomizationEngine) :
    (loadSidebarPosition root s).fs = s.fs := by
  unfold loadSidebarPosition
  split
  · exact setSidebarPosition_fs _ _
  · rfl

@[simp]
theorem loadGlobalFont_fs (root : QJsonObject) (s : CustomizationEngine) :
    (loadGlobalFont root s).fs = s.fs := by
  unfold loadGlobalFont
  split
  · exact setGlobalFont_fs _ _
  · rfl

@[simp]
theorem loadMinimumFontSize_fs (root : QJsonObject) (s : CustomizationEngine) :
    (loadMinimumFontSize root s).fs = s.fs := by
  unfold loadMinimumFontSize
  split
  · exact setMinimumFontSize_fs _ _
  · rfl

@[simp]
theorem loadColorScheme_fs (root : QJsonObject) (s : CustomizationEngine) :
    (loadColorScheme root s).fs = s.fs := by
  unfold loadColorScheme
  split
  · exact setColorScheme_fs _ _
  · rfl

@[simp]
theorem loadExtensions_fs (root : QJsonObject) (s : CustomizationEngine) :
    (loadExtensions root s).fs = s.fs := by
  unfold loadExtensions
  split
  · exact foldl_frame (fun st => st.fs) _ (fun _ _ => rfl) _ s
  · rfl

@[simp]
theorem loadUserScripts_fs (root : QJsonObject) (s : CustomizationEngine) :
    (loadUserScripts root s).fs = s.fs := by
  unfold loadUserScripts
  split
  · refine foldl_frame (fun st => st.fs) _ (fun st v => ?_) _ s
    show (loadUserScript st v).fs = _
    unfold loadUserScript
    split
    · exact addUserScript_fs _ _ _ _
    · rfl
  · rfl

@[simp]
theorem loadKeyboardShortcuts_fs (root : QJsonObject) (s : CustomizationEngine) :
    (loadKeyboardShortcuts root s).fs = s.fs := by
  unfold loadKeyboardShortcuts
  split
  · exact foldl_frame (fun st => st.fs) _ (fun st e => setKeyboardShortcut_fs _ _ st) _ s
  · rfl

@[simp]
theorem loadDoNotTrack_fs (root : QJsonObject) (s : CustomizationEngine) :
    (loadDoNotTrack root s).fs = s.fs := by
  unfold loadDoNotTrack
  split
  · exact setDoNotTrack_fs _ _
  · rfl

@[simp]
theorem loadThirdPartyCookiesPolicy_fs (root : QJsonObject) (s : CustomizationEngine) :
    (loadThirdPartyCookiesPolicy root s).fs = s.fs := by
  unfold loadThirdPartyCookiesPolicy
  split
  · exact setThirdPartyCookiesPolicy_fs _ _
  · rfl


@[simp]
theorem applyTheme_isQMainWindow (themeName : String) (s : CustomizationEngine) :
    (applyTheme themeName s).mainWindow.isQMainWindow = s.mainWindow.isQMainWindow := by
  unfold applyTheme
  split <;> rfl

@[simp]
theorem setTabOrientation_isQMainWindow (orientation : TabOrientation) (s : CustomizationEngine) :
    (setTabOrientation orientation s).mainWindow.isQMainWindow = s.mainWindow.isQMainWindow := by
  unfold setTabOrientation
  split <;> rfl

@[simp]
theorem injectCustomCSS_isQMainWindow (url css : String) (s : CustomizationEngine) :
    (injectCustomCSS url css s).mainWindow.isQMainWindow = s.mainWindow.isQMainWindow := by
  rfl

@[simp]
theorem setToolbarPosition_isQMainWindow (area : Int) (s : CustomizationEngine) :
    (setToolbarPosition area s).mainWindow.isQMainWindow = s.mainWindow.isQMainWindow := by
  unfold setToolbarPosition
  split
  · split <;> rfl
  · rfl

@[simp]
theorem setStatusBarVisibility_isQMainWindow (visible : Bool) (s : CustomizationEngine) :
    (setStatusBarVisibility visible s).mainWindow.isQMainWindow = s.mainWindow.isQMainWindow := by
  unfold setStatusBarVisibility
  split <;> rfl

@[simp]
theorem setSidebarPosition_isQMainWindow (area : Int) (s : CustomizationEngine) :
    (setSidebarPosition area s).mainWindow.isQMainWindow = s.mainWindow.isQMainWindow := by
  unfold setSidebarPosition
  split
  · split <;> rfl
  · rfl

@[simp]
theorem setGlobalFont_isQMainWindow (font : QFont) (s : CustomizationEngine) :
    (setGlobalFont font s).mainWindow.isQMainWindow = s.mainWindow.isQMainWindow := by
  rfl

@[simp]
theorem setMinimumFontSize_isQMainWindow (size : Int) (s : CustomizationEngine) :
    (setMinimumFontSize size s).mainWindow.isQMainWindow = s.mainWindow.isQMainWindow := by
  rfl

@[simp]
theorem setColorScheme_isQMainWindow (schemeName : String) (s : CustomizationEngine) :
    (setColorScheme schemeName s).mainWindow.isQMainWindow = s.mainWindow.isQMainWindow := by
  rfl

@[simp]
theorem addUserScript_isQMainWindow (name script : String) (urlPatterns : List String) (s : CustomizationEngine) :
    (addUserScript name script urlPatterns s).mainWindow.isQMainWindow = s.mainWindow.isQMainWindow := by
  rfl

@[simp]
theorem setKeyboardShortcut_isQMainWindow (actionName shortcut : String) (s : CustomizationEngine) :
    (setKeyboardShortcut actionName shortcut s).mainWindow.isQMainWindow = s.mainWindow.isQMainWindow := by
  rfl

@[simp]
theorem setDoNotTrack_isQMainWindow (enable : Bool) (s : CustomizationEngine) :
    (setDoNotTrack enable s).mainWindow.isQMainWindow = s.mainWindow.isQMainWindow := by
  rfl

@[simp]
theorem setThirdPartyCookiesPolicy_isQMainWindow (policy : Int) (s : CustomizationEngine) :
    (setThirdPartyCookiesPolicy policy s).mainWindow.isQMainWindow = s.mainWindow.isQMainWindow := by
  rfl

@[simp]
theorem setZoomFactor_isQMainWindow (factor : ℚ) (s : CustomizationEngine) :
    (setZoomFactor factor s).mainWindow.isQMainWindow = s.mainWindow.isQMainWindow := by
  rfl

@[simp]
theorem saveSettingsToJson_isQMainWindow (filename : String) (s : CustomizationEngine) :
    (saveSettingsToJson filename s).mainWindow.isQMainWindow = s.mainWindow.isQMainWindow := by
  unfold saveSettingsToJson
  split <;> rfl

@[simp]
theorem loadTheme_isQMainWindow (root : QJsonObject) (s : CustomizationEngine) :
    (loadTheme root s).mainWindow.isQMainWindow = s.mainWindow.isQMainWindow := by
  unfold loadTheme
  split
  · exact applyTheme_isQMainWindow _ _
  · rfl

@[simp]
theorem loadTabOrientation_isQMainWindow (root : QJsonObject) (s : CustomizationEngine) :
    (loadTabOrientation root s).mainWindow.isQMainWindow = s.mainWindow.isQMainWindow := by
  unfold loadTabOrientation
  split
  · exact setTabOrientation_isQMainWindow _ _
  · rfl

@[simp]
theorem loadCustomCSS_isQMainWindow (root : QJsonObject) (s : CustomizationEngine) :
    (loadCustomCSS root s).mainWindow.isQMainWindow = s.mainWindow.isQMainWindow := by
  unfold loadCustomCSS
  split
  · exact foldl_frame (fun st => st.mainWindow.isQMainWindow) _ (fun st e => injectCustomCSS_isQMainWindow _ _ st) _ s
  · rfl

@[simp]
theorem loadToolbarPosition_isQMainWindow (root : QJsonObject) (s : CustomizationEngine) :
    (loadToolbarPosition root s).mainWindow.isQMainWindow = s.mainWindow.isQMainWindow := by
  unfold loadToolbarPosition
  split
  · exact setToolbarPosition_isQMainWindow _ _
  · rfl

@[simp]
theorem loadStatusBarVisibility_isQMainWindow (root : QJsonObject) (s : CustomizationEngine) :
    (loadStatusBarVisibility root s).mainWindow.isQMainWindow = s.mainWindow.isQMainWindow := by
  unfold loadStatusBarVisibility
  split
  · exact setStatusBarVisibility_isQMainWindow _ _
  · rfl

@[simp]
theorem loadSidebarPosition_isQMainWindow (root : QJsonObject) (s : CustomizationEngine) :
    (loadSidebarPosition root s).mainWindow.isQMainWindow = s.mainWindow.isQMainWindow := by
  unfold loadSidebarPosition
  split
  · exact setSidebarPosition_isQMainWindow _ _
  · rfl

@[simp]
theorem loadGlobalFont_isQMainWindow (root : QJsonObject) (s : CustomizationEngine) :
    (loadGlobalFont root s).mainWindow.isQMainWindow = s.mainWindow.isQMainWindow := by
  unfold loadGlobalFont
  split
  · exact setGlobalFont_isQMainWindow _ _
  · rfl

@[simp]
theorem loadMinimumFontSize_isQMainWindow (root : QJsonObject) (s : CustomizationEngine) :
    (loadMinimumFontSize root s).mainWindow.isQMainWindow = s.mainWindow.isQMainWindow := by
  unfold loadMinimumFontSize
  split
  · exact setMinimumFontSize_isQMainWindow _ _
  · rfl

@[simp]
theorem loadColorScheme_isQMainWindow (root : QJsonObject) (s : CustomizationEngine) :
    (loadColorScheme root s).mainWindow.isQMainWindow = s.mainWindow.isQMainWindow := by
  unfold loadColorScheme
  split
  · exact setColorScheme_isQMainWindow _ _
  · rfl

@[simp]
theorem loadExtensions_isQMainWindow (root : QJsonObject) (s : CustomizationEngine) :
    (loadExtensions root s).mainWindow.isQMainWindow = s.mainWindow.isQMainWindow := by
  unfold loadExtensions
  split
  · exact foldl_frame (fun st => st.mainWindow.isQMainWindow) _ (fun _ _ => rfl) _ s
  · rfl

@[simp]
theorem loadUserScripts_isQMainWindow (root : QJsonObject) (s : CustomizationEngine) :
    (loadUserScripts root s).mainWindow.isQMainWindow = s.mainWindow.isQMainWindow := by
  unfold loadUserScripts
  split
  · refine foldl_frame (fun st => st.mainWindow.isQMainWindow) _ (fun st v => ?_) _ s
    show (loadUserScript st v).mainWindow.isQMainWindow = _
    unfold loadUserScript
    split
    · exact addUserScript_isQMainWindow _ _ _ _
    · rfl
  · rfl

@[simp]
theorem loadKeyboardShortcuts_isQMainWindow (root : QJsonObject) (s : CustomizationEngine) :
    (loadKeyboardShortcuts root s).mainWindow.isQMainWindow = s.mainWindow.isQMainWindow := by
  unfold loadKeyboardShortcuts
  split
  · exact foldl_frame (fun st => st.mainWindow.isQMainWindow) _ (fun st e => setKeyboardShortcut_isQMainWindow _ _ st) _ s
  · rfl

@[simp]
theorem loadDoNotTrack_isQMainWindow (root : QJsonObject) (s : CustomizationEngine) :
    (loadDoNotTrack root s).mainWindow.isQMainWindow = s.mainWindow.isQMainWindow := by
  unfold loadDoNotTrack
  split
  · exact setDoNotTrack_isQMainWindow _ _
  · rfl

@[simp]
theorem loadThirdPartyCookiesPolicy_isQMainWindow (root : QJsonObject) (s : CustomizationEngine) :
    (loadThirdPartyCookiesPolicy root s).mainWindow.isQMainWindow = s.mainWindow.isQMainWindow := by
  unfold loadThirdPartyCookiesPolicy
  split
  · exact setThirdPartyCookiesPolicy_isQMainWindow _ _
  · rfl


@[simp]
theorem applyTheme_currentThemeProperty (themeName : String) (s : CustomizationEngine) :
    (applyTheme themeName s).mainWindow.currentTheme = s.mainWindow.currentTheme := by
  unfold applyTheme
  split <;> rfl

@[simp]
theorem setTabOrientation_currentThemeProperty (orientation : TabOrientation) (s : CustomizationEngine) :
    (setTabOrientation orientation s).mainWindow.currentTheme = s.mainWindow.currentTheme := by
  unfold setTabOrientation
  split <;> rfl

@[simp]
theorem injectCustomCSS_currentThemeProperty (url css : String) (s : CustomizationEngine) :
    (injectCustomCSS url css s).mainWindow.currentTheme = s.mainWindow.currentTheme := by
  rfl

@[simp]
theorem setToolbarPosition_currentThemeProperty (area : Int) (s : CustomizationEngine) :
    (setToolbarPosition area s).mainWindow.currentTheme = s.mainWindow.currentTheme := by
  unfold setToolbarPosition
  split
  · split <;> rfl
  · rfl

@[simp]
theorem setStatusBarVisibility_currentThemeProperty (visible : Bool) (s : CustomizationEngine) :
    (setStatusBarVisibility visible s).mainWindow.currentTheme = s.mainWindow.currentTheme := by
  unfold setStatusBarVisibility
  split <;> rfl

@[simp]
theorem setSidebarPosition_currentThemeProperty (area : Int) (s : CustomizationEngine) :
    (setSidebarPosition area s).mainWindow.currentTheme = s.mainWindow.currentTheme := by
  unfold setSidebarPosition
  split
  · split <;> rfl
  · rfl

@[simp]
theorem setGlobalFont_currentThemeProperty (font : QFont) (s : CustomizationEngine) :
    (setGlobalFont font s).mainWindow.currentTheme = s.mainWindow.currentTheme := by
  rfl

@[simp]
theorem setMinimumFontSize_currentThemeProperty (size : Int) (s : CustomizationEngine) :
    (setMinimumFontSize size s).mainWindow.currentTheme = s.mainWindow.currentTheme := by
  rfl

@[simp]
theorem setColorScheme_currentThemeProperty (schemeName : String) (s : CustomizationEngine) :
    (setColorScheme schemeName s).mainWindow.currentTheme = s.mainWindow.currentTheme := by
  rfl

@[simp]
theorem addUserScript_currentThemeProperty (name script : String) (urlPatterns : List String) (s : CustomizationEngine) :
    (addUserScript name script urlPatterns s).mainWindow.currentTheme = s.mainWindow.currentTheme := by
  rfl

@[simp]
theorem setKeyboardShortcut_currentThemeProperty (actionName shortcut : String) (s : CustomizationEngine) :
    (setKeyboardShortcut actionName shortcut s).mainWindow.currentTheme = s.mainWindow.currentTheme := by
  rfl

@[simp]
theorem setDoNotTrack_currentThemeProperty (enable : Bool) (s : CustomizationEngine) :
    (setDoNotTrack enable s).mainWindow.currentTheme = s.mainWindow.currentTheme := by
  rfl

@[simp]
theorem setThirdPartyCookiesPolicy_currentThemeProperty (policy : Int) (s : CustomizationEngine) :
    (setThirdPartyCookiesPolicy policy s).mainWindow.currentTheme = s.mainWindow.currentTheme := by
  rfl

@[simp]
theorem setZoomFactor_currentThemeProperty (factor : ℚ) (s : CustomizationEngine) :
    (setZoomFactor factor s).mainWindow.currentTheme = s.mainWindow.currentTheme := by
  rfl

@[simp]
theorem saveSettingsToJson_currentThemeProperty (filename : String) (s : CustomizationEngine) :
    (saveSettingsToJson filename s).mainWindow.currentTheme = s.mainWindow.currentTheme := by
  unfold saveSettingsToJson
  split <;> rfl

@[simp]
theorem loadTheme_currentThemeProperty (root : QJsonObject) (s : CustomizationEngine) :
    (loadTheme root s).mainWindow.currentTheme = s.mainWindow.currentTheme := by
  unfold loadTheme
  split
  · exact applyTheme_currentThemeProperty _ _
  · rfl

@[simp]
theorem loadTabOrientation_currentThemeProperty (root : QJsonObject) (s : CustomizationEngine) :
    (loadTabOrientation root s).mainWindow.currentTheme = s.mainWindow.currentTheme := by
  unfold loadTabOrientation
  split
  · exact setTabOrientation_currentThemeProperty _ _
  · rfl

@[simp]
theorem loadCustomCSS_currentThemeProperty (root : QJsonObject) (s : CustomizationEngine) :
    (loadCustomCSS root s).mainWindow.currentTheme = s.mainWindow.currentTheme := by
  unfold loadCustomCSS
  split
  · exact foldl_frame (fun st => st.mainWindow.currentTheme) _ (fun st e => injectCustomCSS_currentThemeProperty _ _ st) _ s
  · rfl

@[simp]
theorem loadToolbarPosition_currentThemeProperty (root : QJsonObject) (s : CustomizationEngine) :
    (loadToolbarPosition root s).mainWindow.currentTheme = s.mainWindow.currentTheme := by
  unfold loadToolbarPosition
  split
  · exact setToolbarPosition_currentThemeProperty _ _
  · rfl

@[simp]
theorem loadStatusBarVisibility_currentThemeProperty (root : QJsonObject) (s : CustomizationEngine) :
    (loadStatusBarVisibility root s).mainWindow.currentTheme = s.mainWindow.currentTheme := by
  unfold loadStatusBarVisibility
  split
  · exact setStatusBarVisibility_currentThemeProperty _ _
  · rfl

@[simp]
theorem loadSidebarPosition_currentThemeProperty (root : QJsonObject) (s : CustomizationEngine) :
    (loadSidebarPosition root s).mainWindow.currentTheme = s.mainWindow.currentTheme := by
  unfold loadSidebarPosition
  split
  · exact setSidebarPosition_currentThemeProperty _ _
  · rfl

@[simp]
theorem loadGlobalFont_currentThemeProperty (root : QJsonObject) (s : CustomizationEngine) :
    (loadGlobalFont root s).mainWindow.currentTheme = s.mainWindow.currentTheme := by
  unfold loadGlobalFont
  split
  · exact setGlobalFont_currentThemeProperty _ _
  · rfl

@[simp]
theorem loadMinimumFontSize_currentThemeProperty (root : QJsonObject) (s : CustomizationEngine) :
    (loadMinimumFontSize root s).mainWindow.currentTheme = s.mainWindow.currentTheme := by
  unfold loadMinimumFontSize
  split
  · exact setMinimumFontSize_currentThemeProperty _ _
  · rfl

@[simp]
theorem loadColorScheme_currentThemeProperty (root : QJsonObject) (s : CustomizationEngine) :
    (loadColorScheme root s).mainWindow.currentTheme = s.mainWindow.currentTheme := by
  unfold loadColorScheme
  split
  · exact setColorScheme_currentThemeProperty _ _
  · rfl

@[simp]
theorem loadExtensions_currentThemeProperty (root : QJsonObject) (s : CustomizationEngine) :
    (loadExtensions root s).mainWindow.currentTheme = s.mainWindow.currentTheme := by
  unfold loadExtensions
  split
  · exact foldl_frame (fun st => st.mainWindow.currentTheme) _ (fun _ _ => rfl) _ s
  · rfl

@[simp]
theorem loadUserScripts_currentThemeProperty (root : QJsonObject) (s : CustomizationEngine) :
    (loadUserScripts root s).mainWindow.currentTheme = s.mainWindow.currentTheme := by
  unfold loadUserScripts
  split
  · refine foldl_frame (fun st => st.mainWindow.currentTheme) _ (fun st v => ?_) _ s
    show (loadUserScript st v).mainWindow.currentTheme = _
    unfold loadUserScript
    split
    · exact addUserScript_currentThemeProperty _ _ _ _
    · rfl
  · rfl

@[simp]
theorem loadKeyboardShortcuts_currentThemeProperty (root : QJsonObject) (s : CustomizationEngine) :
    (loadKeyboardShortcuts root s).mainWindow.currentTheme = s.mainWindow.currentTheme := by
  unfold loadKeyboardShortcuts
  split
  · exact foldl_frame (fun st => st.mainWindow.currentTheme) _ (fun st e => setKeyboardShortcut_currentThemeProperty _ _ st) _ s
  · rfl

@[simp]
theorem loadDoNotTrack_currentThemeProperty (root : QJsonObject) (s : CustomizationEngine) :
    (loadDoNotTrack root s).mainWindow.currentTheme = s.mainWindow.currentTheme := by
  unfold loadDoNotTrack
  split
  · exact setDoNotTrack_currentThemeProperty _ _
  · rfl

@[simp]
theorem loadThirdPartyCookiesPolicy_currentThemeProperty (root : QJsonObject) (s : CustomizationEngine) :
    (loadThirdPartyCookiesPolicy root s).mainWindow.currentTheme = s.mainWindow.currentTheme := by
  unfold loadThirdPartyCookiesPolicy
  split
  · exact setThirdPartyCookiesPolicy_currentThemeProperty _ _
  · rfl


@[simp]
theorem applyTheme_zoomFactorValue (themeName : String) (s : CustomizationEngine) :
    (applyTheme themeName s).webView.zoomFactor = s.webView.zoomFactor := by
  unfold applyTheme
  split <;> rfl

@[simp]
theorem setTabOrientation_zoomFactorValue (orientation : TabOrientation) (s : CustomizationEngine) :
    (setTabOrientation orientation s).webView.zoomFactor = s.webView.zoomFactor := by
  unfold setTabOrientation
  split <;> rfl

@[simp]
theorem injectCustomCSS_zoomFactorValue (url css : String) (s : CustomizationEngine) :
    (injectCustomCSS url css s).webView.zoomFactor = s.webView.zoomFactor := by
  rfl

@[simp]
theorem setToolbarPosition_zoomFactorValue (area : Int) (s : CustomizationEngine) :
    (setToolbarPosition area s).webView.zoomFactor = s.webView.zoomFactor := by
  unfold setToolbarPosition
  split
  · split <;> rfl
  · rfl

@[simp]
theorem setStatusBarVisibility_zoomFactorValue (visible : Bool) (s : CustomizationEngine) :
    (setStatusBarVisibility visible s).webView.zoomFactor = s.webView.zoomFactor := by
  unfold setStatusBarVisibility
  split <;> rfl

@[simp]
theorem setSidebarPosition_zoomFactorValue (area : Int) (s : CustomizationEngine) :
    (setSidebarPosition area s).webView.zoomFactor = s.webView.zoomFactor := by
  unfold setSidebarPosition
  split
  · split <;> rfl
  · rfl

@[simp]
theorem setGlobalFont_zoomFactorValue (font : QFont) (s : CustomizationEngine) :
    (setGlobalFont font s).webView.zoomFactor = s.webView.zoomFactor := by
  rfl

@[simp]
theorem setMinimumFontSize_zoomFactorValue (size : Int) (s : CustomizationEngine) :
    (setMinimumFontSize size s).webView.zoomFactor = s.webView.zoomFactor := by
  rfl

@[simp]
theorem setColorScheme_zoomFactorValue (schemeName : String) (s : CustomizationEngine) :
    (setColorScheme schemeName s).webView.zoomFactor = s.webView.zoomFactor := by
  rfl

@[simp]
theorem addUserScript_zoomFactorValue (name script : String) (urlPatterns : List String) (s : CustomizationEngine) :
    (addUserScript name script urlPatterns s).webView.zoomFactor = s.webView.zoomFactor := by
  rfl

@[simp]
theorem setKeyboardShortcut_zoomFactorValue (actionName shortcut : String) (s : CustomizationEngine) :
    (setKeyboardShortcut actionName shortcut s).webView.zoomFactor = s.webView.zoomFactor := by
  rfl

@[simp]
theorem setDoNotTrack_zoomFactorValue (enable : Bool) (s : CustomizationEngine) :
    (setDoNotTrack enable s).webView.zoomFactor = s.webView.zoomFactor := by
  rfl

@[simp]
theorem setThirdPartyCookiesPolicy_zoomFactorValue (policy : Int) (s : CustomizationEngine) :
    (setThirdPartyCookiesPolicy policy s).webView.zoomFactor = s.webView.zoomFactor := by
  rfl

@[simp]
theorem saveSettingsToJson_zoomFactorValue (filename : String) (s : CustomizationEngine) :
    (saveSettingsToJson filename s).webView.zoomFactor = s.webView.zoomFactor := by
  unfold saveSettingsToJson
  split <;> rfl

@[simp]
theorem loadTheme_zoomFactorValue (root : QJsonObject) (s : CustomizationEngine) :
    (loadTheme root s).webView.zoomFactor = s.webView.zoomFactor := by
  unfold loadTheme
  split
  · exact applyTheme_zoomFactorValue _ _
  · rfl

@[simp]
theorem loadTabOrientation_zoomFactorValue (root : QJsonObject) (s : CustomizationEngine) :
    (loadTabOrientation root s).webView.zoomFactor = s.webView.zoomFactor := by
  unfold loadTabOrientation
  split
  · exact setTabOrientation_zoomFactorValue _ _
  · rfl

@[simp]
theorem loadCustomCSS_zoomFactorValue (root : QJsonObject) (s : CustomizationEngine) :
    (loadCustomCSS root s).webView.zoomFactor = s.webView.zoomFactor := by
  unfold loadCustomCSS
  split
  · exact foldl_frame (fun st => st.webView.zoomFactor) _ (fun st e => injectCustomCSS_zoomFactorValue _ _ st) _ s
  · rfl

@[simp]
theorem loadToolbarPosition_zoomFactorValue (root : QJsonObject) (s : CustomizationEngine) :
    (loadToolbarPosition root s).webView.zoomFactor = s.webView.zoomFactor := by
  unfold loadToolbarPosition
  split
  · exact setToolbarPosition_zoomFactorValue _ _
  · rfl

@[simp]
theorem loadStatusBarVisibility_zoomFactorValue (root : QJsonObject) (s : CustomizationEngine) :
    (loadStatusBarVisibility root s).webView.zoomFactor = s.webView.zoomFactor := by
  unfold loadStatusBarVisibility
  split
  · exact setStatusBarVisibility_zoomFactorValue _ _
  · rfl

@[simp]
theorem loadSidebarPosition_zoomFactorValue (root : QJsonObject) (s : CustomizationEngine) :
    (loadSidebarPosition root s).webView.zoomFactor = s.webView.zoomFactor := by
  unfold loadSidebarPosition
  split
  · exact setSidebarPosition_zoomFactorValue _ _
  · rfl

@[simp]
theorem loadGlobalFont_zoomFactorValue (root : QJsonObject) (s : CustomizationEngine) :
    (loadGlobalFont root s).webView.zoomFactor = s.webView.zoomFactor := by
  unfold loadGlobalFont
  split
  · exact setGlobalFont_zoomFactorValue _ _
  · rfl

@[simp]
theorem loadMinimumFontSize_zoomFactorValue (root : QJsonObject) (s : CustomizationEngine) :
    (loadMinimumFontSize root s).webView.zoomFactor = s.webView.zoomFactor := by
  unfold loadMinimumFontSize
  split
  · exact setMinimumFontSize_zoomFactorValue _ _
  · rfl

@[simp]
theorem loadColorScheme_zoomFactorValue (root : QJsonObject) (s : CustomizationEngine) :
    (loadColorScheme root s).webView.zoomFactor = s.webView.zoomFactor := by
  unfold loadColorScheme
  split
  · exact setColorScheme_zoomFactorValue _ _
  · rfl

@[simp]
theorem loadExtensions_zoomFactorValue (root : QJsonObject) (s : CustomizationEngine) :
    (loadExtensions root s).webView.zoomFactor = s.webView.zoomFactor := by
  unfold loadExtensions
  split
  · exact foldl_frame (fun st => st.webView.zoomFactor) _ (fun _ _ => rfl) _ s
  · rfl

@[simp]
theorem loadUserScripts_zoomFactorValue (root : QJsonObject) (s : CustomizationEngine) :
    (loadUserScripts root s).webView.zoomFactor = s.webView.zoomFactor := by
  unfold loadUserScripts
  split
  · refine foldl_frame (fun st => st.webView.zoomFactor) _ (fun st v => ?_) _ s
    show (loadUserScript st v).webView.zoomFactor = _
    unfold loadUserScript
    split
    · exact addUserScript_zoomFactorValue _ _ _ _
    · rfl
  · rfl

@[simp]
theorem loadKeyboardShortcuts_zoomFactorValue (root : QJsonObject) (s : CustomizationEngine) :
    (loadKeyboardShortcuts root s).webView.zoomFactor = s.webView.zoomFactor := by
  unfold loadKeyboardShortcuts
  split
  · exact foldl_frame (fun st => st.webView.zoomFactor) _ (fun st e => setKeyboardShortcut_zoomFactorValue _ _ st) _ s
  · rfl

@[simp]
theorem loadDoNotTrack_zoomFactorValue (root : QJsonObject) (s : CustomizationEngine) :
    (loadDoNotTrack root s).webView.zoomFactor = s.webView.zoomFactor := by
  unfold loadDoNotTrack
  split
  · exact setDoNotTrack_zoomFactorValue _ _
  · rfl

@[simp]
theorem loadThirdPartyCookiesPolicy_zoomFactorValue (root : QJsonObject) (s : CustomizationEngine) :
    (loadThirdPartyCookiesPolicy root s).webView.zoomFactor = s.webView.zoomFactor := by
  unfold loadThirdPartyCookiesPolicy
  split
  · exact setThirdPartyCookiesPolicy_zoomFactorValue _ _
  · rfl

/-! ## The theme registry -/

theorem removeCustomTheme_light (s : CustomizationEngine) : removeCustomTheme "Light" s = s := by
  simp [removeCustomTheme]

theorem removeCustomTheme_dark (s : CustomizationEngine) : removeCustomTheme "Dark" s = s := by
  simp [removeCustomTheme]

theorem mem_availableThemes_initializeDefaultThemes (s : CustomizationEngine) :
    "Light" ∈ availableThemes (initializeDefaultThemes s) ∧
      "Dark" ∈ availableThemes (initializeDefaultThemes s) := by
  simp [availableThemes, initializeDefaultThemes, QMap.mem_keys_insert]

/-- One call keeps a built-in theme name in the registry. -/
theorem mem_availableThemes_run (c : ThemeCall) (s : CustomizationEngine) (name : String)
    (hname : name = "Light" ∨ name = "Dark") (h : name ∈ availableThemes s) :
    name ∈ availableThemes (c.run s) := by
  cases c with
  | createCustomTheme n bg text accent font =>
    simp only [ThemeCall.run, availableThemes, createCustomTheme, QMap.mem_keys_insert]
    exact Or.inr h
  | removeCustomTheme n =>
    simp only [ThemeCall.run, availableThemes, removeCustomTheme]
    split
    · rename_i hc
      simp only [Bool.and_eq_true, bne_iff_ne, ne_eq] at hc
      rw [QMap.mem_keys_remove]
      refine ⟨?_, h⟩
      rcases hname with rfl | rfl
      · exact fun e => hc.1.2 e.symm
      · exact fun e => hc.2 e.symm
    · exact h
  | applyTheme n =>
    simpa [ThemeCall.run, availableThemes] using h
  | resetToDefaultSettings =>
    simpa [ThemeCall.run, availableThemes] using h

/-- A sequence of calls keeps a built-in theme name in the registry. -/
theorem mem_availableThemes_runCalls (calls : List ThemeCall) (s : CustomizationEngine)
    (name : String) (hname : name = "Light" ∨ name = "Dark") (h : name ∈ availableThemes s) :
    name ∈ availableThemes (runCalls calls s) := by
  induction calls generalizing s with
  | nil => exact h
  | cons c rest ih => exact ih (c.run s) (mem_availableThemes_run c s name hname h)

/-- C1: `removeCustomTheme("Light")` and `removeCustomTheme("Dark")` return the
engine state they were given, every field included, so `availableThemes()` is the
same list as before; and in every state reached from `initializeDefaultThemes` by
registry and theme calls, that list contains both "Light" and "Dark" after either
removal. -/
theorem removeCustomTheme_builtin_noop (s s0 : CustomizationEngine) (calls : List ThemeCall) :
    removeCustomTheme "Light" s = s ∧ removeCustomTheme "Dark" s = s ∧
    availableThemes (removeCustomTheme "Light" s) = availableThemes s ∧
    availableThemes (removeCustomTheme "Dark" s) = availableThemes s ∧
    "Light" ∈ availableThemes
      (removeCustomTheme "Light" (runCalls calls (initializeDefaultThemes s0))) ∧
    "Dark" ∈ availableThemes
      (removeCustomTheme "Light" (runCalls calls (initializeDefaultThemes s0))) ∧
    "Light" ∈ availableThemes
      (removeCustomTheme "Dark" (runCalls calls (initializeDefaultThemes s0))) ∧
    "Dark" ∈ availableThemes
      (removeCustomTheme "Dark" (runCalls calls (initializeDefaultThemes s0))) := by
  have hl := mem_availableThemes_runCalls calls _ "Light" (Or.inl rfl)
    (mem_availableThemes_initializeDefaultThemes s0).1
  have hd := mem_availableThemes_runCalls calls _ "Dark" (Or.inr rfl)
    (mem_availableThemes_initializeDefaultThemes s0).2
  simp only [removeCustomTheme_light, removeCustomTheme_dark]
  exact ⟨trivial, trivial, trivial, trivial, hl, hd, hl, hd⟩

/-- C2: starting from the state built by `initializeDefaultThemes`, after every
finite sequence of `createCustomTheme`, `removeCustomTheme`, `applyTheme` and
`resetToDefaultSettings` calls with arbitrary arguments, `availableThemes()`
contains both "Light" and "Dark". -/
theorem availableThemes_always_has_builtins (s0 : CustomizationEngine)
    (calls : List ThemeCall) :
    "Light" ∈ availableThemes (runCalls calls (initializeDefaultThemes s0)) ∧
      "Dark" ∈ availableThemes (runCalls calls (initializeDefaultThemes s0)) :=
  ⟨mem_availableThemes_runCalls calls _ "Light" (Or.inl rfl)
      (mem_availableThemes_initializeDefaultThemes s0).1,
    mem_availableThemes_runCalls calls _ "Dark" (Or.inr rfl)
      (mem_availableThemes_initializeDefaultThemes s0).2⟩

/-- C3: for a theme name that is not a key of the theme registry, `applyTheme`
returns the state it was given with one more diagnostic ("theme not found"):
window, application palette and font, web view, file system, the three maps
and the log of emitted signals are unchanged, so no `themeChanged` is emitted. -/
theorem applyTheme_missing (themeName : String) (s : CustomizationEngine)
    (h : QMap.contains s.m_themes themeName = false) :
    applyTheme themeName s =
        { s with diagnostics := s.diagnostics ++ [Diagnostic.themeNotFound themeName] } ∧
      (applyTheme themeName s).emitted = s.emitted ∧
      (applyTheme themeName s).mainWindow = s.mainWindow ∧
      (applyTheme themeName s).appPalette = s.appPalette ∧
      (applyTheme themeName s).appFont = s.appFont ∧
      (applyTheme themeName s).webView = s.webView ∧
      (applyTheme themeName s).m_themes = s.m_themes ∧
      (applyTheme themeName s).m_customCSS = s.m_customCSS ∧
      (applyTheme themeName s).m_keyboardShortcuts = s.m_keyboardShortcuts ∧
      (applyTheme themeName s).fs = s.fs := by
  have hv : QMap.value s.m_themes themeName = none := by
    simpa [QMap.contains] using h
  have heq : applyTheme themeName s =
      { s with diagnostics := s.diagnostics ++ [Diagnostic.themeNotFound themeName] } := by
    simp [applyTheme, hv, warn]
  rw [heq]
  exact ⟨rfl, rfl, rfl, rfl, rfl, rfl, rfl, rfl, rfl, rfl⟩

/-- Witness for C3 on the sample engine and the name "Nonexistent". -/
theorem applyTheme_missing_witness :
    QMap.contains sampleEngine.m_themes "Nonexistent" = false ∧
      (applyTheme "Nonexistent" sampleEngine).emitted = sampleEngine.emitted ∧
      (applyTheme "Nonexistent" sampleEngine).appFont = sampleEngine.appFont :=
  ⟨by decide, (applyTheme_missing "Nonexistent" sampleEngine (by decide)).2.1,
    (applyTheme_missing "Nonexistent" sampleEngine (by decide)).2.2.2.2.1⟩

/-! ## What `saveSettingsToJson` writes -/

theorem saveRoot_currentTheme (s : CustomizationEngine) :
    QMap.value (saveRoot s) "currentTheme" = some (QJsonValue.string (if (QMap.keys s.m_themes).contains (s.mainWindow.currentTheme.getD "") then
        s.mainWindow.currentTheme.getD "" else "Light")) := by
  obtain ⟨⟨pal, font, ⟨w, isMain, tab, tool, sb, side, ct, cs⟩, wv, fs, diag⟩, th, css, ks, em⟩ := s
  cases tab <;> cases isMain <;> cases tool <;> cases side <;>
    simp [saveRoot, QMap.value_insert_of_ne, QMap.value_insert_self]

theorem saveRoot_minimumFontSize (s : CustomizationEngine) :
    QMap.value (saveRoot s) "minimumFontSize" = some (QJsonValue.ofInt s.webView.minimumFontSize) := by
  obtain ⟨⟨pal, font, ⟨w, isMain, tab, tool, sb, side, ct, cs⟩, wv, fs, diag⟩, th, css, ks, em⟩ := s
  cases tab <;> cases isMain <;> cases tool <;> cases side <;>
    simp [saveRoot, QMap.value_insert_of_ne, QMap.value_insert_self]

theorem saveRoot_extensions (s : CustomizationEngine) :
    QMap.value (saveRoot s) "extensions" = some (QJsonValue.array []) := by
  obtain ⟨⟨pal, font, ⟨w, isMain, tab, tool, sb, side, ct, cs⟩, wv, fs, diag⟩, th, css, ks, em⟩ := s
  cases tab <;> cases isMain <;> cases tool <;> cases side <;>
    simp [saveRoot, QMap.value_insert_of_ne, QMap.value_insert_self]

theorem saveRoot_customCSS (s : CustomizationEngine) :
    QMap.value (saveRoot s) "customCSS" = some (QJsonValue.object
        (s.m_customCSS.foldl (fun obj e => QMap.insert e.1 (QJsonValue.string e.2) obj) [])) := by
  obtain ⟨⟨pal, font, ⟨w, isMain, tab, tool, sb, side, ct, cs⟩, wv, fs, diag⟩, th, css, ks, em⟩ := s
  cases tab <;> cases isMain <;> cases tool <;> cases side <;>
    simp [saveRoot, QMap.value_insert_of_ne, QMap.value_insert_self]

theorem writtenDocument_saveCustomization (s : CustomizationEngine) :
    writtenDocument (saveCustomization s) =
      if canWrite s.fs "customization.json" then some (saveRoot s) else writtenDocument s := by
  unfold saveCustomization saveSettingsToJson
  split
  · simp [writtenDocument, writeFile, QMap.value_insert_self]
  · rfl

theorem readFile_saveCustomization (s : CustomizationEngine)
    (hw : canWrite s.fs "customization.json" = true)
    (hr : s.fs.unreadable.contains "customization.json" = false) :
    readFile (saveCustomization s).fs "customization.json" =
      some (FileContent.json (QJsonValue.object (saveRoot s))) := by
  unfold saveCustomization saveSettingsToJson
  rw [if_pos hw]
  have hr2 : "customization.json" ∉ s.fs.unreadable := by simpa using hr
  simp [readFile, writeFile, hr2, QMap.value_insert_self]

theorem create_of_readFile (host : Host) (root : QJsonObject)
    (hf : readFile host.fs "customization.json" =
      some (FileContent.json (QJsonValue.object root))) :
    create host = loadRoot root (initializeDefaultThemes (newEngine host)) := by
  have hfs : (initializeDefaultThemes (newEngine host)).fs = host.fs := rfl
  unfold create loadCustomization loadSettingsFromJson
  rw [hfs, hf]

theorem toInt_ofInt (n : Int) (hn : isInt32 n) : (QJsonValue.ofInt n).toInt = n := by
  simp [QJsonValue.ofInt, QJsonValue.toInt, hn]

/-! ## Saving and reloading single settings -/

theorem applyTheme_currentTheme (themeName : String) (s : CustomizationEngine) :
    (applyTheme themeName s).mainWindow.currentTheme = s.mainWindow.currentTheme := by
  unfold applyTheme
  split <;> rfl

/-- C4 (the code at the failing input): `applyTheme` never changes the
`currentTheme` that `saveSettingsToJson` writes, because it does not set the
window property the save reads. On the engine constructed on the sample window,
`applyTheme("Dark")` followed by save writes `currentTheme == "Light"`, and an
engine constructed on that file applies "Light": its first signal is
`themeChanged("Light")` and its application palette has the white window colour
of the "Light" theme. -/
theorem applyTheme_not_saved (themeName : String) (s : CustomizationEngine) :
    QMap.value (saveRoot (applyTheme themeName s)) "currentTheme" =
        QMap.value (saveRoot s) "currentTheme" ∧
      (writtenDocument (saveCustomization (applyTheme "Dark" sampleEngine))).map
          (fun root => QJsonObject.get root "currentTheme") =
        some (QJsonValue.string "Light") ∧
      (create { sampleHost with
          fs := (saveCustomization (applyTheme "Dark" sampleEngine)).fs }).emitted.head? =
        some (Signal.themeChanged "Light") ∧
      (create { sampleHost with
          fs := (saveCustomization (applyTheme "Dark" sampleEngine)).fs }).appPalette.window =
        PaletteColor.plain ⟨255, 255, 255⟩ := by
  refine ⟨?_, rfl, rfl, rfl⟩
  rw [saveRoot_currentTheme, saveRoot_currentTheme, applyTheme_currentTheme,
    applyTheme_m_themes]

theorem loadRoot_minimumFontSize (root : QJsonObject) (s : CustomizationEngine) :
    (loadRoot root s).webView.minimumFontSize =
      if QJsonObject.contains root "minimumFontSize" then
        (QJsonObject.get root "minimumFontSize").toInt
      else s.webView.minimumFontSize := by
  simp only [loadRoot, loadThirdPartyCookiesPolicy_minimumFontSize,
    loadDoNotTrack_minimumFontSize, loadKeyboardShortcuts_minimumFontSize,
    loadUserScripts_minimumFontSize, loadExtensions_minimumFontSize,
    loadColorScheme_minimumFontSize]
  unfold loadMinimumFontSize
  split
  · rfl
  · simp

/-- C5: for every `int` n, after `setMinimumFontSize(n)` and a save that can open
the settings file, the written document has `minimumFontSize == n`, and an
engine constructed on any toolkit state holding that (readable) file has the
page's minimum font size set to n. -/
theorem setMinimumFontSize_roundtrip (n : Int) (s : CustomizationEngine) (host : Host)
    (hn : isInt32 n) (hw : canWrite s.fs "customization.json" = true)
    (hr : s.fs.unreadable.contains "customization.json" = false) :
    (writtenDocument (saveCustomization (setMinimumFontSize n s))).map
        (fun root => QJsonObject.get root "minimumFontSize") = some (QJsonValue.ofInt n) ∧
      (create { host with
        fs := (saveCustomization (setMinimumFontSize n s)).fs }).webView.minimumFontSize = n := by
  have hw2 : canWrite (setMinimumFontSize n s).fs "customization.json" = true := hw
  have hr2 : (setMinimumFontSize n s).fs.unreadable.contains "customization.json" = false := hr
  have hv : QMap.value (saveRoot (setMinimumFontSize n s)) "minimumFontSize" =
      some (QJsonValue.ofInt n) := saveRoot_minimumFontSize _
  constructor
  · rw [writtenDocument_saveCustomization, if_pos hw2]
    simp [QJsonObject.get, hv]
  · have hf : readFile ({ host with
          fs := (saveCustomization (setMinimumFontSize n s)).fs } : Host).fs
        "customization.json" = _ := readFile_saveCustomization _ hw2 hr2
    rw [create_of_readFile _ _ hf, loadRoot_minimumFontSize]
    simp [QJsonObject.contains, QMap.contains, QJsonObject.get, hv, toInt_ofInt n hn]

/-- Witness for C5 at n = 8 on the sample engine. -/
theorem setMinimumFontSize_roundtrip_witness :
    isInt32 8 ∧
      (create { sampleHost with
        fs := (saveCustomization (setMinimumFontSize 8 sampleEngine)).fs
        }).webView.minimumFontSize = 8 :=
  ⟨by decide,
    (setMinimumFontSize_roundtrip 8 sampleEngine sampleHost (by decide) (by decide)
      (by decide)).2⟩

/-- C7: the document `saveSettingsToJson` builds has `extensions` equal to the
empty list in every engine state: also after loading any document (whatever its
`extensions` member holds) and after `installExtension`, `uninstallExtension`
or `enableExtension`; and that document is what a successful save leaves in
the settings file. -/
theorem save_extensions_empty (s : CustomizationEngine) (root : QJsonObject)
    (extensionPath extensionId : String) (enable : Bool) :
    QMap.value (saveRoot s) "extensions" = some (QJsonValue.array []) ∧
      QMap.value (saveRoot (loadRoot root s)) "extensions" = some (QJsonValue.array []) ∧
      QMap.value (saveRoot (installExtension extensionPath s)) "extensions" =
        some (QJsonValue.array []) ∧
      QMap.value (saveRoot (uninstallExtension extensionId s)) "extensions" =
        some (QJsonValue.array []) ∧
      QMap.value (saveRoot (enableExtension extensionId enable s)) "extensions" =
        some (QJsonValue.array []) ∧
      writtenDocument (saveCustomization s) =
        (if canWrite s.fs "customization.json" then some (saveRoot s)
          else writtenDocument s) :=
  ⟨saveRoot_extensions _, saveRoot_extensions _, saveRoot_extensions _, saveRoot_extensions _,
    saveRoot_extensions _, writtenDocument_saveCustomization s⟩

/-! ## The custom-CSS store -/

theorem foldl_injectCustomCSS_m_customCSS (l : List (String × QJsonValue))
    (s : CustomizationEngine) :
    (l.foldl (fun st e => injectCustomCSS e.1 e.2.toString st) s).m_customCSS =
      l.foldl (fun m e => QMap.insert e.1 e.2.toString m) s.m_customCSS := by
  induction l generalizing s with
  | nil => rfl
  | cons e rest ih =>
    simp only [List.foldl_cons]
    rw [ih]
    rfl

theorem loadRoot_m_customCSS (root : QJsonObject) (s : CustomizationEngine) :
    (loadRoot root s).m_customCSS =
      if QJsonObject.contains root "customCSS" && (QJsonObject.get root "customCSS").isObject then
        (QJsonObject.get root "customCSS").toObject.foldl
          (fun m e => QMap.insert e.1 e.2.toString m) s.m_customCSS
      else s.m_customCSS := by
  simp only [loadRoot, loadThirdPartyCookiesPolicy_m_customCSS, loadDoNotTrack_m_customCSS,
    loadKeyboardShortcuts_m_customCSS, loadUserScripts_m_customCSS, loadExtensions_m_customCSS,
    loadColorScheme_m_customCSS, loadMinimumFontSize_m_customCSS, loadGlobalFont_m_customCSS,
    loadSidebarPosition_m_customCSS, loadStatusBarVisibility_m_customCSS,
    loadToolbarPosition_m_customCSS]
  unfold loadCustomCSS
  split
  · rw [foldl_injectCustomCSS_m_customCSS]
    simp
  · simp

/-- `injectCustomCSS` keeps the custom-CSS store a well-formed map. -/
theorem injectCustomCSS_WF (url css : String) (s : CustomizationEngine)
    (hwf : QMap.WF s.m_customCSS) : QMap.WF (injectCustomCSS url css s).m_customCSS :=
  QMap.WF_insert url css s.m_customCSS hwf

/-- C6: for every engine whose custom-CSS store is a well-formed map, after a
save that can open the settings file, an engine constructed on any toolkit state
holding that (readable) file has a custom-CSS store equal to the original: the
same keys with the same CSS text. -/
theorem customCSS_roundtrip (s : CustomizationEngine) (host : Host)
    (hwf : QMap.WF s.m_customCSS) (hw : canWrite s.fs "customization.json" = true)
    (hr : s.fs.unreadable.contains "customization.json" = false) :
    (create { host with fs := (saveCustomization s).fs }).m_customCSS = s.m_customCSS := by
  have hf : readFile ({ host with fs := (saveCustomization s).fs } : Host).fs
      "customization.json" = _ := readFile_saveCustomization _ hw hr
  have hobj : s.m_customCSS.foldl (fun obj e => QMap.insert e.1 (QJsonValue.string e.2) obj) [] =
      s.m_customCSS.map (fun e => (e.1, QJsonValue.string e.2)) := by
    have := QMap.foldl_insert_of_WF (fun v => QJsonValue.string v) s.m_customCSS []
      (by simp [QMap.keys]) hwf
    simpa using this
  have hnew : (initializeDefaultThemes (newEngine
      { host with fs := (saveCustomization s).fs })).m_customCSS = [] := rfl
  rw [create_of_readFile _ _ hf, loadRoot_m_customCSS, hnew]
  simp only [QJsonObject.contains, QMap.contains, QJsonObject.get, saveRoot_customCSS, hobj,
    Option.isSome_some, Option.getD_some, QJsonValue.isObject, QJsonValue.toObject,
    Bool.and_self, if_true, List.foldl_map, QJsonValue.toString]
  exact QMap.foldl_insert_self s.m_customCSS hwf

/-- Witness for C6: a store with two entries survives save and reload. -/
theorem customCSS_roundtrip_witness :
    QMap.WF (injectCustomCSS "b.org" "p \x7b margin: 0 \x7d"
        (injectCustomCSS "a.com" "body \x7b color: red \x7d" sampleEngine)).m_customCSS ∧
      (create { sampleHost with fs := (saveCustomization
          (injectCustomCSS "b.org" "p \x7b margin: 0 \x7d"
            (injectCustomCSS "a.com" "body \x7b color: red \x7d" sampleEngine))).fs
        }).m_customCSS =
        [("a.com", "body \x7b color: red \x7d"), ("b.org", "p \x7b margin: 0 \x7d")] :=
  ⟨by decide,
    customCSS_roundtrip
      (injectCustomCSS "b.org" "p \x7b margin: 0 \x7d"
        (injectCustomCSS "a.com" "body \x7b color: red \x7d" sampleEngine))
      sampleHost (by decide) (by decide) (by decide)⟩

/-! ## Calling a setter twice -/

/-- C8: for each of the ten setters, calling it twice in succession with the same
argument leaves the three maps and the whole toolkit state (window, application,
web view with its settings and profile, files, diagnostics) equal to calling it
once; only the log of emitted signals grows. -/
theorem setters_idempotent (s : CustomizationEngine) (visible : Bool)
    (orientation : TabOrientation) (toolbarArea sidebarArea : Int) (font : QFont) (size : Int)
    (schemeName actionName shortcut : String) (enable : Bool) (policy : Int) :
    sameState (setStatusBarVisibility visible (setStatusBarVisibility visible s))
        (setStatusBarVisibility visible s) ∧
      sameState (setTabOrientation orientation (setTabOrientation orientation s))
        (setTabOrientation orientation s) ∧
      sameState (setToolbarPosition toolbarArea (setToolbarPosition toolbarArea s))
        (setToolbarPosition toolbarArea s) ∧
      sameState (setSidebarPosition sidebarArea (setSidebarPosition sidebarArea s))
        (setSidebarPosition sidebarArea s) ∧
      sameState (setGlobalFont font (setGlobalFont font s)) (setGlobalFont font s) ∧
      sameState (setMinimumFontSize size (setMinimumFontSize size s))
        (setMinimumFontSize size s) ∧
      sameState (setColorScheme schemeName (setColorScheme schemeName s))
        (setColorScheme schemeName s) ∧
      sameState (setKeyboardShortcut actionName shortcut
          (setKeyboardShortcut actionName shortcut s))
        (setKeyboardShortcut actionName shortcut s) ∧
      sameState (setDoNotTrack enable (setDoNotTrack enable s)) (setDoNotTrack enable s) ∧
      sameState (setThirdPartyCookiesPolicy policy (setThirdPartyCookiesPolicy policy s))
        (setThirdPartyCookiesPolicy policy s) := by
  obtain ⟨⟨pal, fnt, ⟨w, isMain, tab, tool, sb, side, ct, cs⟩, wv, fs, diag⟩, th, css, ks, em⟩ := s
  refine ⟨?_, ?_, ?_, ?_, ?_, ?_, ?_, ?_, ?_, ?_⟩
  · cases isMain <;> exact ⟨rfl, rfl, rfl, rfl⟩
  · cases tab <;> exact ⟨rfl, rfl, rfl, rfl⟩
  · cases isMain <;> cases tool <;> exact ⟨rfl, rfl, rfl, rfl⟩
  · cases isMain <;> cases side <;> exact ⟨rfl, rfl, rfl, rfl⟩
  · exact ⟨rfl, rfl, rfl, rfl⟩
  · exact ⟨rfl, rfl, rfl, rfl⟩
  · exact ⟨rfl, rfl, rfl, rfl⟩
  · exact ⟨rfl, rfl, rfl, QMap.insert_insert actionName shortcut shortcut ks⟩
  · exact ⟨rfl, rfl, rfl, rfl⟩
  · exact ⟨rfl, rfl, rfl, rfl⟩

/-! ## Injecting custom CSS twice for one URL key -/

/-- C9 (counterexample): after `injectCustomCSS("u", "a")` and then
`injectCustomCSS("u", "b")` on the sample engine, the page's script collection
holds two snippets named `CustomCSS_u`, the one generated from "a" and the one
generated from "b": not exactly one. -/
theorem reinjection_keeps_both_snippets :
    scriptsNamed "CustomCSS_u" (injectCustomCSS "u" "b" (injectCustomCSS "u" "a" sampleEngine)) =
        [customCssScript "u" "a", customCssScript "u" "b"] ∧
      scriptsNamed "CustomCSS_u"
          (injectCustomCSS "u" "b" (injectCustomCSS "u" "a" sampleEngine)) ≠
        [customCssScript "u" "b"] ∧
      (scriptsNamed "CustomCSS_u"
          (injectCustomCSS "u" "b" (injectCustomCSS "u" "a" sampleEngine))).length ≠ 1 := by
  decide

/-- C9 (amended): when the custom-CSS store is a well-formed map, after
`injectCustomCSS(u, c1)` followed by `injectCustomCSS(u, c2)` the store holds
exactly one entry for `u`, with text `c2`, and the page's script collection is
the previous collection followed by the snippet generated from `c1` and then the
snippet generated from `c2`: the store entry is replaced, the snippet is added. -/
theorem injectCustomCSS_twice (url c1 c2 : String) (s : CustomizationEngine)
    (hwf : QMap.WF s.m_customCSS) :
    (injectCustomCSS url c2 (injectCustomCSS url c1 s)).m_customCSS.filter
        (fun e => e.1 == url) = [(url, c2)] ∧
      QMap.value (injectCustomCSS url c2 (injectCustomCSS url c1 s)).m_customCSS url = some c2 ∧
      (injectCustomCSS url c2 (injectCustomCSS url c1 s)).webView.scripts =
        s.webView.scripts ++ [customCssScript url c1, customCssScript url c2] ∧
      (customCssScript url c1).name = "CustomCSS_" ++ url ∧
      (customCssScript url c2).name = "CustomCSS_" ++ url := by
  have hstore : (injectCustomCSS url c2 (injectCustomCSS url c1 s)).m_customCSS =
      QMap.insert url c2 s.m_customCSS := QMap.insert_insert url c1 c2 s.m_customCSS
  refine ⟨?_, ?_, ?_, rfl, rfl⟩
  · rw [hstore]
    exact QMap.filter_key_insert url c2 s.m_customCSS hwf
  · rw [hstore]
    exact QMap.value_insert_self url c2 s.m_customCSS
  · simp [injectCustomCSS, insertScript, emit]

/-- Witness for C9 (amended) on a store that already holds another key. -/
theorem injectCustomCSS_twice_witness :
    QMap.WF (injectCustomCSS "a.com" "p \x7b \x7d" sampleEngine).m_customCSS ∧
      (injectCustomCSS "u" "b" (injectCustomCSS "u" "a"
          (injectCustomCSS "a.com" "p \x7b \x7d" sampleEngine))).m_customCSS.filter
        (fun e => e.1 == "u") = [("u", "b")] :=
  ⟨by decide,
    (injectCustomCSS_twice "u" "a" "b" (injectCustomCSS "a.com" "p \x7b \x7d" sampleEngine)
      (by decide)).1⟩

/-! ## Unknown keys in a loaded document -/

theorem root_contains_insert_of_ne {key key2 : String} (v : QJsonValue) (root : QJsonObject)
    (h : key2 ≠ key) :
    QJsonObject.contains (QMap.insert key v root) key2 = QJsonObject.contains root key2 :=
  QMap.contains_insert_of_ne v root h

theorem root_get_insert_of_ne {key key2 : String} (v : QJsonValue) (root : QJsonObject)
    (h : key2 ≠ key) :
    QJsonObject.get (QMap.insert key v root) key2 = QJsonObject.get root key2 := by
  simp [QJsonObject.get, QMap.value_insert_of_ne v root h]

theorem loadTheme_insert_of_ne (key : String) (v : QJsonValue) (root : QJsonObject)
    (s : CustomizationEngine) (h : "currentTheme" ≠ key) :
    loadTheme (QMap.insert key v root) s = loadTheme root s := by
  unfold loadTheme
  rw [root_contains_insert_of_ne v root h, root_get_insert_of_ne v root h]

theorem loadTabOrientation_insert_of_ne (key : String) (v : QJsonValue) (root : QJsonObject)
    (s : CustomizationEngine) (h : "tabOrientation" ≠ key) :
    loadTabOrientation (QMap.insert key v root) s = loadTabOrientation root s := by
  unfold loadTabOrientation
  rw [root_contains_insert_of_ne v root h, root_get_insert_of_ne v root h]

theorem loadCustomCSS_insert_of_ne (key : String) (v : QJsonValue) (root : QJsonObject)
    (s : CustomizationEngine) (h : "customCSS" ≠ key) :
    loadCustomCSS (QMap.insert key v root) s = loadCustomCSS root s := by
  unfold loadCustomCSS
  rw [root_contains_insert_of_ne v root h, root_get_insert_of_ne v root h]

theorem loadToolbarPosition_insert_of_ne (key : String) (v : QJsonValue) (root : QJsonObject)
    (s : CustomizationEngine) (h : "toolbarPosition" ≠ key) :
    loadToolbarPosition (QMap.insert key v root) s = loadToolbarPosition root s := by
  unfold loadToolbarPosition
  rw [root_contains_insert_of_ne v root h, root_get_insert_of_ne v root h]

theorem loadStatusBarVisibility_insert_of_ne (key : String) (v : QJsonValue) (root : QJsonObject)
    (s : CustomizationEngine) (h : "statusBarVisible" ≠ key) :
    loadStatusBarVisibility (QMap.insert key v root) s = loadStatusBarVisibility root s := by
  unfold loadStatusBarVisibility
  rw [root_contains_insert_of_ne v root h, root_get_insert_of_ne v root h]

theorem loadSidebarPosition_insert_of_ne (key : String) (v : QJsonValue) (root : QJsonObject)
    (s : CustomizationEngine) (h : "sidebarPosition" ≠ key) :
    loadSidebarPosition (QMap.insert key v root) s = loadSidebarPosition root s := by
  unfold loadSidebarPosition
  rw [root_contains_insert_of_ne v root h, root_get_insert_of_ne v root h]

theorem loadGlobalFont_insert_of_ne (key : String) (v : QJsonValue) (root : QJsonObject)
    (s : CustomizationEngine) (h : "globalFont" ≠ key) :
    loadGlobalFont (QMap.insert key v root) s = loadGlobalFont root s := by
  unfold loadGlobalFont
  rw [root_contains_insert_of_ne v root h, root_get_insert_of_ne v root h]

theorem loadMinimumFontSize_insert_of_ne (key : String) (v : QJsonValue) (root : QJsonObject)
    (s : CustomizationEngine) (h : "minimumFontSize" ≠ key) :
    loadMinimumFontSize (QMap.insert key v root) s = loadMinimumFontSize root s := by
  unfold loadMinimumFontSize
  rw [root_contains_insert_of_ne v root h, root_get_insert_of_ne v root h]

theorem loadColorScheme_insert_of_ne (key : String) (v : QJsonValue) (root : QJsonObject)
    (s : CustomizationEngine) (h : "colorScheme" ≠ key) :
    loadColorScheme (QMap.insert key v root) s = loadColorScheme root s := by
  unfold loadColorScheme
  rw [root_contains_insert_of_ne v root h, root_get_insert_of_ne v root h]

theorem loadExtensions_insert_of_ne (key : String) (v : QJsonValue) (root : QJsonObject)
    (s : CustomizationEngine) (h : "extensions" ≠ key) :
    loadExtensions (QMap.insert key v root) s = loadExtensions root s := by
  unfold loadExtensions
  rw [root_contains_insert_of_ne v root h, root_get_insert_of_ne v root h]

theorem loadUserScripts_insert_of_ne (key : String) (v : QJsonValue) (root : QJsonObject)
    (s : CustomizationEngine) (h : "userScripts" ≠ key) :
    loadUserScripts (QMap.insert key v root) s = loadUserScripts root s := by
  unfold loadUserScripts
  rw [root_contains_insert_of_ne v root h, root_get_insert_of_ne v root h]

theorem loadKeyboardShortcuts_insert_of_ne (key : String) (v : QJsonValue) (root : QJsonObject)
    (s : CustomizationEngine) (h : "keyboardShortcuts" ≠ key) :
    loadKeyboardShortcuts (QMap.insert key v root) s = loadKeyboardShortcuts root s := by
  unfold loadKeyboardShortcuts
  rw [root_contains_insert_of_ne v root h, root_get_insert_of_ne v root h]

theorem loadDoNotTrack_insert_of_ne (key : String) (v : QJsonValue) (root : QJsonObject)
    (s : CustomizationEngine) (h : "doNotTrack" ≠ key) :
    loadDoNotTrack (QMap.insert key v root) s = loadDoNotTrack root s := by
  unfold loadDoNotTrack
  rw [root_contains_insert_of_ne v root h, root_get_insert_of_ne v root h]

theorem loadThirdPartyCookiesPolicy_insert_of_ne (key : String) (v : QJsonValue) (root : QJsonObject)
    (s : CustomizationEngine) (h : "thirdPartyCookiesPolicy" ≠ key) :
    loadThirdPartyCookiesPolicy (QMap.insert key v root) s = loadThirdPartyCookiesPolicy root s := by
  unfold loadThirdPartyCookiesPolicy
  rw [root_contains_insert_of_ne v root h, root_get_insert_of_ne v root h]

theorem loadRoot_insert_of_not_recognized (key : String) (v : QJsonValue) (root : QJsonObject)
    (s : CustomizationEngine) (hk : key ∉ recognizedKeys) :
    loadRoot (QMap.insert key v root) s = loadRoot root s := by
  simp only [recognizedKeys, List.mem_cons, List.mem_singleton, List.not_mem_nil, or_false,
    not_or] at hk
  obtain ⟨h1, h2, h3, h4, h5, h6, h7, h8, h9, h10, h11, h12, h13, h14⟩ := hk
  simp only [loadRoot]
  rw [loadTheme_insert_of_ne key v root _ (Ne.symm h1),
    loadTabOrientation_insert_of_ne key v root _ (Ne.symm h2),
    loadCustomCSS_insert_of_ne key v root _ (Ne.symm h3),
    loadToolbarPosition_insert_of_ne key v root _ (Ne.symm h4),
    loadStatusBarVisibility_insert_of_ne key v root _ (Ne.symm h5),
    loadSidebarPosition_insert_of_ne key v root _ (Ne.symm h6),
    loadGlobalFont_insert_of_ne key v root _ (Ne.symm h7),
    loadMinimumFontSize_insert_of_ne key v root _ (Ne.symm h8),
    loadColorScheme_insert_of_ne key v root _ (Ne.symm h9),
    loadExtensions_insert_of_ne key v root _ (Ne.symm h10),
    loadUserScripts_insert_of_ne key v root _ (Ne.symm h11),
    loadKeyboardShortcuts_insert_of_ne key v root _ (Ne.symm h12),
    loadDoNotTrack_insert_of_ne key v root _ (Ne.symm h13),
    loadThirdPartyCookiesPolicy_insert_of_ne key v root _ (Ne.symm h14)]

/-- C10: for every settings document `root` (a JSON object), every prior state,
every key that is not one of the fourteen recognized top-level keys and every
JSON value, applying `root` extended with that key yields exactly the state that
applying `root` yields; so loading a file that holds the extended document gives
the same state as loading a file that holds `root`. -/
theorem load_ignores_unknown_key (s : CustomizationEngine) (root : QJsonObject) (key : String)
    (v : QJsonValue) (fileA fileB : String) (hk : key ∉ recognizedKeys)
    (ha : readFile s.fs fileA = some (FileContent.json (QJsonValue.object root)))
    (hb : readFile s.fs fileB =
      some (FileContent.json (QJsonValue.object (QMap.insert key v root)))) :
    loadRoot (QMap.insert key v root) s = loadRoot root s ∧
      loadSettingsFromJson fileB s = loadSettingsFromJson fileA s := by
  refine ⟨loadRoot_insert_of_not_recognized key v root s hk, ?_⟩
  unfold loadSettingsFromJson
  rw [ha, hb]
  exact loadRoot_insert_of_not_recognized key v root s hk

/-- Witness for C10: the member `zzz` of `b.json` changes nothing. -/
theorem load_ignores_unknown_key_witness :
    "zzz" ∉ recognizedKeys ∧
      loadSettingsFromJson "b.json" sampleEngineWithFiles =
        loadSettingsFromJson "a.json" sampleEngineWithFiles ∧
      (loadSettingsFromJson "b.json" sampleEngineWithFiles).webView.minimumFontSize = 8 :=
  ⟨by decide,
    (load_ignores_unknown_key sampleEngineWithFiles sampleDocument "zzz"
      (QJsonValue.array [QJsonValue.null]) "a.json" "b.json" (by decide) rfl rfl).2,
    rfl⟩

/-! ## Registering and removing custom themes -/

/-- C14: for every name other than "Light" and "Dark" and every registry, after
`removeCustomTheme(name)` the registry has no entry for `name`, the remaining
entries are the previous ones other than those for `name`, in their order, so
the entry under every other name is unchanged; when `name` was absent the call
returns the state it was given; no other part of the state changes. -/
theorem removeCustomTheme_custom (name : String) (s : CustomizationEngine)
    (hl : name ≠ "Light") (hd : name ≠ "Dark") :
    QMap.value (removeCustomTheme name s).m_themes name = none ∧
      (removeCustomTheme name s).m_themes = s.m_themes.filter (fun e => e.1 != name) ∧
      (∀ other, other ≠ name →
        QMap.value (removeCustomTheme name s).m_themes other = QMap.value s.m_themes other) ∧
      (QMap.contains s.m_themes name = false → removeCustomTheme name s = s) ∧
      removeCustomTheme name s = { s with m_themes := (removeCustomTheme name s).m_themes } := by
  by_cases hc : QMap.contains s.m_themes name = true
  · have heq : removeCustomTheme name s = { s with m_themes := QMap.remove name s.m_themes } := by
      simp [removeCustomTheme, hc, hl, hd]
    rw [heq]
    refine ⟨QMap.value_remove_self name _, rfl, fun other ho => QMap.value_remove_of_ne _ ho,
      fun h => ?_, rfl⟩
    rw [hc] at h
    exact Bool.noConfusion h
  · have hc2 : QMap.contains s.m_themes name = false := by simpa using hc
    have heq : removeCustomTheme name s = s := by
      simp [removeCustomTheme, hc2]
    rw [heq]
    refine ⟨by simpa [QMap.contains] using hc2, ?_, fun _ _ => rfl, fun _ => rfl, rfl⟩
    exact (QMap.remove_of_not_contains name s.m_themes hc2).symm

/-- Witness for C14: removing the registered custom theme "Solar". -/
theorem removeCustomTheme_custom_witness :
    "Solar" ≠ "Light" ∧ "Solar" ≠ "Dark" ∧
      QMap.contains sampleEngineWithSolar.m_themes "Solar" = true ∧
      QMap.value (removeCustomTheme "Solar" sampleEngineWithSolar).m_themes "Solar" = none ∧
      availableThemes (removeCustomTheme "Solar" sampleEngineWithSolar) = ["Dark", "Light"] :=
  ⟨by decide, by decide, by decide,
    (removeCustomTheme_custom "Solar" sampleEngineWithSolar (by decide) (by decide)).1,
    by decide⟩

/-- C15: for every name ("Light" and "Dark" included), colours and font, after
`createCustomTheme(name, bg, text, accent, font)` the registry maps `name` to
exactly the record with these five values, whatever it held under `name`
before; the entry under every other name is unchanged; `availableThemes()`
contains `name`; and no other part of the state changes. -/
theorem createCustomTheme_registers (name : String) (bg text accent : QColor) (font : QFont)
    (s : CustomizationEngine) :
    QMap.value (createCustomTheme name bg text accent font s).m_themes name =
        some { name := name, backgroundColor := bg, textColor := text, accentColor := accent,
               mainFont := font } ∧
      (∀ other, other ≠ name →
        QMap.value (createCustomTheme name bg text accent font s).m_themes other =
          QMap.value s.m_themes other) ∧
      name ∈ availableThemes (createCustomTheme name bg text accent font s) ∧
      (∀ other, other ∈ availableThemes s →
        other ∈ availableThemes (createCustomTheme name bg text accent font s)) ∧
      createCustomTheme name bg text accent font s =
        { s with m_themes := (createCustomTheme name bg text accent font s).m_themes } := by
  refine ⟨QMap.value_insert_self name _ s.m_themes,
    fun other ho => QMap.value_insert_of_ne _ s.m_themes ho, ?_, fun other ho => ?_, rfl⟩
  · exact (QMap.mem_keys_insert name name _ s.m_themes).2 (Or.inl rfl)
  · exact (QMap.mem_keys_insert name other _ s.m_themes).2 (Or.inr ho)

/-! ## Failing loads and saves -/

/-- C16: for every engine state and file name, `saveSettingsToJson` leaves the
theme registry, the custom-CSS store, the shortcuts, the window, the application
palette and font, the web view (settings, profile, scripts) and the signal log
unchanged. When the file opens for writing, the file system is the previous one
with the built document written under that name and nothing is printed; when it
does not, the file system is unchanged and one warning is printed. -/
theorem save_keeps_memory (filename : String) (s : CustomizationEngine) :
    (saveSettingsToJson filename s).m_themes = s.m_themes ∧
      (saveSettingsToJson filename s).m_customCSS = s.m_customCSS ∧
      (saveSettingsToJson filename s).m_keyboardShortcuts = s.m_keyboardShortcuts ∧
      (saveSettingsToJson filename s).mainWindow = s.mainWindow ∧
      (saveSettingsToJson filename s).appPalette = s.appPalette ∧
      (saveSettingsToJson filename s).appFont = s.appFont ∧
      (saveSettingsToJson filename s).webView = s.webView ∧
      (saveSettingsToJson filename s).emitted = s.emitted ∧
      (saveSettingsToJson filename s).fs =
        (if canWrite s.fs filename then
          writeFile s.fs filename (FileContent.json (QJsonValue.object (saveRoot s)))
        else s.fs) ∧
      (saveSettingsToJson filename s).diagnostics =
        (if canWrite s.fs filename then s.diagnostics
        else s.diagnostics ++ [Diagnostic.saveFailed filename]) := by
  unfold saveSettingsToJson
  by_cases hw : canWrite s.fs filename = true
  · simp [hw]
  · simp [hw, warn]

/-- C12: for every prior state, if the settings file cannot be opened for
reading, or its content does not parse as JSON, or it parses to a value that is
not a JSON object, then `loadSettingsFromJson` returns the state it was given
with one more warning printed: registry, custom-CSS store, shortcuts, window,
application palette and font, web view and files are unchanged, and the signal
log is unchanged, so no setter ran. -/
theorem load_failure_keeps_state (filename : String) (s : CustomizationEngine)
    (h : readFile s.fs filename = none ∨
      (∃ text, readFile s.fs filename = some (FileContent.malformed text)) ∨
      (∃ v, v.isObject = false ∧ readFile s.fs filename = some (FileContent.json v))) :
    loadSettingsFromJson filename s =
        { s with diagnostics := s.diagnostics ++
            [if (readFile s.fs filename).isNone then Diagnostic.loadFailed filename
             else Diagnostic.invalidJson filename] } ∧
      (loadSettingsFromJson filename s).emitted = s.emitted ∧
      (loadSettingsFromJson filename s).m_themes = s.m_themes ∧
      (loadSettingsFromJson filename s).m_customCSS = s.m_customCSS ∧
      (loadSettingsFromJson filename s).m_keyboardShortcuts = s.m_keyboardShortcuts ∧
      (loadSettingsFromJson filename s).mainWindow = s.mainWindow ∧
      (loadSettingsFromJson filename s).appPalette = s.appPalette ∧
      (loadSettingsFromJson filename s).appFont = s.appFont ∧
      (loadSettingsFromJson filename s).webView = s.webView ∧
      (loadSettingsFromJson filename s).fs = s.fs := by
  have heq : loadSettingsFromJson filename s =
      { s with diagnostics := s.diagnostics ++
          [if (readFile s.fs filename).isNone then Diagnostic.loadFailed filename
           else Diagnostic.invalidJson filename] } := by
    unfold loadSettingsFromJson
    rcases h with h | ⟨text, h⟩ | ⟨v, hv, h⟩
    · rw [h]; rfl
    · rw [h]; rfl
    · rw [h]
      cases v <;> first | rfl | exact Bool.noConfusion hv
  rw [heq]
  exact ⟨rfl, rfl, rfl, rfl, rfl, rfl, rfl, rfl, rfl, rfl⟩

/-- Witness for C12: a missing file, a file that does not parse, and a file
holding a JSON array. -/
theorem load_failure_keeps_state_witness :
    readFile sampleEngineBadFiles.fs "none.json" = none ∧
      (loadSettingsFromJson "none.json" sampleEngineBadFiles).emitted =
        sampleEngineBadFiles.emitted ∧
      (loadSettingsFromJson "bad.json" sampleEngineBadFiles).appFont =
        sampleEngineBadFiles.appFont ∧
      (loadSettingsFromJson "list.json" sampleEngineBadFiles).webView =
        sampleEngineBadFiles.webView :=
  ⟨rfl,
    (load_failure_keeps_state "none.json" sampleEngineBadFiles (Or.inl rfl)).2.1,
    (load_failure_keeps_state "bad.json" sampleEngineBadFiles
      (Or.inr (Or.inl ⟨_, rfl⟩))).2.2.2.2.2.2.2.1,
    (load_failure_keeps_state "list.json" sampleEngineBadFiles
      (Or.inr (Or.inr ⟨QJsonValue.array [QJsonValue.string "Dark"], rfl, rfl⟩))).2.2.2.2.2.2.2.2.1⟩

/-! ## Do-Not-Track and tab orientation through save and load -/

theorem saveRoot_doNotTrack (s : CustomizationEngine) :
    QMap.value (saveRoot s) "doNotTrack" =
      some (QJsonValue.bool (QString.contains s.webView.httpAcceptLanguage "DNT=1")) := by
  obtain ⟨⟨pal, font, ⟨w, isMain, tab, tool, sb, side, ct, cs⟩, wv, fs, diag⟩, th, css, ks, em⟩ := s
  cases tab <;> cases isMain <;> cases tool <;> cases side <;>
    simp [saveRoot, QMap.value_insert_of_ne, QMap.value_insert_self]

theorem saveRoot_tabOrientation (s : CustomizationEngine) (position : TabPosition)
    (h : s.mainWindow.tabWidget = some position) :
    QMap.value (saveRoot s) "tabOrientation" =
      some (QJsonValue.string (if position = TabPosition.West then "Vertical" else "Horizontal")) := by
  obtain ⟨⟨pal, font, ⟨w, isMain, tab, tool, sb, side, ct, cs⟩, wv, fs, diag⟩, th, css, ks, em⟩ := s
  simp only at h
  subst h
  cases isMain <;> cases tool <;> cases side <;>
    simp [saveRoot, QMap.value_insert_of_ne, QMap.value_insert_self]

theorem loadRoot_httpAcceptLanguage (root : QJsonObject) (s : CustomizationEngine) :
    (loadRoot root s).webView.httpAcceptLanguage =
      if QJsonObject.contains root "doNotTrack" then
        (if (QJsonObject.get root "doNotTrack").toBool then "DNT=1" else "")
      else s.webView.httpAcceptLanguage := by
  simp only [loadRoot, loadThirdPartyCookiesPolicy_httpAcceptLanguage]
  unfold loadDoNotTrack
  split
  · rfl
  · simp

theorem loadRoot_tabWidget (root : QJsonObject) (s : CustomizationEngine) :
    (loadRoot root s).mainWindow.tabWidget =
      if QJsonObject.contains root "tabOrientation" then
        (setTabOrientation
          (if (QJsonObject.get root "tabOrientation").toString = "Vertical"
            then TabOrientation.Vertical else TabOrientation.Horizontal) s).mainWindow.tabWidget
      else s.mainWindow.tabWidget := by
  simp only [loadRoot, loadThirdPartyCookiesPolicy_tabWidget, loadDoNotTrack_tabWidget,
    loadKeyboardShortcuts_tabWidget, loadUserScripts_tabWidget, loadExtensions_tabWidget,
    loadColorScheme_tabWidget, loadMinimumFontSize_tabWidget, loadGlobalFont_tabWidget,
    loadSidebarPosition_tabWidget, loadStatusBarVisibility_tabWidget,
    loadToolbarPosition_tabWidget, loadCustomCSS_tabWidget]
  unfold loadTabOrientation
  split
  · have h1 : (loadTheme root s).mainWindow.tabWidget = s.mainWindow.tabWidget :=
      loadTheme_tabWidget root s
    unfold setTabOrientation
    rw [h1]
    cases s.mainWindow.tabWidget <;> simp [h1, emit]
  · simp

theorem contains_dnt_set : QString.contains "DNT=1" "DNT=1" = true := by decide

theorem contains_dnt_empty : QString.contains "" "DNT=1" = false := by decide

theorem setTabOrientation_position (o : TabOrientation) (s : CustomizationEngine)
    (p : TabPosition) (h : s.mainWindow.tabWidget = some p) :
    (setTabOrientation o s).mainWindow.tabWidget =
      some (if o = TabOrientation.Vertical then TabPosition.West else TabPosition.North) := by
  unfold setTabOrientation
  rw [h]
  rfl

/-- C17: for each boolean b, after `setDoNotTrack(b)` the profile's
accept-language header is "DNT=1" when b is true and empty when b is false;
after a save that can open the settings file the written document has
`doNotTrack == b`; and an engine constructed on any toolkit state holding that
(readable) file has the header in the same state. -/
theorem setDoNotTrack_roundtrip (b : Bool) (s : CustomizationEngine) (host : Host)
    (hw : canWrite s.fs "customization.json" = true)
    (hr : s.fs.unreadable.contains "customization.json" = false) :
    (setDoNotTrack b s).webView.httpAcceptLanguage = (if b then "DNT=1" else "") ∧
      (writtenDocument (saveCustomization (setDoNotTrack b s))).map
        (fun root => QJsonObject.get root "doNotTrack") = some (QJsonValue.bool b) ∧
      (create { host with
        fs := (saveCustomization (setDoNotTrack b s)).fs }).webView.httpAcceptLanguage =
        (if b then "DNT=1" else "") := by
  have hw2 : canWrite (setDoNotTrack b s).fs "customization.json" = true := hw
  have hr2 : (setDoNotTrack b s).fs.unreadable.contains "customization.json" = false := hr
  have hv : QMap.value (saveRoot (setDoNotTrack b s)) "doNotTrack" =
      some (QJsonValue.bool b) := by
    rw [saveRoot_doNotTrack]
    cases b
    · exact congrArg (fun v => some (QJsonValue.bool v)) contains_dnt_empty
    · exact congrArg (fun v => some (QJsonValue.bool v)) contains_dnt_set
  refine ⟨rfl, ?_, ?_⟩
  · rw [writtenDocument_saveCustomization, if_pos hw2]
    simp [QJsonObject.get, hv]
  · have hf : readFile ({ host with fs := (saveCustomization (setDoNotTrack b s)).fs } : Host).fs
        "customization.json" = _ := readFile_saveCustomization _ hw2 hr2
    rw [create_of_readFile _ _ hf, loadRoot_httpAcceptLanguage]
    simp [QJsonObject.contains, QMap.contains, QJsonObject.get, hv, QJsonValue.toBool]

/-- Witness for C17 at b = true on the sample engine. -/
theorem setDoNotTrack_roundtrip_witness :
    canWrite sampleEngine.fs "customization.json" = true ∧
      (create { sampleHost with
        fs := (saveCustomization (setDoNotTrack true sampleEngine)).fs
        }).webView.httpAcceptLanguage = "DNT=1" :=
  ⟨by decide,
    (setDoNotTrack_roundtrip true sampleEngine sampleHost (by decide) (by decide)).2.2⟩

/-- C20: for each tab orientation o, when the window has a tab widget,
`setTabOrientation(o)` followed by a save that can open the settings file writes
`tabOrientation == "Vertical"` if o is Vertical and "Horizontal" otherwise; an
engine constructed on a toolkit state with a tab widget and that (readable) file
has its tabs at the position `setTabOrientation(o)` sets (West for Vertical,
North for Horizontal); and on load every `tabOrientation` value whose string is
not "Vertical" is applied as Horizontal. -/
theorem tabOrientation_roundtrip (o : TabOrientation) (s : CustomizationEngine) (host : Host)
    (htab : s.mainWindow.tabWidget.isSome = true)
    (hhost : host.mainWindow.tabWidget.isSome = true)
    (hw : canWrite s.fs "customization.json" = true)
    (hr : s.fs.unreadable.contains "customization.json" = false) :
    (writtenDocument (saveCustomization (setTabOrientation o s))).map
        (fun root => QJsonObject.get root "tabOrientation") =
        some (QJsonValue.string
          (if o = TabOrientation.Vertical then "Vertical" else "Horizontal")) ∧
      (create { host with
        fs := (saveCustomization (setTabOrientation o s)).fs }).mainWindow.tabWidget =
        some (if o = TabOrientation.Vertical then TabPosition.West else TabPosition.North) ∧
      (setTabOrientation o s).mainWindow.tabWidget =
        some (if o = TabOrientation.Vertical then TabPosition.West else TabPosition.North) ∧
      (∀ (root : QJsonObject) (st : CustomizationEngine),
        QJsonObject.contains root "tabOrientation" = true →
        (QJsonObject.get root "tabOrientation").toString ≠ "Vertical" →
        loadTabOrientation root st = setTabOrientation TabOrientation.Horizontal st) := by
  obtain ⟨p, hp⟩ := Option.isSome_iff_exists.1 htab
  obtain ⟨p2, hp2⟩ := Option.isSome_iff_exists.1 hhost
  have hset : (setTabOrientation o s).mainWindow.tabWidget =
      some (if o = TabOrientation.Vertical then TabPosition.West else TabPosition.North) :=
    setTabOrientation_position o s p hp
  have hfs : (setTabOrientation o s).fs = s.fs := by
    unfold setTabOrientation
    split <;> rfl
  have hw2 : canWrite (setTabOrientation o s).fs "customization.json" = true := by
    rw [hfs]; exact hw
  have hr2 : (setTabOrientation o s).fs.unreadable.contains "customization.json" = false := by
    rw [hfs]; exact hr
  have hv : QMap.value (saveRoot (setTabOrientation o s)) "tabOrientation" =
      some (QJsonValue.string
        (if o = TabOrientation.Vertical then "Vertical" else "Horizontal")) := by
    rw [saveRoot_tabOrientation _ _ hset]
    cases o <;> rfl
  refine ⟨?_, ?_, hset, ?_⟩
  · rw [writtenDocument_saveCustomization, if_pos hw2]
    simp [QJsonObject.get, hv]
  · have hf : readFile ({ host with fs := (saveCustomization (setTabOrientation o s)).fs } :
        Host).fs "customization.json" = _ := readFile_saveCustomization _ hw2 hr2
    have hnew : (initializeDefaultThemes (newEngine
        { host with fs := (saveCustomization (setTabOrientation o s)).fs })).mainWindow.tabWidget =
        some p2 := hp2
    rw [create_of_readFile _ _ hf, loadRoot_tabWidget]
    simp only [QJsonObject.contains, QMap.contains, QJsonObject.get, hv, Option.isSome_some,
      if_true, Option.getD_some, QJsonValue.toString]
    rw [setTabOrientation_position _ _ p2 hnew]
    cases o <;> rfl
  · intro root st hc hne
    unfold loadTabOrientation
    rw [if_pos hc, if_neg hne]

/-- Witness for C20 at o = Vertical on the sample engine and window. -/
theorem tabOrientation_roundtrip_witness :
    sampleEngine.mainWindow.tabWidget.isSome = true ∧
      (create { sampleHost with
        fs := (saveCustomization (setTabOrientation TabOrientation.Vertical sampleEngine)).fs
        }).mainWindow.tabWidget = some TabPosition.West :=
  ⟨by decide,
    (tabOrientation_roundtrip TabOrientation.Vertical sampleEngine sampleHost (by decide)
      (by decide) (by decide) (by decide)).2.1⟩

/-! ## The order of the signals a load emits -/

theorem loadTheme_of_absent (root : QJsonObject) (s : CustomizationEngine)
    (h : QJsonObject.contains root "currentTheme" = false) : loadTheme root s = s := by
  simp [loadTheme, h]

theorem loadTabOrientation_of_absent (root : QJsonObject) (s : CustomizationEngine)
    (h : QJsonObject.contains root "tabOrientation" = false) : loadTabOrientation root s = s := by
  simp [loadTabOrientation, h]

theorem loadCustomCSS_of_absent (root : QJsonObject) (s : CustomizationEngine)
    (h : QJsonObject.contains root "customCSS" = false) : loadCustomCSS root s = s := by
  simp [loadCustomCSS, h]

theorem loadToolbarPosition_of_absent (root : QJsonObject) (s : CustomizationEngine)
    (h : QJsonObject.contains root "toolbarPosition" = false) : loadToolbarPosition root s = s := by
  simp [loadToolbarPosition, h]

theorem loadStatusBarVisibility_of_absent (root : QJsonObject) (s : CustomizationEngine)
    (h : QJsonObject.contains root "statusBarVisible" = false) : loadStatusBarVisibility root s = s := by
  simp [loadStatusBarVisibility, h]

theorem loadSidebarPosition_of_absent (root : QJsonObject) (s : CustomizationEngine)
    (h : QJsonObject.contains root "sidebarPosition" = false) : loadSidebarPosition root s = s := by
  simp [loadSidebarPosition, h]

theorem loadGlobalFont_of_absent (root : QJsonObject) (s : CustomizationEngine)
    (h : QJsonObject.contains root "globalFont" = false) : loadGlobalFont root s = s := by
  simp [loadGlobalFont, h]

theorem loadMinimumFontSize_of_absent (root : QJsonObject) (s : CustomizationEngine)
    (h : QJsonObject.contains root "minimumFontSize" = false) : loadMinimumFontSize root s = s := by
  simp [loadMinimumFontSize, h]

theorem loadColorScheme_of_absent (root : QJsonObject) (s : CustomizationEngine)
    (h : QJsonObject.contains root "colorScheme" = false) : loadColorScheme root s = s := by
  simp [loadColorScheme, h]

theorem loadExtensions_of_absent (root : QJsonObject) (s : CustomizationEngine)
    (h : QJsonObject.contains root "extensions" = false) : loadExtensions root s = s := by
  simp [loadExtensions, h]

theorem loadUserScripts_of_absent (root : QJsonObject) (s : CustomizationEngine)
    (h : QJsonObject.contains root "userScripts" = false) : loadUserScripts root s = s := by
  simp [loadUserScripts, h]

theorem loadKeyboardShortcuts_of_absent (root : QJsonObject) (s : CustomizationEngine)
    (h : QJsonObject.contains root "keyboardShortcuts" = false) : loadKeyboardShortcuts root s = s := by
  simp [loadKeyboardShortcuts, h]

theorem loadDoNotTrack_of_absent (root : QJsonObject) (s : CustomizationEngine)
    (h : QJsonObject.contains root "doNotTrack" = false) : loadDoNotTrack root s = s := by
  simp [loadDoNotTrack, h]

theorem loadThirdPartyCookiesPolicy_of_absent (root : QJsonObject) (s : CustomizationEngine)
    (h : QJsonObject.contains root "thirdPartyCookiesPolicy" = false) : loadThirdPartyCookiesPolicy root s = s := by
  simp [loadThirdPartyCookiesPolicy, h]

theorem loadTheme_appFont_of_unregistered (root : QJsonObject) (s : CustomizationEngine)
    (h : QMap.contains s.m_themes (QJsonObject.get root "currentTheme").toString = false) :
    (loadTheme root s).appFont = s.appFont := by
  have hv : QMap.value s.m_themes (QJsonObject.get root "currentTheme").toString = none := by
    simpa [QMap.contains] using h
  unfold loadTheme
  split
  · simp [applyTheme, hv, warn]
  · rfl

theorem loadCustomCSS_of_empty (root : QJsonObject) (s : CustomizationEngine)
    (h : (QJsonObject.get root "customCSS").toObject = []) : loadCustomCSS root s = s := by
  unfold loadCustomCSS
  split
  · rw [h]
    rfl
  · rfl

theorem loadExtensions_eq (root : QJsonObject) (s : CustomizationEngine) :
    loadExtensions root s = s := by
  unfold loadExtensions
  split
  · exact foldl_frame (fun st => st) _ (fun _ _ => rfl) _ s
  · rfl

/-- C11 (counterexample): the document whose only member is `currentTheme:
"Dark"` has no `globalFont`, yet loading it into the sample engine changes the
application font (to the theme's Arial 12); the document whose only member is
`customCSS` has no `userScripts`, yet loading it changes the page's script
collection. -/
theorem load_changes_setting_of_missing_key :
    QJsonObject.contains themeOnlyDocument "globalFont" = false ∧
      (loadRoot themeOnlyDocument sampleEngine).appFont = QFont.ofFamilySize "Arial" 12 ∧
      (loadRoot themeOnlyDocument sampleEngine).appFont ≠ sampleEngine.appFont ∧
      QJsonObject.contains cssOnlyDocument "userScripts" = false ∧
      (loadRoot cssOnlyDocument sampleEngine).webView.scripts ≠
        sampleEngine.webView.scripts := by
  decide

/-- C11 (amended): for every document and prior state, loading a document that
lacks a recognized key leaves that key's live setting as it was: the tab
position, custom-CSS store, toolbar area, status-bar visibility, dock area,
minimum font size, shortcuts, accept-language header and third-party-cookie
policy for their keys; the window's palettes and fonts, the application palette
and the page styling for `currentTheme`; the `currentColorScheme` property for
`colorScheme`; and the extensions block never changes anything. Two settings
need one more condition: without `globalFont` the application font is unchanged
when `currentTheme` is also absent or names no registered theme, and without
`userScripts` the script collection is unchanged when `customCSS` is also absent
or has no entries. -/
theorem load_missing_key_keeps_setting (root : QJsonObject) (s : CustomizationEngine) :
    (QJsonObject.contains root "currentTheme" = false →
        (loadRoot root s).mainWindow.widget = s.mainWindow.widget ∧
        (loadRoot root s).appPalette = s.appPalette ∧
        (loadRoot root s).webView.javaScriptRun = s.webView.javaScriptRun) ∧
      (QJsonObject.contains root "tabOrientation" = false →
        (loadRoot root s).mainWindow.tabWidget = s.mainWindow.tabWidget) ∧
      (QJsonObject.contains root "customCSS" = false →
        (loadRoot root s).m_customCSS = s.m_customCSS) ∧
      (QJsonObject.contains root "toolbarPosition" = false →
        (loadRoot root s).mainWindow.toolBar = s.mainWindow.toolBar) ∧
      (QJsonObject.contains root "statusBarVisible" = false →
        (loadRoot root s).mainWindow.statusBarVisible = s.mainWindow.statusBarVisible) ∧
      (QJsonObject.contains root "sidebarPosition" = false →
        (loadRoot root s).mainWindow.sidebar = s.mainWindow.sidebar) ∧
      (QJsonObject.contains root "globalFont" = false →
        (QJsonObject.contains root "currentTheme" = false ∨
          QMap.contains s.m_themes (QJsonObject.get root "currentTheme").toString = false) →
        (loadRoot root s).appFont = s.appFont) ∧
      (QJsonObject.contains root "minimumFontSize" = false →
        (loadRoot root s).webView.minimumFontSize = s.webView.minimumFontSize) ∧
      (QJsonObject.contains root "colorScheme" = false →
        (loadRoot root s).mainWindow.currentColorScheme = s.mainWindow.currentColorScheme) ∧
      loadExtensions root s = s ∧
      (QJsonObject.contains root "userScripts" = false →
        (QJsonObject.contains root "customCSS" = false ∨
          (QJsonObject.get root "customCSS").toObject = []) →
        (loadRoot root s).webView.scripts = s.webView.scripts) ∧
      (QJsonObject.contains root "keyboardShortcuts" = false →
        (loadRoot root s).m_keyboardShortcuts = s.m_keyboardShortcuts) ∧
      (QJsonObject.contains root "doNotTrack" = false →
        (loadRoot root s).webView.httpAcceptLanguage = s.webView.httpAcceptLanguage) ∧
      (QJsonObject.contains root "thirdPartyCookiesPolicy" = false →
        (loadRoot root s).webView.thirdPartyCookiePolicy = s.webView.thirdPartyCookiePolicy) := by
  refine ⟨fun h => ⟨?_, ?_, ?_⟩, fun h => ?_, fun h => ?_, fun h => ?_, fun h => ?_, fun h => ?_,
    fun h h2 => ?_, fun h => ?_, fun h => ?_, loadExtensions_eq root s, fun h h2 => ?_,
    fun h => ?_, fun h => ?_, fun h => ?_⟩
  · simp [loadRoot, loadTheme_of_absent root _ h]
  · simp [loadRoot, loadTheme_of_absent root _ h]
  · simp [loadRoot, loadTheme_of_absent root _ h]
  · simp [loadRoot, loadTabOrientation_of_absent root _ h]
  · simp [loadRoot, loadCustomCSS_of_absent root _ h]
  · simp [loadRoot, loadToolbarPosition_of_absent root _ h]
  · simp [loadRoot, loadStatusBarVisibility_of_absent root _ h]
  · simp [loadRoot, loadSidebarPosition_of_absent root _ h]
  · rcases h2 with h2 | h2
    · simp [loadRoot, loadGlobalFont_of_absent root _ h, loadTheme_of_absent root _ h2]
    · simp [loadRoot, loadGlobalFont_of_absent root _ h,
        loadTheme_appFont_of_unregistered root s h2]
  · simp [loadRoot, loadMinimumFontSize_of_absent root _ h]
  · simp [loadRoot]
  · rcases h2 with h2 | h2
    · simp [loadRoot, loadUserScripts_of_absent root _ h, loadCustomCSS_of_absent root _ h2]
    · simp [loadRoot, loadUserScripts_of_absent root _ h, loadCustomCSS_of_empty root _ h2]
  · simp [loadRoot, loadKeyboardShortcuts_of_absent root _ h]
  · simp [loadRoot, loadDoNotTrack_of_absent root _ h]
  · simp [loadRoot, loadThirdPartyCookiesPolicy_of_absent root _ h]

/-- Witness for C11 (amended): the sample document has neither `globalFont` nor
`currentTheme`, and loading it leaves the application font as it was. -/
theorem load_missing_key_keeps_setting_witness :
    QJsonObject.contains sampleDocument "globalFont" = false ∧
      QJsonObject.contains sampleDocument "currentTheme" = false ∧
      (loadRoot sampleDocument sampleEngine).appFont = sampleEngine.appFont ∧
      (loadRoot themeOnlyDocument sampleEngine).webView.minimumFontSize =
        sampleEngine.webView.minimumFontSize :=
  ⟨by decide, by decide,
    (load_missing_key_keeps_setting sampleDocument sampleEngine).2.2.2.2.2.2.1 (by decide)
      (Or.inl (by decide)),
    (load_missing_key_keeps_setting themeOnlyDocument sampleEngine).2.2.2.2.2.2.2.1 (by decide)⟩

/-! ## User scripts -/

theorem foldl_urlPattern_fields (patterns : List String) (init : QWebEngineScript) :
    patterns.foldl (fun sc pattern => { sc with urlPattern := some pattern }) init =
      { init with urlPattern :=
          (patterns.foldl (fun sc pattern => { sc with urlPattern := some pattern })
            init).urlPattern } := by
  induction patterns generalizing init with
  | nil => rfl
  | cons p rest ih =>
    simp only [List.foldl_cons]
    rw [ih]

theorem foldl_urlPattern_last (patterns : List String) (init : QWebEngineScript) :
    (patterns.foldl (fun sc pattern => { sc with urlPattern := some pattern })
        init).urlPattern =
      match patterns.getLast? with
      | some pattern => some pattern
      | none => init.urlPattern := by
  induction patterns using List.reverseRecOn with
  | nil => rfl
  | append_singleton rest p _ =>
    simp [List.foldl_append]

/-- C24: for every name, source and list of URL patterns, `addUserScript` adds
exactly one script to the page's collection, after the scripts already there:
it carries that name and source, is injected at document-ready in the
application world with subframes enabled, and its URL pattern is the last
element of the list, or no pattern when the list is empty; the call emits
`userScriptAdded(name)` and changes nothing else. -/
theorem addUserScript_registers (name script : String) (urlPatterns : List String)
    (s : CustomizationEngine) :
    (addUserScript name script urlPatterns s).webView.scripts =
        s.webView.scripts ++
          [{ name := name, sourceCode := script,
             injectionPoint := InjectionPoint.DocumentReady,
             worldId := ScriptWorldId.ApplicationWorld, runsOnSubFrames := true,
             urlPattern := urlPatterns.getLast? }] ∧
      (addUserScript name script [] s).webView.scripts =
        s.webView.scripts ++
          [{ name := name, sourceCode := script,
             injectionPoint := InjectionPoint.DocumentReady,
             worldId := ScriptWorldId.ApplicationWorld, runsOnSubFrames := true,
             urlPattern := none }] ∧
      addUserScript name script urlPatterns s =
        { s with
          webView := { s.webView with
            scripts := (addUserScript name script urlPatterns s).webView.scripts }
          emitted := s.emitted ++ [Signal.userScriptAdded name] } := by
  have hscript : userScript name script urlPatterns =
      { name := name, sourceCode := script, injectionPoint := InjectionPoint.DocumentReady,
        worldId := ScriptWorldId.ApplicationWorld, runsOnSubFrames := true,
        urlPattern := urlPatterns.getLast? } := by
    unfold userScript
    rw [foldl_urlPattern_fields, foldl_urlPattern_last]
    cases urlPatterns.getLast? <;> rfl
  refine ⟨?_, rfl, rfl⟩
  show s.webView.scripts ++ [userScript name script urlPatterns] = _
  rw [hscript]

/-! ## Escaping of the injected CSS text -/

/-- C25 (the code at the failing input): for the CSS text made of a backslash
followed by an apostrophe, the text `injectCustomCSS` embeds in the
single-quoted literal is backslash, backslash, apostrophe: the apostrophe is
preceded by two backslashes, so it is not escaped and ends the literal. For
the text made of one apostrophe the embedded text is backslash, apostrophe,
which is escaped. -/
theorem embedded_css_quote_not_escaped :
    replaceChar apostrophe [backslash, apostrophe] [backslash, apostrophe] =
        [backslash, backslash, apostrophe] ∧
      quotesEscaped (replaceChar apostrophe [backslash, apostrophe] [backslash, apostrophe]) =
        false ∧
      quotesEscaped (replaceChar apostrophe [backslash, apostrophe] [apostrophe]) = true ∧
      (customCssScript "u" (String.mk [backslash, apostrophe])).sourceCode =
        "(function() \x7b    var style = document.createElement('style');    style.type = 'text/css';    style.innerHTML = '" ++
          String.mk [backslash, backslash, apostrophe] ++
          "';    document.head.appendChild(style);\x7d)();" :=
  ⟨by decide, by decide, by decide, rfl⟩

theorem quotesEscaped_of_no_backslash (css : List Char) (h : backslash ∉ css) :
    quotesEscaped (replaceChar apostrophe [backslash, apostrophe] css) = true := by
  unfold quotesEscaped
  induction css with
  | nil => rfl
  | cons c cs ih =>
    have hc : c ≠ backslash := fun e => h (by simp [e])
    have hcs : backslash ∉ cs := fun e => h (by simp [e])
    have hba : backslash ≠ apostrophe := by decide
    by_cases hq : c = apostrophe
    · subst hq
      simp [replaceChar, quotesEscapedFrom, hba, ih hcs]
    · simp [replaceChar, quotesEscapedFrom, hq, hc, ih hcs]

/-! ## The theme name and the scripts a save writes -/

/-- C22: in every state reached from `initializeDefaultThemes` by registry and
theme calls, and for every value of the window's `currentTheme` property, the
`currentTheme` that `saveSettingsToJson` writes is the property's value when
that is a registered theme name and "Light" otherwise, and in both cases it is
the name of a theme in the registry. -/
theorem saved_currentTheme_registered (s0 : CustomizationEngine) (calls : List ThemeCall)
    (property : Option String) :
    QMap.value
        (saveRoot (withCurrentThemeProperty property
          (runCalls calls (initializeDefaultThemes s0)))) "currentTheme" =
      some (QJsonValue.string
        (if (availableThemes (runCalls calls (initializeDefaultThemes s0))).contains
            (property.getD "") then property.getD "" else "Light")) ∧
    (if (availableThemes (runCalls calls (initializeDefaultThemes s0))).contains
        (property.getD "") then property.getD "" else "Light") ∈
      availableThemes (withCurrentThemeProperty property
        (runCalls calls (initializeDefaultThemes s0))) := by
  refine ⟨saveRoot_currentTheme _, ?_⟩
  show _ ∈ availableThemes (runCalls calls (initializeDefaultThemes s0))
  split
  · rename_i h
    simpa using h
  · exact mem_availableThemes_runCalls calls _ "Light" (Or.inl rfl)
      (mem_availableThemes_initializeDefaultThemes s0).1

theorem saveRoot_userScripts (s : CustomizationEngine) :
    QMap.value (saveRoot s) "userScripts" =
      some (QJsonValue.array
        ((s.webView.scripts.filter
          (fun sc => sc.worldId == ScriptWorldId.ApplicationWorld)).map scriptObject)) := by
  obtain ⟨⟨pal, font, ⟨w, isMain, tab, tool, sb, side, ct, cs⟩, wv, fs, diag⟩, th, css, ks, em⟩ := s
  cases tab <;> cases isMain <;> cases tool <;> cases side <;>
    simp [saveRoot, QMap.value_insert_of_ne, QMap.value_insert_self]

theorem saveRoot_keyboardShortcuts (s : CustomizationEngine) :
    QMap.value (saveRoot s) "keyboardShortcuts" =
      some (QJsonValue.object
        (s.m_keyboardShortcuts.foldl
          (fun obj e => QMap.insert e.1 (QJsonValue.string e.2) obj) [])) := by
  obtain ⟨⟨pal, font, ⟨w, isMain, tab, tool, sb, side, ct, cs⟩, wv, fs, diag⟩, th, css, ks, em⟩ := s
  cases tab <;> cases isMain <;> cases tool <;> cases side <;>
    simp [saveRoot, QMap.value_insert_of_ne, QMap.value_insert_self]

theorem scriptObject_eq (sc : QWebEngineScript) :
    scriptObject sc =
      QJsonValue.object
        [("name", QJsonValue.string sc.name), ("source", QJsonValue.string sc.sourceCode),
         ("urlPattern", QJsonValue.string (sc.urlPattern.getD ""))] := rfl

/-- C23: for every engine state, the `userScripts` list that
`saveSettingsToJson` writes is, in collection order, one object with the
members name, source and urlPattern for every script of the page's collection
whose world is the application world, and nothing else. After
`injectCustomCSS(u, css)` on a well-formed custom-CSS store that list contains
the object of the snippet named "CustomCSS_" + u, while `customCSS` holds css
under u: the snippet is written under both keys. -/
theorem save_userScripts (s : CustomizationEngine) (url css : String)
    (hwf : QMap.WF s.m_customCSS) :
    QMap.value (saveRoot s) "userScripts" =
        some (QJsonValue.array
          ((s.webView.scripts.filter
            (fun sc => sc.worldId == ScriptWorldId.ApplicationWorld)).map scriptObject)) ∧
      (∀ sc : QWebEngineScript, scriptObject sc =
        QJsonValue.object
          [("name", QJsonValue.string sc.name), ("source", QJsonValue.string sc.sourceCode),
           ("urlPattern", QJsonValue.string (sc.urlPattern.getD ""))]) ∧
      scriptObject (customCssScript url css) ∈
        (QJsonObject.get (saveRoot (injectCustomCSS url css s)) "userScripts").toArray ∧
      (customCssScript url css).name = "CustomCSS_" ++ url ∧
      QMap.value (QJsonObject.get (saveRoot (injectCustomCSS url css s)) "customCSS").toObject
        url = some (QJsonValue.string css) := by
  refine ⟨saveRoot_userScripts s, scriptObject_eq, ?_, rfl, ?_⟩
  · simp only [QJsonObject.get, saveRoot_userScripts, Option.getD_some, QJsonValue.toArray]
    apply List.mem_map_of_mem
    simp [injectCustomCSS, insertScript, emit, customCssScript]
  · have hwf2 : QMap.WF (injectCustomCSS url css s).m_customCSS :=
      QMap.WF_insert url css s.m_customCSS hwf
    have hobj := QMap.foldl_insert_of_WF (fun v => QJsonValue.string v)
      (injectCustomCSS url css s).m_customCSS [] (by simp [QMap.keys]) hwf2
    simp only [List.nil_append] at hobj
    simp only [QJsonObject.get, saveRoot_customCSS, Option.getD_some, QJsonValue.toObject, hobj]
    have hv : QMap.value (injectCustomCSS url css s).m_customCSS url = some css :=
      QMap.value_insert_self url css s.m_customCSS
    rw [QMap.value_map, hv]
    rfl

/-- Witness for C23 on the sample engine. -/
theorem save_userScripts_witness :
    QMap.WF sampleEngine.m_customCSS ∧
      scriptObject (customCssScript "a.com" "p \x7b \x7d") ∈
        (QJsonObject.get (saveRoot (injectCustomCSS "a.com" "p \x7b \x7d" sampleEngine))
          "userScripts").toArray :=
  ⟨by decide, (save_userScripts sampleEngine "a.com" "p \x7b \x7d" (by decide)).2.2.1⟩

/-! ## Resetting to the default settings -/

theorem applyTheme_of_value (themeName : String) (theme : Theme) (s : CustomizationEngine)
    (h : QMap.value s.m_themes themeName = some theme) :
    (applyTheme themeName s).appPalette = setThemeColors theme s.appPalette ∧
      (applyTheme themeName s).mainWindow.widget = applyThemeToWidget theme s.mainWindow.widget ∧
      (applyTheme themeName s).webView.javaScriptRun =
        s.webView.javaScriptRun ++ ["document.body.style.cssText = '" ++ themeCss theme ++ "';"] ∧
      (applyTheme themeName s).appFont = theme.mainFont ∧
      (applyTheme themeName s).emitted = s.emitted ++ [Signal.themeChanged themeName] := by
  simp [applyTheme, h, emit]

theorem resetToDefaultSettings_saves (s : CustomizationEngine) :
    ∃ pre : CustomizationEngine, resetToDefaultSettings s = saveCustomization pre ∧
      pre.m_customCSS = [] ∧ pre.webView.scripts = [] ∧ pre.m_keyboardShortcuts = [] ∧
      pre.webView.minimumFontSize = 12 ∧ pre.m_themes = s.m_themes ∧
      pre.mainWindow.currentTheme = s.mainWindow.currentTheme ∧ pre.fs = s.fs := by
  refine ⟨_, rfl, rfl, rfl, rfl, ?_, ?_, ?_, ?_⟩
  · simp [setMinimumFontSize, emit]
  · simp
  · simp
  · simp

theorem mem_emitted_setTabOrientation (orientation : TabOrientation) (s : CustomizationEngine) (x : Signal)
    (h : x ∈ s.emitted) : x ∈ (setTabOrientation orientation s).emitted := by
  unfold setTabOrientation
  split <;> first | exact h | exact List.mem_append_left _ h

theorem mem_emitted_setToolbarPosition (area : Int) (s : CustomizationEngine) (x : Signal)
    (h : x ∈ s.emitted) : x ∈ (setToolbarPosition area s).emitted := by
  unfold setToolbarPosition
  split
  · split <;> first | exact h | exact List.mem_append_left _ h
  · exact h

theorem mem_emitted_setStatusBarVisibility (visible : Bool) (s : CustomizationEngine) (x : Signal)
    (h : x ∈ s.emitted) : x ∈ (setStatusBarVisibility visible s).emitted := by
  unfold setStatusBarVisibility
  split <;> first | exact h | exact List.mem_append_left _ h

theorem mem_emitted_setSidebarPosition (area : Int) (s : CustomizationEngine) (x : Signal)
    (h : x ∈ s.emitted) : x ∈ (setSidebarPosition area s).emitted := by
  unfold setSidebarPosition
  split
  · split <;> first | exact h | exact List.mem_append_left _ h
  · exact h

theorem mem_emitted_setGlobalFont (font : QFont) (s : CustomizationEngine) (x : Signal)
    (h : x ∈ s.emitted) : x ∈ (setGlobalFont font s).emitted := by
  unfold setGlobalFont
  first | exact h | exact List.mem_append_left _ h

theorem mem_emitted_setMinimumFontSize (size : Int) (s : CustomizationEngine) (x : Signal)
    (h : x ∈ s.emitted) : x ∈ (setMinimumFontSize size s).emitted := by
  unfold setMinimumFontSize
  first | exact h | exact List.mem_append_left _ h

theorem mem_emitted_setColorScheme (schemeName : String) (s : CustomizationEngine) (x : Signal)
    (h : x ∈ s.emitted) : x ∈ (setColorScheme schemeName s).emitted := by
  unfold setColorScheme
  first | exact h | exact List.mem_append_left _ h

theorem mem_emitted_setZoomFactor (factor : ℚ) (s : CustomizationEngine) (x : Signal)
    (h : x ∈ s.emitted) : x ∈ (setZoomFactor factor s).emitted := by
  unfold setZoomFactor
  exact h

theorem mem_emitted_setDoNotTrack (enable : Bool) (s : CustomizationEngine) (x : Signal)
    (h : x ∈ s.emitted) : x ∈ (setDoNotTrack enable s).emitted := by
  unfold setDoNotTrack
  first | exact h | exact List.mem_append_left _ h

theorem mem_emitted_setThirdPartyCookiesPolicy (policy : Int) (s : CustomizationEngine) (x : Signal)
    (h : x ∈ s.emitted) : x ∈ (setThirdPartyCookiesPolicy policy s).emitted := by
  unfold setThirdPartyCookiesPolicy
  first | exact h | exact List.mem_append_left _ h

theorem mem_emitted_saveSettingsToJson (filename : String) (s : CustomizationEngine) (x : Signal)
    (h : x ∈ s.emitted) : x ∈ (saveSettingsToJson filename s).emitted := by
  unfold saveSettingsToJson
  split <;> exact h

theorem themeChanged_mem_reset (s : CustomizationEngine) (light : Theme)
    (hlight : QMap.value s.m_themes "Light" = some light) :
    Signal.themeChanged "Light" ∈ (resetToDefaultSettings s).emitted := by
  have h0 : Signal.themeChanged "Light" ∈ (applyTheme "Light" s).emitted := by
    rw [(applyTheme_of_value "Light" light s hlight).2.2.2.2]
    simp
  have h1 := mem_emitted_setThirdPartyCookiesPolicy QWebEngineProfile.AllowThirdPartyCookies _ _
    (mem_emitted_setDoNotTrack false _ _ (mem_emitted_setZoomFactor 1 _ _
      (mem_emitted_setColorScheme "Default" _ _ (mem_emitted_setMinimumFontSize 12 _ _
        (mem_emitted_setGlobalFont (QFont.ofFamilySize "Arial" 12) _ _
          (mem_emitted_setSidebarPosition Qt.LeftDockWidgetArea _ _
            (mem_emitted_setStatusBarVisibility true _ _
              (mem_emitted_setToolbarPosition Qt.TopToolBarArea _ _
                (mem_emitted_setTabOrientation TabOrientation.Horizontal _ _ h0)))))))))
  exact mem_emitted_saveSettingsToJson "customization.json" _ _ h1

/-- C21 (counterexample): on the engine whose window is a plain widget, not a
`QMainWindow`, with a hidden status bar, `resetToDefaultSettings` leaves the
status bar hidden. -/
theorem reset_keeps_status_bar_hidden :
    sampleEnginePlainWindow.mainWindow.isQMainWindow = false ∧
      sampleEnginePlainWindow.mainWindow.statusBarVisible = false ∧
      (resetToDefaultSettings sampleEnginePlainWindow).mainWindow.statusBarVisible = false := by
  decide

/-- C21 (amended): in every engine state whose registry holds a theme under
"Light", `resetToDefaultSettings` applies that theme (window and application
palettes, page styling, `themeChanged("Light")`), sets the application font to
Arial 12, the minimum font size to 12, the third-party-cookie policy to the
default "allow", the accept-language header to empty (Do-Not-Track off), makes
the status bar visible when the window is a `QMainWindow`, empties the
custom-CSS store, the shortcut map and the page's script collection, and leaves
the registry unchanged. When the settings file opens for writing, the document
it saves has `minimumFontSize == 12`, empty `customCSS`, `userScripts` and
`keyboardShortcuts`, and `currentTheme == "Light"` when the window's
`currentTheme` property names no registered theme. -/
theorem resetToDefaultSettings_defaults (s : CustomizationEngine) (light : Theme)
    (hlight : QMap.value s.m_themes "Light" = some light) :
    (resetToDefaultSettings s).appPalette = setThemeColors light s.appPalette ∧
      (resetToDefaultSettings s).mainWindow.widget =
        applyThemeToWidget light s.mainWindow.widget ∧
      (resetToDefaultSettings s).webView.javaScriptRun =
        s.webView.javaScriptRun ++ ["document.body.style.cssText = '" ++ themeCss light ++ "';"] ∧
      Signal.themeChanged "Light" ∈ (resetToDefaultSettings s).emitted ∧
      (resetToDefaultSettings s).appFont = QFont.ofFamilySize "Arial" 12 ∧
      (resetToDefaultSettings s).webView.minimumFontSize = 12 ∧
      (resetToDefaultSettings s).webView.thirdPartyCookiePolicy =
        QWebEngineProfile.AllowThirdPartyCookies ∧
      (resetToDefaultSettings s).webView.httpAcceptLanguage = "" ∧
      (s.mainWindow.isQMainWindow = true →
        (resetToDefaultSettings s).mainWindow.statusBarVisible = true) ∧
      (resetToDefaultSettings s).m_customCSS = [] ∧
      (resetToDefaultSettings s).m_keyboardShortcuts = [] ∧
      (resetToDefaultSettings s).webView.scripts = [] ∧
      (resetToDefaultSettings s).m_themes = s.m_themes ∧
      (canWrite s.fs "customization.json" = true →
        ∃ root, writtenDocument (resetToDefaultSettings s) = some root ∧
          QMap.value root "minimumFontSize" = some (QJsonValue.ofInt 12) ∧
          QMap.value root "customCSS" = some (QJsonValue.object []) ∧
          QMap.value root "userScripts" = some (QJsonValue.array []) ∧
          QMap.value root "keyboardShortcuts" = some (QJsonValue.object []) ∧
          ((QMap.keys s.m_themes).contains (s.mainWindow.currentTheme.getD "") = false →
            QMap.value root "currentTheme" = some (QJsonValue.string "Light"))) := by
  obtain ⟨hpal, hwid, hjs, hfont, hem⟩ := applyTheme_of_value "Light" light s hlight
  refine ⟨?_, ?_, ?_, ?_, ?_, ?_, ?_, ?_, ?_, ?_, ?_, ?_, ?_, ?_⟩
  · simpa [resetToDefaultSettings, saveCustomization] using hpal
  · simpa [resetToDefaultSettings, saveCustomization] using hwid
  · simpa [resetToDefaultSettings, saveCustomization] using hjs
  · exact themeChanged_mem_reset s light hlight
  · simp [resetToDefaultSettings, saveCustomization, setGlobalFont, emit]
  · simp [resetToDefaultSettings, saveCustomization, setMinimumFontSize, emit]
  · simp [resetToDefaultSettings, saveCustomization, setThirdPartyCookiesPolicy, emit]
  · simp [resetToDefaultSettings, saveCustomization, setDoNotTrack, emit]
  · intro hmain
    have h1 : (setToolbarPosition Qt.TopToolBarArea (setTabOrientation TabOrientation.Horizontal
        (applyTheme "Light" s))).mainWindow.isQMainWindow = true := by
      simpa using hmain
    simp [resetToDefaultSettings, saveCustomization, setStatusBarVisibility, h1, hmain, emit]
  · simp [resetToDefaultSettings, saveCustomization]
  · simp [resetToDefaultSettings, saveCustomization]
  · simp [resetToDefaultSettings, saveCustomization]
  · simp
  · intro hw
    obtain ⟨pre, hpre, hcss, hscripts, hkeys, hmin, hthemes, hprop, hfs⟩ :=
      resetToDefaultSettings_saves s
    refine ⟨saveRoot pre, ?_, ?_, ?_, ?_, ?_, ?_⟩
    · rw [hpre, writtenDocument_saveCustomization, hfs, if_pos hw]
    · rw [saveRoot_minimumFontSize, hmin]
    · rw [saveRoot_customCSS, hcss]
      rfl
    · rw [saveRoot_userScripts, hscripts]
      rfl
    · rw [saveRoot_keyboardShortcuts, hkeys]
      rfl
    · intro hnot
      rw [saveRoot_currentTheme, hthemes, hprop, hnot]
      rfl

/-- Witness for C21 (amended) on the sample engine, whose registry holds the
built-in "Light" theme. -/
theorem resetToDefaultSettings_defaults_witness :
    (resetToDefaultSettings sampleEngine).webView.minimumFontSize = 12 ∧
      (resetToDefaultSettings sampleEngine).appPalette.window =
        PaletteColor.plain ⟨255, 255, 255⟩ ∧
      (resetToDefaultSettings sampleEngine).mainWindow.statusBarVisible = true :=
  ⟨(resetToDefaultSettings_defaults sampleEngine
      { name := "Light", backgroundColor := ⟨255, 255, 255⟩, textColor := ⟨0, 0, 0⟩,
        accentColor := ⟨30, 144, 255⟩, mainFont := QFont.ofFamilySize "Arial" 12 }
      (by decide)).2.2.2.2.2.1,
    by decide, by decide⟩

end CustomizationEngine

/-! ## TabWidget: saving and restoring the tabs -/

namespace TabWidget

theorem setUrlAt_length_append (tabs : List Tab) (t : Tab) (url : QUrl) :
    setUrlAt tabs.length url (tabs ++ [t]) = tabs ++ [{ t with view := some url }] := by
  induction tabs with
  | nil => rfl
  | cons a rest ih => simp [setUrlAt, ih]

theorem addTab_valid (url : QUrl) (w : TabWidget) (h : url.isValid = true) :
    (addTab url w).tabs = w.tabs ++ [{ view := some url, text := "New Tab" }] := by
  simp [addTab, h, setUrlAt_length_append]

theorem restoreTabs_urls (urls : List QUrl) (hvalid : ∀ u ∈ urls, u.isValid = true)
    (rest : QByteArray) (w : TabWidget) :
    (restoreTabs urls.length (urls.map StreamItem.url ++ rest) w).tabs =
      w.tabs ++ urls.map (fun u => { view := some u, text := "New Tab" }) := by
  induction urls generalizing w with
  | nil => simp [restoreTabs]
  | cons u us ih =>
    have hu : u.isValid = true := hvalid u (by simp)
    have hus : ∀ v ∈ us, v.isValid = true := fun v hv => hvalid v (by simp [hv])
    simp only [List.length_cons, List.map_cons, List.cons_append, restoreTabs, readUrl]
    rw [ih hus, addTab_valid u w hu]
    simp

theorem saveState_of_views (w : TabWidget) (urls : List QUrl)
    (hviews : w.tabs.map (fun t => t.view) = urls.map some) :
    saveState w = StreamItem.int urls.length :: urls.map StreamItem.url := by
  have hlen : w.tabs.length = urls.length := by
    have := congrArg List.length hviews
    simpa using this
  have hfm : w.tabs.filterMap (fun t => t.view.map StreamItem.url) =
      (w.tabs.map (fun t => t.view)).filterMap (fun o => o.map StreamItem.url) := by
    rw [List.filterMap_map]
    rfl
  unfold saveState count
  rw [hfm, hviews, hlen, List.filterMap_map]
  congr 1
  induction urls with
  | nil => rfl
  | cons u us ih => simp

/-- C18: for every tab widget whose pages are all web views showing valid URLs
u_0..u_{n-1}, `restoreState` applied to a tab widget without tabs and the bytes
`saveState` produced returns true and leaves exactly n tabs, web views showing
u_0..u_{n-1} in the same order (each under the text "New Tab"). -/
theorem restoreState_saveState (w fresh : TabWidget) (urls : List QUrl)
    (hviews : w.tabs.map (fun t => t.view) = urls.map some)
    (hvalid : ∀ u ∈ urls, u.isValid = true) (hfresh : fresh.tabs = []) :
    (restoreState (saveState w) fresh).1 = true ∧
      (restoreState (saveState w) fresh).2.tabs =
        urls.map (fun u => { view := some u, text := "New Tab" }) ∧
      (restoreState (saveState w) fresh).2.tabs.map (fun t => t.view) =
        w.tabs.map (fun t => t.view) ∧
      (restoreState (saveState w) fresh).2.tabs.length = w.tabs.length := by
  have htabs : (restoreState (saveState w) fresh).2.tabs =
      urls.map (fun u => { view := some u, text := "New Tab" }) := by
    rw [saveState_of_views w urls hviews]
    have h := restoreTabs_urls urls hvalid [] fresh
    simp only [List.append_nil, hfresh, List.nil_append] at h
    simpa [restoreState, readInt] using h
  refine ⟨rfl, htabs, ?_, ?_⟩
  · rw [htabs, hviews]
    simp
  · rw [htabs]
    have := congrArg List.length hviews
    simpa using this.symm

/-- Witness for C18: the two tabs of the sample tab widget are restored. -/
theorem restoreState_saveState_witness :
    (restoreState (saveState sampleTabWidget) emptyTabWidget).2.tabs =
      [{ view := some { encoded := "https://example.org/", isValid := true }, text := "New Tab" },
       { view := some { encoded := "https://qt.io/", isValid := true }, text := "New Tab" }] :=
  (restoreState_saveState sampleTabWidget emptyTabWidget
    [{ encoded := "https://example.org/", isValid := true },
     { encoded := "https://qt.io/", isValid := true }]
    (by decide) (by decide) (by decide)).2.1

end TabWidget

/-! ## Content blocking and ad blocking -/

/-- C19: for every URL, navigation type and frame flag, and every base-class
decision, `WebPage::acceptNavigationRequest` returns the base decision, the
same with content blocking enabled as with it disabled.
`PrivacyManager::enableAdBlocking(true)` changes only the stored flag (and
emits `adBlockingStatusChanged(true)`); `updateAdBlockList` changes only the
"custom" entry of the rule lists; neither changes the profile's request
interceptor, so the same requests are accepted as before. -/
theorem blocking_hooks_are_stubs (base : QUrl → NavigationType → Bool → Bool) (page : WebPage)
    (url : QUrl) (type : NavigationType) (isMainFrame : Bool) (pm : PrivacyManager)
    (rules : List String) :
    WebPage.acceptNavigationRequest base (WebPage.enableContentBlocking true page) url type
        isMainFrame =
      WebPage.acceptNavigationRequest base (WebPage.enableContentBlocking false page) url type
        isMainFrame ∧
    WebPage.acceptNavigationRequest base page url type isMainFrame = base url type isMainFrame ∧
    PrivacyManager.enableAdBlocking true pm =
      { pm with
        m_adBlockingEnabled := true
        emitted := pm.emitted ++ [PrivacySignal.adBlockingStatusChanged true] } ∧
    PrivacyManager.updateAdBlockList rules pm =
      { pm with m_adBlockLists := QMap.insert "custom" rules pm.m_adBlockLists } ∧
    QMap.value (PrivacyManager.updateAdBlockList rules pm).m_adBlockLists "custom" = some rules ∧
    (∀ other, other ≠ "custom" →
      QMap.value (PrivacyManager.updateAdBlockList rules pm).m_adBlockLists other =
        QMap.value pm.m_adBlockLists other) ∧
    PrivacyManager.requestAccepted (PrivacyManager.enableAdBlocking true pm) url =
      PrivacyManager.requestAccepted pm url ∧
    PrivacyManager.requestAccepted (PrivacyManager.updateAdBlockList rules pm) url =
      PrivacyManager.requestAccepted pm url := by
  have hup : PrivacyManager.updateAdBlockList rules pm =
      { pm with m_adBlockLists := QMap.insert "custom" rules pm.m_adBlockLists } := by
    simp [PrivacyManager.updateAdBlockList, PrivacyManager.applyAdBlockRules]
  refine ⟨rfl, rfl, rfl, hup, ?_, ?_, rfl, ?_⟩
  · rw [hup]
    exact QMap.value_insert_self "custom" rules pm.m_adBlockLists
  · intro other ho
    rw [hup]
    exact QMap.value_insert_of_ne rules pm.m_adBlockLists ho
  · rw [hup]
    rfl

/-! ## WebPage: the page created for a new window -/

/-- C30: for every parent page, the page `createWindow` returns has the
parent's custom user agent, content-blocking flag, custom headers, custom CSS,
custom JS and CSS/JS enable flags; its script collection holds the "CustomCSS"
script exactly when the parent's CSS flag is on and its CSS text is non-empty,
and the "CustomJS" script exactly when the parent's JS flag is on and its JS
text is non-empty, each once and built from the parent's text. -/
theorem createWindow_copies (page : WebPage) :
    (WebPage.createWindow page).m_customUserAgent = page.m_customUserAgent ∧
      (WebPage.createWindow page).m_contentBlockingEnabled = page.m_contentBlockingEnabled ∧
      (WebPage.createWindow page).m_customHeaders = page.m_customHeaders ∧
      (WebPage.createWindow page).m_customCSS = page.m_customCSS ∧
      (WebPage.createWindow page).m_customJS = page.m_customJS ∧
      (WebPage.createWindow page).m_customCSSEnabled = page.m_customCSSEnabled ∧
      (WebPage.createWindow page).m_customJSEnabled = page.m_customJSEnabled ∧
      (WebPage.createWindow page).scripts =
        (if page.m_customCSSEnabled && !page.m_customCSS.isEmpty then
            [WebPage.customCssScript page.m_customCSS] else []) ++
          (if page.m_customJSEnabled && !page.m_customJS.isEmpty then
            [WebPage.customJsScript page.m_customJS] else []) ∧
      (WebPage.customCssScript page.m_customCSS).name = "CustomCSS" ∧
      (WebPage.customJsScript page.m_customJS).name = "CustomJS" := by
  obtain ⟨ua, cb, hd, css, js, cssOn, jsOn, scripts, pua⟩ := page
  cases cssOn <;> cases jsOn <;> cases h1 : css.isEmpty <;> cases h2 : js.isEmpty <;>
    simp [WebPage.createWindow, WebPage.new, WebPage.setCustomUserAgent,
      WebPage.enableContentBlocking, WebPage.setCustomHeaders, WebPage.setCustomCSS,
      WebPage.enableCustomCSS, WebPage.setCustomJS, WebPage.enableCustomJS,
      WebPage.injectCustomCSS, WebPage.injectCustomJS, WebPage.customCssScript,
      WebPage.customJsScript, QWebEngineScript.default, h1, h2]

/-! ## Integer helpers -/

theorem int32_of_range (x : Int) (h1 : -2147483648 ≤ x) (h2 : x ≤ 2147483647) : int32 x = x := by
  unfold int32 Int.bmod
  simp only [Nat.cast_ofNat]
  split <;> omega

theorem int64_of_range (x : Int) (h1 : -9223372036854775808 ≤ x)
    (h2 : x ≤ 9223372036854775807) : int64 x = x := by
  unfold int64 Int.bmod
  simp only [Nat.cast_ofNat]
  split <;> omega

/-! ## Browser: history and download progress -/

namespace Browser

theorem limitHistory_eq_take (fuel : Nat) (rows : List HistoryItem)
    (h : rows.length ≤ fuel + 1000) : limitHistory fuel rows = rows.take 1000 := by
  induction fuel generalizing rows with
  | zero =>
    simp only [limitHistory]
    exact (List.take_of_length_le (by omega)).symm
  | succ n ih =>
    simp only [limitHistory]
    split
    · rename_i hgt
      have hlen : rows.dropLast.length ≤ n + 1000 := by
        rw [List.length_dropLast]
        omega
      rw [ih rows.dropLast hlen, List.dropLast_eq_take, List.take_take]
      congr 1
      omega
    · exact (List.take_of_length_le (by omega)).symm

/-- C28: for every history model, URL and title, after `addToHistory(url,
title)` the history is the new entry followed by the previous rows in their
order, cut to its first 1000 rows: it has at most 1000 rows, row 0 is the new
entry (its text the title, or the URL's text when the title is empty, and
carrying the URL), and the rows after it are the first 999 previous rows. -/
theorem addToHistory_rows (url : QUrl) (title : String) (b : Browser) :
    (addToHistory url title b).m_historyModel =
        ({ text := if title.isEmpty then url.encoded else title, url := url } ::
          b.m_historyModel).take 1000 ∧
      (addToHistory url title b).m_historyModel.length ≤ 1000 ∧
      (addToHistory url title b).m_historyModel.head? =
        some { text := if title.isEmpty then url.encoded else title, url := url } ∧
      (addToHistory url title b).m_historyModel.tail = b.m_historyModel.take 999 ∧
      (addToHistory url title b).m_tabWidget = b.m_tabWidget := by
  have h : (addToHistory url title b).m_historyModel =
      ({ text := if title.isEmpty then url.encoded else title, url := url } ::
        b.m_historyModel).take 1000 := by
    unfold addToHistory
    exact limitHistory_eq_take _ _ (by omega)
  refine ⟨h, ?_, ?_, ?_, rfl⟩
  · rw [h, List.length_take]
    omega
  · rw [h]
    rfl
  · rw [h]
    rfl

/-- C29: for 64-bit byte counts with `bytesTotal > 0`, `0 <= bytesReceived <=
bytesTotal` and `bytesReceived * 100` within the `qint64` range, the progress
the handler stores is the floor of `bytesReceived * 100 / bytesTotal`, lies in
[0, 100], and is 100 exactly when `bytesReceived == bytesTotal`; for
`bytesTotal == 0` the division has no defined result. -/
theorem downloadProgress_floor (bytesReceived bytesTotal : Int) (ht : 0 < bytesTotal)
    (h0 : 0 ≤ bytesReceived) (hle : bytesReceived ≤ bytesTotal)
    (hmul : bytesReceived * 100 ≤ 9223372036854775807) :
    downloadProgress bytesReceived bytesTotal = some (bytesReceived * 100 / bytesTotal) ∧
      0 ≤ bytesReceived * 100 / bytesTotal ∧ bytesReceived * 100 / bytesTotal ≤ 100 ∧
      (bytesReceived * 100 / bytesTotal = 100 ↔ bytesReceived = bytesTotal) ∧
      downloadProgress bytesReceived 0 = none := by
  have hq0 : 0 ≤ bytesReceived * 100 / bytesTotal :=
    Int.ediv_nonneg (by omega) (by omega)
  have hq100 : bytesReceived * 100 / bytesTotal ≤ 100 := by
    have : bytesReceived * 100 / bytesTotal < 101 :=
      (Int.ediv_lt_iff_lt_mul ht).2 (by omega)
    omega
  have hiff : bytesReceived * 100 / bytesTotal = 100 ↔ bytesReceived = bytesTotal := by
    constructor
    · intro h
      have h1 : (100 : Int) ≤ bytesReceived * 100 / bytesTotal := by omega
      have h2 := (Int.le_ediv_iff_mul_le ht).1 h1
      omega
    · intro h
      subst h
      exact Int.mul_ediv_cancel_left 100 (by omega)
  refine ⟨?_, hq0, hq100, hiff, rfl⟩
  unfold downloadProgress
  rw [if_neg (by omega), int64_of_range _ (by omega) hmul,
    Int.tdiv_eq_ediv (by omega) (by omega), int64_of_range _ (by omega) (by omega),
    int32_of_range _ (by omega) (by omega)]

/-- Witness for C29: 50 of 200 bytes give progress 25. -/
theorem downloadProgress_floor_witness : downloadProgress 50 200 = some 25 :=
  (downloadProgress_floor 50 200 (by decide) (by decide) (by decide) (by decide)).1

end Browser

/-! ## Tabs: closing and cycling -/

theorem setUrlAt_length (n : Nat) (url : QUrl) (tabs : List Tab) :
    (setUrlAt n url tabs).length = tabs.length := by
  induction tabs generalizing n with
  | nil => cases n <;> rfl
  | cons t rest ih =>
    cases n with
    | zero => rfl
    | succ k => simp [setUrlAt, ih]

namespace TabWidget

theorem count_removeTab (index : Int) (w : TabWidget) (h0 : 0 ≤ index) (h1 : index < count w) :
    count (removeTab index w) = count w - 1 := by
  unfold removeTab
  rw [if_pos ⟨h0, h1⟩]
  unfold count at *
  simp only [List.length_eraseIdx]
  rw [if_pos (by omega)]
  omega

theorem removeTab_outside (index : Int) (w : TabWidget) (h : ¬ (0 ≤ index ∧ index < count w)) :
    removeTab index w = w := by
  unfold removeTab
  rw [if_neg h]

theorem count_addTab (url : QUrl) (w : TabWidget) : count (addTab url w) = count w + 1 := by
  unfold addTab count
  split <;> simp [setUrlAt_length]

theorem count_closeTab (index : Int) (w w2 : TabWidget) (hw : 1 ≤ count w)
    (h : closeTab index w = some w2) : 1 ≤ count w2 := by
  unfold closeTab at h
  split at h
  · split at h
    · rename_i hgt hin
      cases h
      rw [count_removeTab index w hin.1 hin.2]
      omega
    · cases h
  · cases h
    exact hw

theorem count_runCalls (calls : List Call) (w w2 : TabWidget) (hw : 1 ≤ count w)
    (h : runCalls calls w = some w2) : 1 ≤ count w2 := by
  induction calls generalizing w with
  | nil =>
    cases h
    exact hw
  | cons c rest ih =>
    cases c with
    | addTab url =>
      exact ih (addTab url w) (by rw [count_addTab]; omega) h
    | closeTab index =>
      simp only [runCalls] at h
      cases hc : closeTab index w with
      | none => rw [hc] at h; cases h
      | some w3 =>
        rw [hc] at h
        exact ih w3 (count_closeTab index w w3 hw hc) h

end TabWidget

namespace Browser

theorem count_newTab (url : QUrl) (b : Browser) :
    TabWidget.count (newTab url b).m_tabWidget = TabWidget.count b.m_tabWidget + 1 := by
  unfold newTab TabWidget.setCurrentIndex TabWidget.count
  simp only
  split <;> simp [setUrlAt_length]

theorem count_closeTab_ge (index : Int) (b : Browser) (hb : 1 ≤ TabWidget.count b.m_tabWidget) :
    1 ≤ TabWidget.count (closeTab index b).m_tabWidget := by
  unfold closeTab
  split
  · by_cases hin : 0 ≤ index ∧ index < TabWidget.count b.m_tabWidget
    · simp only
      rw [TabWidget.count_removeTab index _ hin.1 hin.2]
      omega
    · simp only
      rw [TabWidget.removeTab_outside index _ hin]
      exact hb
  · exact hb

theorem count_runCalls_ge (calls : List Call) (b : Browser)
    (hb : 1 ≤ TabWidget.count b.m_tabWidget) :
    1 ≤ TabWidget.count (runCalls calls b).m_tabWidget := by
  induction calls generalizing b with
  | nil => exact hb
  | cons c rest ih =>
    cases c with
    | newTab url => exact ih (newTab url b) (by rw [count_newTab]; omega)
    | closeTab index => exact ih (closeTab index b) (count_closeTab_ge index b hb)

end Browser

theorem TabWidget.runCalls_isSome (calls : List TabWidget.Call) (w : TabWidget)
    (hw : 1 ≤ TabWidget.count w)
    (h : ∀ c ∈ calls, c = TabWidget.Call.closeTab 0 ∨ ∃ url, c = TabWidget.Call.addTab url) :
    (TabWidget.runCalls calls w).isSome = true := by
  induction calls generalizing w with
  | nil => rfl
  | cons c rest ih =>
    have hrest : ∀ c ∈ rest, c = TabWidget.Call.closeTab 0 ∨
        ∃ url, c = TabWidget.Call.addTab url :=
      fun c hc => h c (List.mem_cons_of_mem _ hc)
    rcases h c (List.mem_cons_self _ _) with hc | ⟨url, hc⟩
    · subst hc
      simp only [TabWidget.runCalls]
      by_cases hgt : TabWidget.count w > 1
      · have e : TabWidget.closeTab 0 w = some (TabWidget.removeTab 0 w) := by
          unfold TabWidget.closeTab
          rw [if_pos hgt, if_pos ⟨le_refl _, by omega⟩]
        rw [e]
        exact ih _ (by rw [TabWidget.count_removeTab 0 w (le_refl _) (by omega)]; omega) hrest
      · have e : TabWidget.closeTab 0 w = some w := by
          unfold TabWidget.closeTab
          rw [if_neg hgt]
        rw [e]
        exact ih w hw hrest
    · subst hc
      simp only [TabWidget.runCalls]
      exact ih _ (by rw [TabWidget.count_addTab]; omega) hrest

namespace Browser

theorem nextTab_eq (b : Browser) (hn : 1 ≤ TabWidget.count b.m_tabWidget)
    (h0 : 0 ≤ b.m_tabWidget.currentIndex)
    (hi : b.m_tabWidget.currentIndex < TabWidget.count b.m_tabWidget)
    (hmax : TabWidget.count b.m_tabWidget ≤ 1073741824) :
    nextTab b = some { b with m_tabWidget := { b.m_tabWidget with
      currentIndex := (b.m_tabWidget.currentIndex + 1) % TabWidget.count b.m_tabWidget } } := by
  have hlt := Int.emod_lt_of_pos (b.m_tabWidget.currentIndex + 1)
    (show 0 < TabWidget.count b.m_tabWidget by omega)
  have hge := Int.emod_nonneg (b.m_tabWidget.currentIndex + 1)
    (show TabWidget.count b.m_tabWidget ≠ 0 by omega)
  unfold nextTab
  rw [if_neg (by omega)]
  simp only
  rw [int32_of_range _ (by omega) (by omega), Int.tmod_eq_emod (by omega) (by omega)]
  unfold TabWidget.setCurrentIndex
  rw [if_pos ⟨hge, hlt⟩]

theorem previousTab_eq (b : Browser) (hn : 1 ≤ TabWidget.count b.m_tabWidget)
    (h0 : 0 ≤ b.m_tabWidget.currentIndex)
    (hi : b.m_tabWidget.currentIndex < TabWidget.count b.m_tabWidget)
    (hmax : TabWidget.count b.m_tabWidget ≤ 1073741824) :
    previousTab b = some { b with m_tabWidget := { b.m_tabWidget with
      currentIndex := (b.m_tabWidget.currentIndex - 1 + TabWidget.count b.m_tabWidget) %
        TabWidget.count b.m_tabWidget } } := by
  have hlt := Int.emod_lt_of_pos
    (b.m_tabWidget.currentIndex - 1 + TabWidget.count b.m_tabWidget)
    (show 0 < TabWidget.count b.m_tabWidget by omega)
  have hge := Int.emod_nonneg
    (b.m_tabWidget.currentIndex - 1 + TabWidget.count b.m_tabWidget)
    (show TabWidget.count b.m_tabWidget ≠ 0 by omega)
  unfold previousTab
  rw [if_neg (by omega)]
  simp only
  rw [int32_of_range (b.m_tabWidget.currentIndex - 1) (by omega) (by omega),
    int32_of_range _ (by omega) (by omega), Int.tmod_eq_emod (by omega) (by omega)]
  unfold TabWidget.setCurrentIndex
  rw [if_pos ⟨hge, hlt⟩]

theorem nextTabs_eq (k : Nat) (b : Browser) (hn : 1 ≤ TabWidget.count b.m_tabWidget)
    (h0 : 0 ≤ b.m_tabWidget.currentIndex)
    (hi : b.m_tabWidget.currentIndex < TabWidget.count b.m_tabWidget)
    (hmax : TabWidget.count b.m_tabWidget ≤ 1073741824) :
    nextTabs k b = some { b with m_tabWidget := { b.m_tabWidget with
      currentIndex := (b.m_tabWidget.currentIndex + k) % TabWidget.count b.m_tabWidget } } := by
  induction k generalizing b with
  | zero =>
    simp only [nextTabs, Nat.cast_zero, Int.add_zero]
    rw [Int.emod_eq_of_lt h0 hi]
  | succ k ih =>
    have hlt := Int.emod_lt_of_pos (b.m_tabWidget.currentIndex + 1)
      (show 0 < TabWidget.count b.m_tabWidget by omega)
    have hge := Int.emod_nonneg (b.m_tabWidget.currentIndex + 1)
      (show TabWidget.count b.m_tabWidget ≠ 0 by omega)
    simp only [nextTabs]
    rw [nextTab_eq b hn h0 hi hmax]
    simp only
    have key := ih { b with m_tabWidget := { b.m_tabWidget with
      currentIndex := (b.m_tabWidget.currentIndex + 1) % TabWidget.count b.m_tabWidget } }
      hn hge hlt hmax
    rw [key]
    simp only [TabWidget.count, Nat.cast_add, Nat.cast_one]
    rw [Int.emod_add_emod]
    congr 4
    omega

end Browser

theorem next_prev_index (i n : Int) (h0 : 0 ≤ i) (hi : i < n) :
    ((i + 1) % n - 1 + n) % n = i := by
  by_cases h : i + 1 < n
  · have e1 : (i + 1) % n = i + 1 := Int.emod_eq_of_lt (by omega) h
    have e2 : i + 1 - 1 + n = i + n := by omega
    rw [e1, e2, Int.add_emod_self, Int.emod_eq_of_lt h0 hi]
  · have hn : i + 1 = n := by omega
    have e2 : (0 : Int) - 1 + n = i := by omega
    rw [hn, Int.emod_self, e2, Int.emod_eq_of_lt h0 hi]

theorem prev_next_index (i n : Int) (h0 : 0 ≤ i) (hi : i < n) :
    ((i - 1 + n) % n + 1) % n = i := by
  by_cases h : i = 0
  · subst h
    have e1 : ((0 : Int) - 1 + n) % n = 0 - 1 + n := Int.emod_eq_of_lt (by omega) (by omega)
    have e2 : (0 : Int) - 1 + n + 1 = n := by omega
    rw [e1, e2, Int.emod_self]
  · have e1 : (i - 1 + n) % n = i - 1 := by
      rw [Int.add_emod_self]
      exact Int.emod_eq_of_lt (by omega) (by omega)
    have e2 : i - 1 + 1 = i := by omega
    rw [e1, e2, Int.emod_eq_of_lt h0 hi]

/-- C26 (the claim as worded fails): the sample window has two tabs, and
`Browser::closeTab(5)` leaves both in place, not one: `removeTab` ignores an
index outside the tabs. -/
theorem closeTab_outside_keeps_every_tab :
    TabWidget.count sampleBrowser.m_tabWidget = 2 ∧
      TabWidget.count (Browser.closeTab 5 sampleBrowser).m_tabWidget = 2 ∧
      (Browser.closeTab 5 sampleBrowser).closed = false := by
  decide

/-- C26 (amended): closing a tab never leaves the tab container empty. For a
window `b` and a tab widget `w` with at least one tab: with more than one tab
and an index inside the tabs, `Browser::closeTab` and `TabWidget::closeTab`
leave one tab fewer (and the window open); with more than one tab and an index
outside the tabs `Browser::closeTab` changes nothing; with a single tab both
leave it in place and `Browser::closeTab` closes the window; `TabWidget::closeTab`
has a defined result exactly when there is at most one tab or the index is
inside the tabs; and the tab count stays at least 1 under every sequence of
`newTab` and `closeTab` calls on the window and under every sequence of `addTab`
and `closeTab` calls on the widget whose calls all have a defined result, which
the sequences that only add tabs and close tab 0 do. -/
theorem closeTab_leaves_a_tab (b : Browser) (w : TabWidget) (index : Int)
    (bcalls : List Browser.Call) (wcalls : List TabWidget.Call)
    (hb : 1 ≤ TabWidget.count b.m_tabWidget) (hw : 1 ≤ TabWidget.count w) :
    (1 < TabWidget.count b.m_tabWidget → 0 ≤ index → index < TabWidget.count b.m_tabWidget →
        TabWidget.count (Browser.closeTab index b).m_tabWidget =
            TabWidget.count b.m_tabWidget - 1 ∧
          (Browser.closeTab index b).closed = b.closed) ∧
      (1 < TabWidget.count b.m_tabWidget →
        ¬ (0 ≤ index ∧ index < TabWidget.count b.m_tabWidget) →
        Browser.closeTab index b = b) ∧
      (TabWidget.count b.m_tabWidget = 1 →
        Browser.closeTab index b = { b with closed := true }) ∧
      (1 < TabWidget.count w → 0 ≤ index → index < TabWidget.count w →
        ∃ w2, TabWidget.closeTab index w = some w2 ∧
          TabWidget.count w2 = TabWidget.count w - 1) ∧
      (TabWidget.count w = 1 → TabWidget.closeTab index w = some w) ∧
      ((TabWidget.closeTab index w).isSome = true ↔
        (TabWidget.count w ≤ 1 ∨ (0 ≤ index ∧ index < TabWidget.count w))) ∧
      1 ≤ TabWidget.count (Browser.runCalls bcalls b).m_tabWidget ∧
      (∀ w2, TabWidget.runCalls wcalls w = some w2 → 1 ≤ TabWidget.count w2) ∧
      ((∀ c ∈ wcalls, c = TabWidget.Call.closeTab 0 ∨ ∃ url, c = TabWidget.Call.addTab url) →
        (TabWidget.runCalls wcalls w).isSome = true) := by
  refine ⟨?_, ?_, ?_, ?_, ?_, ?_, Browser.count_runCalls_ge bcalls b hb,
    fun w2 h => TabWidget.count_runCalls wcalls w w2 hw h,
    TabWidget.runCalls_isSome wcalls w hw⟩
  · intro hgt h0 h1
    unfold Browser.closeTab
    rw [if_pos hgt]
    exact ⟨TabWidget.count_removeTab index _ h0 h1, rfl⟩
  · intro hgt hout
    unfold Browser.closeTab
    rw [if_pos hgt, TabWidget.removeTab_outside index _ hout]
  · intro h1
    unfold Browser.closeTab
    rw [if_neg (by omega)]
  · intro hgt h0 h1
    refine ⟨TabWidget.removeTab index w, ?_, TabWidget.count_removeTab index w h0 h1⟩
    unfold TabWidget.closeTab
    rw [if_pos hgt, if_pos ⟨h0, h1⟩]
  · intro h1
    unfold TabWidget.closeTab
    rw [if_neg (by omega)]
  · unfold TabWidget.closeTab
    by_cases hgt : TabWidget.count w > 1
    · by_cases hin : 0 ≤ index ∧ index < TabWidget.count w
      · rw [if_pos hgt, if_pos hin]
        simp [hin]
      · rw [if_pos hgt, if_neg hin]
        simp only [Option.isSome_none, Bool.false_eq_true, false_iff]
        intro h
        rcases h with h | h
        · omega
        · exact hin h
    · rw [if_neg hgt]
      simp only [Option.isSome_some, true_iff]
      left
      omega

/-- Witness for C26: closing tab 1 of the two sample tabs leaves one tab. -/
theorem closeTab_leaves_a_tab_witness :
    TabWidget.count (Browser.closeTab 1 sampleBrowser).m_tabWidget =
        TabWidget.count sampleBrowser.m_tabWidget - 1 ∧
      (Browser.closeTab 1 sampleBrowser).closed = sampleBrowser.closed :=
  (closeTab_leaves_a_tab sampleBrowser sampleTabWidget 1 [] [] (by decide) (by decide)).1
    (by decide) (by decide) (by decide)

/-- C27: for every tab count `n` with 1 <= n <= 2^30 and current index `i` with
0 <= i < n, `Browser::nextTab` selects `(i + 1) mod n` and
`Browser::previousTab` selects `(i - 1 + n) mod n`, both within [0, n) and
changing nothing else; `previousTab` after `nextTab` and `nextTab` after
`previousTab` restore the window, and `n` successive `nextTab` calls return to
it. The bound 2^30 keeps `i - 1 + n` within `int`. -/
theorem nextTab_previousTab_cycle (b : Browser) (hn : 1 ≤ TabWidget.count b.m_tabWidget)
    (h0 : 0 ≤ b.m_tabWidget.currentIndex)
    (hi : b.m_tabWidget.currentIndex < TabWidget.count b.m_tabWidget)
    (hmax : TabWidget.count b.m_tabWidget ≤ 1073741824) :
    Browser.nextTab b = some { b with m_tabWidget := { b.m_tabWidget with
        currentIndex := (b.m_tabWidget.currentIndex + 1) % TabWidget.count b.m_tabWidget } } ∧
      Browser.previousTab b = some { b with m_tabWidget := { b.m_tabWidget with
        currentIndex := (b.m_tabWidget.currentIndex - 1 + TabWidget.count b.m_tabWidget) %
          TabWidget.count b.m_tabWidget } } ∧
      0 ≤ (b.m_tabWidget.currentIndex + 1) % TabWidget.count b.m_tabWidget ∧
      (b.m_tabWidget.currentIndex + 1) % TabWidget.count b.m_tabWidget <
        TabWidget.count b.m_tabWidget ∧
      0 ≤ (b.m_tabWidget.currentIndex - 1 + TabWidget.count b.m_tabWidget) %
        TabWidget.count b.m_tabWidget ∧
      (b.m_tabWidget.currentIndex - 1 + TabWidget.count b.m_tabWidget) %
        TabWidget.count b.m_tabWidget < TabWidget.count b.m_tabWidget ∧
      (Browser.nextTab b).bind Browser.previousTab = some b ∧
      (Browser.previousTab b).bind Browser.nextTab = some b ∧
      Browser.nextTabs (TabWidget.count b.m_tabWidget).toNat b = some b := by
  have hpos : 0 < TabWidget.count b.m_tabWidget := by omega
  have hne : TabWidget.count b.m_tabWidget ≠ 0 := by omega
  have hnlt := Int.emod_lt_of_pos (b.m_tabWidget.currentIndex + 1) hpos
  have hnge := Int.emod_nonneg (b.m_tabWidget.currentIndex + 1) hne
  have hplt := Int.emod_lt_of_pos
    (b.m_tabWidget.currentIndex - 1 + TabWidget.count b.m_tabWidget) hpos
  have hpge := Int.emod_nonneg
    (b.m_tabWidget.currentIndex - 1 + TabWidget.count b.m_tabWidget) hne
  refine ⟨Browser.nextTab_eq b hn h0 hi hmax, Browser.previousTab_eq b hn h0 hi hmax,
    hnge, hnlt, hpge, hplt, ?_, ?_, ?_⟩
  · rw [Browser.nextTab_eq b hn h0 hi hmax, Option.some_bind]
    have key := Browser.previousTab_eq { b with m_tabWidget := { b.m_tabWidget with
      currentIndex := (b.m_tabWidget.currentIndex + 1) % TabWidget.count b.m_tabWidget } }
      hn hnge hnlt hmax
    rw [key]
    simp only [TabWidget.count] at *
    rw [next_prev_index _ _ h0 hi]
  · rw [Browser.previousTab_eq b hn h0 hi hmax, Option.some_bind]
    have key := Browser.nextTab_eq { b with m_tabWidget := { b.m_tabWidget with
      currentIndex := (b.m_tabWidget.currentIndex - 1 + TabWidget.count b.m_tabWidget) %
        TabWidget.count b.m_tabWidget } }
      hn hpge hplt hmax
    rw [key]
    simp only [TabWidget.count] at *
    rw [prev_next_index _ _ h0 hi]
  · rw [Browser.nextTabs_eq _ b hn h0 hi hmax, Int.toNat_of_nonneg (by omega),
      Int.add_emod_self, Int.emod_eq_of_lt h0 hi]

/-- Witness for C27: on the sample window (two tabs, the first current),
`previousTab` after `nextTab` restores the window. -/
theorem nextTab_previousTab_cycle_witness :
    (Browser.nextTab sampleBrowser).bind Browser.previousTab = some sampleBrowser :=
  (nextTab_previousTab_cycle sampleBrowser (by decide) (by decide) (by decide)
    (by decide)).2.2.2.2.2.2.1

end CppBrowser
